import Mathlib

/-! Pseudorange position solution with RAIM.

A shallow embedding of `core/lib/PosSol/PRSolution.cpp` (GNSSTk):

* `PreparePRSolution`  (lines 66-182)  builds the geometry/range matrix `SVP`,
* `SimplePRSolution`   (lines 188-516) the least-squares solver,
* `RAIMCompute`        (lines 541-838) the search over satellite exclusions.

Conventions of the embedding.

* `double` values are rationals: the parts embedded here only compare, add and
  scale them.
* A C++ exception is the result `none`.
* The ephemeris service, the numerical body of the solver (Gauss-Newton
  iteration, slopes, RMS) and the matrix inversion of `DOPCompute` are
  parameters of the embedding, collected in `External`.
* The a-priori memory (`addToMemory`, `updateAPSolution`, lines 811-816) writes
  only members that are read by the numerical body of a later epoch; those
  members are not part of the state below.
-/

namespace gnsstk

/-! ## Data model -/

/-- Modelled from the spec: the constellation tag of a satellite (the enumeration
`SatelliteSystem` is declared outside the sources at hand); tags are only
compared for equality, so the underlying integer is used. -/
abbrev SatelliteSystem := Nat

/-- Satellite identifier: `id > 0` included, `id <= 0` marked (excluded). -/
structure SatID where
  id : Int
  system : SatelliteSystem
deriving DecidableEq, Repr

/-- The container `Vector<double>`. -/
abbrev Vector := List ℚ

/-- The container `Matrix<double>`, as the list of its rows. -/
abbrev Matrix := List (List ℚ)

/-- The part of `Xvt` that the solution reads: position, clock bias and
relativity correction. -/
structure Xvt where
  x : ℚ × ℚ × ℚ
  clkbias : ℚ
  relcorr : ℚ
deriving DecidableEq, Repr

/-- Modelled from the spec: speed of light in m/s (`C_MPS`, declared outside the
sources at hand), used to turn a range into a transit time and a clock bias
into a range. -/
def C_MPS : ℚ := 299792458

/-- Modelled from the spec: `vectorindex(vec, value)` (declared outside the
sources at hand) is the index of the first element equal to `value`, or `-1`
when there is none; the source uses it as the test "constellation is in the
list". -/
def vectorindex {α : Type} [DecidableEq α] (vec : List α) (value : α) : Int :=
  if vec.indexOf value < vec.length then (vec.indexOf value : Int) else -1

/-- Member data of the class `PRSolution`: configuration first, then the
outputs of a solution. -/
structure PRSolution where
  allowedGNSS : List SatelliteSystem
  RMSLimit : ℚ
  SlopeLimit : ℚ
  NSatsReject : Int
  MaxNIterations : Int
  ConvergenceLimit : ℚ
  hasMemory : Bool
  Valid : Bool
  currTime : ℚ
  SatelliteIDs : List SatID
  dataGNSS : List SatelliteSystem
  Solution : Vector
  Covariance : Matrix
  invMeasCov : Matrix
  Partials : Matrix
  PreFitResidual : Vector
  RMSResidual : ℚ
  MaxSlope : ℚ
  TropFlag : Bool
  SlopeFlag : Bool
  RMSFlag : Bool
  Nsvs : Nat
  NIterations : Int
  Convergence : ℚ
  PDOP : ℚ
  TDOP : ℚ
  GDOP : ℚ
deriving DecidableEq, Repr

/-- What the solver has written when the normal matrix turns out singular
(`return -2`, line 425): the members and output arguments touched before the
inversion. -/
structure Singular where
  Solution : Vector
  Covariance : Matrix
  TropFlag : Bool
  Resids : Vector
  Slopes : Vector
deriving DecidableEq, Repr

/-- What the solver has computed when its iteration loop ends (lines 470-509). -/
structure Fit where
  Solution : Vector
  Covariance : Matrix
  invMeasCov : Matrix
  Partials : Matrix
  PreFitResidual : Vector
  RMSResidual : ℚ
  MaxSlope : ℚ
  TropFlag : Bool
  NIterations : Int
  Convergence : ℚ
  Resids : Vector
  Slopes : Vector
deriving DecidableEq, Repr

/-- Outcome of the numerical body of `SimplePRSolution`: a singular normal
matrix, or the end of the iteration loop with `converged` telling whether the
loop left with `iret = 0` (line 450) or `iret = -1` (line 466). -/
inductive Numeric where
  | singular (s : Singular)
  | ended (converged : Bool) (f : Fit)
deriving DecidableEq, Repr

/-- The collaborators of the solution that are not embedded: the ephemeris
service (`NavLibrary::getXvt` asked for healthy, valid data; `none` is its
result `false`), the numerical body of the solver as a function of the
arguments of `SimplePRSolution`, and the DOP computation on the partials
matrix (`none` when `inverseLUD` throws). -/
structure External where
  getXvt : SatID → ℚ → Option Xvt
  solve : ℚ → List SatID → Matrix → Matrix → Int → ℚ → Numeric
  DOPCompute : Matrix → Option (ℚ × ℚ × ℚ)

/-! ## PreparePRSolution -/

/-- Lines 87-97: mark the satellites whose system is not in `allowedGNSS` and
count the others that are not marked. Result: the list after marking and `N`. -/
def markSystems (allowedGNSS : List SatelliteSystem) : List SatID → List SatID × Nat
  | [] => ([], 0)
  | s :: rest =>
    let r := markSystems allowedGNSS rest
    if s.id ≤ 0 then (s :: r.1, r.2)
    else if vectorindex allowedGNSS s.system = -1 then
      ({ s with id := -s.id } :: r.1, r.2)
    else (s :: r.1, r.2 + 1)

/-- The effect of one pass of the satellite loop (lines 105-176) on its
satellite. -/
structure SatStep where
  sat : SatID
  row : List ℚ
  noeph : Nat
  NSVS : Nat
  queries : List (SatID × ℚ)
deriving DecidableEq, Repr

/-- One pass of the satellite loop, lines 107-175, for satellite `s` with
pseudorange `pr`. -/
def prepareSat (getXvt : SatID → ℚ → Option Xvt) (Tr : ℚ) (s : SatID) (pr : ℚ) : SatStep :=
  if s.id ≤ 0 then ⟨s, [0, 0, 0, 0], 0, 0, []⟩
  else
    let tx := Tr - pr / C_MPS
    match getXvt s tx with
    | none => ⟨{ s with id := -(abs s.id) }, [0, 0, 0, 0], 1, 0, [(s, tx)]⟩
    | some PVT =>
      let tx2 := tx - (PVT.clkbias + PVT.relcorr)
      match getXvt s tx2 with
      | none => ⟨{ s with id := -(abs s.id) }, [0, 0, 0, 0], 1, 0, [(s, tx), (s, tx2)]⟩
      | some PVT2 =>
        ⟨s, [PVT2.x.1, PVT2.x.2.1, PVT2.x.2.2, pr + C_MPS * (PVT2.clkbias + PVT2.relcorr)],
          0, 1, [(s, tx), (s, tx2)]⟩

/-- Accumulated effect of the satellite loop. -/
structure PrepareLoop where
  Sats : List SatID
  SVP : Matrix
  noeph : Nat
  NSVS : Nat
  queries : List (SatID × ℚ)
deriving DecidableEq, Repr

/-- The satellite loop, lines 105-176; `Pseudorange` runs parallel to the
satellites (a missing entry reads as 0). -/
def prepareLoop (getXvt : SatID → ℚ → Option Xvt) (Tr : ℚ) :
    List SatID → List ℚ → PrepareLoop
  | [], _ => ⟨[], [], 0, 0, []⟩
  | s :: rest, Pseudorange =>
    let st := prepareSat getXvt Tr s (Pseudorange.headD 0)
    let r := prepareLoop getXvt Tr rest Pseudorange.tail
    ⟨st.sat :: r.Sats, st.row :: r.SVP, st.noeph + r.noeph, st.NSVS + r.NSVS,
      st.queries ++ r.queries⟩

/-- Result of `PreparePRSolution`: the returned integer, the satellite list as
left by the call, the matrix `SVP`, and the ephemeris queries made, in order. -/
structure Prepared where
  ret : Int
  Sats : List SatID
  SVP : Matrix
  queries : List (SatID × ℚ)
deriving DecidableEq, Repr

/-- The function `PRSolution::PreparePRSolution`, lines 66-182. -/
def PreparePRSolution (self : PRSolution) (getXvt : SatID → ℚ → Option Xvt) (Tr : ℚ)
    (Sats : List SatID) (Pseudorange : List ℚ) : Option Prepared :=
  if self.allowedGNSS.length = 0 then none
  else
    let m := markSystems self.allowedGNSS Sats
    let N : Int := m.2
    let SVP : Matrix := List.replicate Sats.length [0, 0, 0, 0]
    if N ≤ 0 then some ⟨0, m.1, SVP, []⟩
    else
      let l := prepareLoop getXvt Tr m.1 Pseudorange
      if (l.noeph : Int) = N then some ⟨-4, l.Sats, l.SVP, l.queries⟩
      else some ⟨(l.NSVS : Int), l.Sats, l.SVP, l.queries⟩

/-! ## SimplePRSolution -/

/-- One pass of the counting loop, lines 229-240. The accumulator is
`(Nsvs, tempGNSS)`. -/
def countStep (allowedGNSS : List SatelliteSystem) (acc : Nat × List SatelliteSystem)
    (s : SatID) : Nat × List SatelliteSystem :=
  if s.id ≤ 0 then acc
  else if vectorindex allowedGNSS s.system = -1 then acc
  else (acc.1 + 1, if vectorindex acc.2 s.system = -1 then acc.2 ++ [s.system] else acc.2)

/-- The counting loop, lines 229-240: `(Nsvs, tempGNSS)`. -/
def countSystems (allowedGNSS : List SatelliteSystem) (Sats : List SatID) :
    Nat × List SatelliteSystem :=
  Sats.foldl (countStep allowedGNSS) (0, [])

/-- Lines 243-245: `currGNSS`, the entries of `allowedGNSS` found in `tempGNSS`. -/
def sortSystems (allowedGNSS tempGNSS : List SatelliteSystem) : List SatelliteSystem :=
  allowedGNSS.filter (fun g => decide (vectorindex tempGNSS g ≠ -1))

/-- Result of `SimplePRSolution`: return code, the object after the call and
the two output arguments. -/
structure Solved where
  iret : Int
  self : PRSolution
  Resids : Vector
  Slopes : Vector
deriving DecidableEq, Repr

/-- The members written on the way to `return -2` (line 425). -/
def writeSingular (self : PRSolution) (s : Singular) : PRSolution :=
  { self with Solution := s.Solution, Covariance := s.Covariance, TropFlag := s.TropFlag }

/-- The members written by a call whose iteration loop ends (lines 476-510);
`PreFitResidual` is assigned only with `hasMemory`. -/
def writeFit (self : PRSolution) (T : ℚ) (Sats : List SatID)
    (currGNSS : List SatelliteSystem) (f : Fit) : PRSolution :=
  { self with
    Solution := f.Solution, Covariance := f.Covariance, TropFlag := f.TropFlag,
    MaxSlope := f.MaxSlope,
    PreFitResidual := if self.hasMemory then f.PreFitResidual else self.PreFitResidual,
    RMSResidual := f.RMSResidual, currTime := T, SatelliteIDs := Sats,
    dataGNSS := currGNSS, invMeasCov := f.invMeasCov, Partials := f.Partials,
    NIterations := f.NIterations, Convergence := f.Convergence, Valid := true }

/-- The function `PRSolution::SimplePRSolution`, lines 188-516. `pTropModel` tells whether
the pointer is non-null. The three guards of lines 198-213 and the counting
check of line 403 throw. -/
def SimplePRSolution (self : PRSolution) (ext : External) (T : ℚ) (Sats : List SatID)
    (SVP invMC : Matrix) (pTropModel : Bool) (niterLimit : Int) (convLimit : ℚ)
    (Resids Slopes : Vector) : Option Solved :=
  if pTropModel = false then none
  else if Sats.length ≠ SVP.length ∨ (invMC.length > 0 ∧ invMC.length ≠ Sats.length) then none
  else if self.allowedGNSS.length = 0 then none
  else
    let cnt := countSystems self.allowedGNSS Sats
    let currGNSS := sortSystems self.allowedGNSS cnt.2
    let self1 := { self with Valid := false, Nsvs := cnt.1 }
    let dim := 3 + currGNSS.length
    if cnt.1 < dim then some ⟨-3, self1, Resids, Slopes⟩
    else if (Sats.filter (fun s => decide (0 < s.id))).length ≠ cnt.1 then none
    else
      match ext.solve T Sats SVP invMC niterLimit convLimit with
      | Numeric.singular s => some ⟨-2, writeSingular self1 s, s.Resids, s.Slopes⟩
      | Numeric.ended converged f =>
        some ⟨if converged then 0 else -1, writeFit self1 T Sats currGNSS f, f.Resids, f.Slopes⟩

/-! ## RAIMCompute -/

/-- All sublists with `k` elements of a list of positions, in lexicographic
order of the positions. -/
def kSubsets : Nat → List Nat → List (List Nat)
  | 0, _ => [[]]
  | _ + 1, [] => []
  | k + 1, x :: xs => (kSubsets k xs).map (fun c => x :: c) ++ kSubsets (k + 1) xs

/-- Modelled from the spec: the class `Combinations` (declared outside the
sources at hand), "given N and a reject-count k, enumerates all k-subsets of
{0..N-1}". The value is the sequence of selections that the object runs
through, starting with the one it is constructed with and continuing with
each successful `Next()`; `isSelected(i)` is membership of `i` in the current
selection. The order is lexicographic, first selection `{0,..,k-1}`. The
constructor has no selection to offer when `K > N` or an argument is
negative: it throws. -/
def Combinations (N K : Int) : Option (List (List Nat)) :=
  if K > N ∨ N < 0 ∨ K < 0 then none
  else some (kSubsets K.toNat (List.range N.toNat))

/-- The `id` member of `Sats[i]` (0 outside the list). -/
def idAt (Sats : List SatID) (i : Nat) : Int :=
  match Sats[i]? with
  | some s => s.id
  | none => 0

/-- Lines 606-608: the indexes of the satellites with `id > 0`. -/
def GoodIndexes (Sats : List SatID) : List Nat :=
  (List.range Sats.length).filter (fun i => decide (0 < idAt Sats i))

/-- The assignment `Sats[k].id = -::abs(Sats[k].id)`. -/
def markAt (Sats : List SatID) (k : Nat) : List SatID :=
  match Sats[k]? with
  | some s => Sats.set k { s with id := -(abs s.id) }
  | none => Sats

/-- Lines 638-641: restore the saved list and mark the satellites selected by
the current combination. -/
def markCombo (SaveSats : List SatID) (Good : List Nat) (Combo : List Nat) : List SatID :=
  (List.range Good.length).foldl
    (fun Sats i => if i ∈ Combo then markAt Sats (Good.getD i 0) else Sats) SaveSats

/-- The local variables `Best...` of `RAIMCompute` (lines 560-566). -/
structure Best where
  BestTropFlag : Bool
  BestNIter : Int
  BestIret : Int
  BestRMS : ℚ
  BestSL : ℚ
  BestConv : ℚ
  BestSol : Vector
  BestPFR : Vector
  BestSats : List SatID
  BestCov : Matrix
  BestInvMCov : Matrix
  BestPartials : Matrix
  BestGNSS : List SatelliteSystem
deriving DecidableEq, Repr

/-- The initial values of lines 560-566; `BestRMS = -1` marks the set as
unused. -/
def Best.init : Best :=
  { BestTropFlag := false, BestNIter := 0, BestIret := -5, BestRMS := -1, BestSL := 0,
    BestConv := 0, BestSol := [0, 0, 0], BestPFR := [], BestSats := [], BestCov := [],
    BestInvMCov := [], BestPartials := [], BestGNSS := [] }

/-- The variables carried through the two loops of `RAIMCompute`: the object,
the argument `Sats`, `iret`, the best set, the output vectors of the solver,
and the list of satellite markings the solver has been called with. -/
structure Search where
  self : PRSolution
  Sats : List SatID
  iret : Int
  best : Best
  Resids : Vector
  Slopes : Vector
  calls : List (List SatID)
deriving DecidableEq, Repr

/-- Lines 701-713: the best set taken from the members just computed. -/
def bestOf (self : PRSolution) (iret : Int) : Best :=
  { BestRMS := self.RMSResidual, BestSol := self.Solution, BestSats := self.SatelliteIDs,
    BestGNSS := self.dataGNSS, BestSL := self.MaxSlope, BestConv := self.Convergence,
    BestNIter := self.NIterations, BestCov := self.Covariance,
    BestInvMCov := self.invMeasCov, BestPartials := self.Partials,
    BestPFR := self.PreFitResidual, BestTropFlag := self.TropFlag, BestIret := iret }

/-- Lines 700-714: keep the solution just computed if it is the first or has a
smaller RMS residual than the best so far. -/
def saveBest (self : PRSolution) (iret : Int) (b : Best) : Best :=
  if b.BestRMS < 0 ∨ self.RMSResidual < b.BestRMS then bestOf self iret else b

/-- Lines 700-717 for the state `st` reached after a solver call: save the
best, and leave the loop at stage 0 when the RMS is below the limit. The
boolean is `true` for `break`. -/
def record (stage : Int) (st : Search) : Search × Bool :=
  let st2 := { st with best := saveBest st.self st.iret st.best }
  if stage = 0 ∧ st.self.RMSResidual < st.self.RMSLimit then (st2, true) else (st2, false)

/-- Line 666: `BestIret` follows the largest code, not above 0, that the solver
has returned. -/
def noteIret (iret : Int) (b : Best) : Best :=
  if iret ≤ 0 ∧ iret > b.BestIret then { b with BestIret := iret } else b

/-- The body of the combination loop, lines 637-717, for the selection `Combo`.
The boolean is `true` when the body ends with `break`, `false` when control
goes to the loop condition `Combo.Next() != -1`. -/
def trial (ext : External) (Tr : ℚ) (SVP invMC : Matrix) (pTropModel : Bool)
    (SaveSats : List SatID) (Good : List Nat) (stage : Int) (Combo : List Nat)
    (st : Search) : Option (Search × Bool) :=
  let Sats := markCombo SaveSats Good Combo
  match SimplePRSolution st.self ext Tr Sats SVP invMC pTropModel st.self.MaxNIterations
      st.self.ConvergenceLimit st.Resids st.Slopes with
  | none => none
  | some r =>
    let iret := r.iret
    let st1 : Search :=
      { self := r.self, Sats := Sats, iret := iret, best := noteIret iret st.best,
        Resids := r.Resids, Slopes := r.Slopes, calls := st.calls ++ [Sats] }
    if iret < 0 then
      if iret = -1 then some (st1, false)
      else if iret = -2 then some (st1, false)
      else if iret = -3 then some (st1, true)
      else if iret = -4 then some (st1, true)
      else some (record stage st1)
    else some (record stage st1)

/-- The combination loop, lines 636-719, over the selections of one stage. -/
def comboLoop (ext : External) (Tr : ℚ) (SVP invMC : Matrix) (pTropModel : Bool)
    (SaveSats : List SatID) (Good : List Nat) (stage : Int) :
    List (List Nat) → Search → Option Search
  | [], st => some st
  | Combo :: rest, st =>
    match trial ext Tr SVP invMC pTropModel SaveSats Good stage Combo st with
    | none => none
    | some (st1, true) => some st1
    | some (st1, false) =>
      comboLoop ext Tr SVP invMC pTropModel SaveSats Good stage rest st1

/-- The stage loop, lines 631-747, entered at `stage`. The first argument
counts the stages that can still be entered, `N + 1 - stage`: for `stage > N`
the constructor of `Combinations` throws. -/
def stageLoop (ext : External) (Tr : ℚ) (SVP invMC : Matrix) (pTropModel : Bool)
    (SaveSats : List SatID) (Good : List Nat) (N : Int) :
    Nat → Int → Search → Option Search
  | 0, _, _ => none
  | left + 1, stage, st =>
    match Combinations N stage with
    | none => none
    | some combos =>
      match comboLoop ext Tr SVP invMC pTropModel SaveSats Good stage combos st with
      | none => none
      | some st1 =>
        if st1.best.BestRMS > 0 ∧ st1.best.BestRMS < st1.self.RMSLimit then
          some { st1 with iret := 0 }
        else if st1.self.NSatsReject > -1 ∧ stage + 1 > st1.self.NSatsReject then some st1
        else if st1.iret = -3 ∨ st1.iret = -4 then some st1
        else stageLoop ext Tr SVP invMC pTropModel SaveSats Good N left (stage + 1) st1

/-- A counted loop `for(i=0; i<n; i++) body`. -/
def forLoop {σ : Type} (n : Nat) (body : Nat → σ → σ) (s : σ) : σ :=
  (List.range n).foldl (fun acc i => body i acc) s

/-- Read `M(i,j)`. -/
def Matrix.entry (M : Matrix) (i j : Nat) : ℚ := (M.getD i []).getD j 0

/-- Write `M(i,j) = v`. -/
def Matrix.setEntry (M : Matrix) (i j : Nat) (v : ℚ) : Matrix :=
  M.set i ((M.getD i []).set j v)

/-- The constructor `Matrix<double>(r,c,0.0)`. -/
def Matrix.zero (r c : Nat) : Matrix := List.replicate r (List.replicate c 0)

/-- Lines 774-777: the map from the positions of `dataGNSS` to those of
`BestGNSS`, with `-1` for a system that is not in `BestGNSS`. The accumulator
is `(indexes, j)`. -/
def expandIndexes (dataGNSS BestGNSS : List SatelliteSystem) : List Int :=
  (dataGNSS.foldl
    (fun (acc : List Int × Nat) g =>
      if BestGNSS[acc.2]? = some g then (acc.1 ++ [(acc.2 : Int)], acc.2 + 1)
      else (acc.1 ++ [-1], acc.2))
    ([], 0)).1

/-- The writes to `Solution` of lines 769-801. -/
def expandSolution (N : Nat) (indexes : List Int) (BestSol : Vector) : Vector :=
  let S0 : Vector := List.replicate N 0
  let S1 := forLoop 3 (fun i S => S.set i (BestSol.getD i 0)) S0
  forLoop indexes.length
    (fun j S =>
      let n := indexes.getD j (-1)
      S.set (3 + j) (if n ≠ -1 then BestSol.getD (3 + n).toNat 0 else 0)) S1

/-- The writes to `Partials` of lines 771-801. -/
def expandPartials (N : Nat) (indexes : List Int) (BestPartials : Matrix) : Matrix :=
  let P0 := Matrix.zero BestPartials.length N
  let P1 := forLoop 3
    (fun i P => forLoop P.length (fun j P => P.setEntry j i (BestPartials.entry j i)) P) P0
  forLoop indexes.length
    (fun j P =>
      let n := indexes.getD j (-1)
      forLoop P.length
        (fun i P =>
          P.setEntry i (3 + j) (if n ≠ -1 then BestPartials.entry i (3 + n).toNat else 0)) P)
    P1

/-- The writes to `Covariance` of lines 770-801. -/
def expandCovariance (N : Nat) (indexes : List Int) (BestCov : Matrix) : Matrix :=
  let C0 := Matrix.zero N N
  let C1 := forLoop 3
    (fun i C =>
      let C := forLoop 3 (fun j C => C.setEntry i j (BestCov.entry i j)) C
      forLoop indexes.length
        (fun j C =>
          let n := indexes.getD j (-1)
          let C := C.setEntry i (3 + j) (if n = -1 then 0 else BestCov.entry i (3 + n).toNat)
          C.setEntry (3 + j) i (if n = -1 then 0 else BestCov.entry (3 + n).toNat i)) C)
    C0
  forLoop indexes.length
    (fun j C =>
      let n := indexes.getD j (-1)
      forLoop indexes.length
        (fun i C =>
          let C := C.setEntry (3 + i) (3 + j)
            (if n ≠ -1 then BestCov.entry (3 + i) (3 + n).toNat else 0)
          C.setEntry (3 + j) (3 + i)
            (if n ≠ -1 then BestCov.entry (3 + n).toNat (3 + i) else 0)) C)
    C1

/-- Lines 752-764: copy the best set to the members. -/
def copyBest (self : PRSolution) (b : Best) : PRSolution :=
  { self with
    SatelliteIDs := b.BestSats, dataGNSS := b.BestGNSS, Solution := b.BestSol,
    Covariance := b.BestCov, invMeasCov := b.BestInvMCov, Partials := b.BestPartials,
    PreFitResidual := b.BestPFR, Convergence := b.BestConv, NIterations := b.BestNIter,
    RMSResidual := b.BestRMS, MaxSlope := b.BestSL, TropFlag := b.BestTropFlag }

/-- Lines 766-802: when the sizes of `dataGNSS` and `BestGNSS` differ, rebuild
`Solution`, `Covariance` and `Partials` with `3 + dataGNSS.size()` unknowns. -/
def expandBest (self : PRSolution) (b : Best) : PRSolution :=
  if self.dataGNSS.length ≠ b.BestGNSS.length then
    let N := 3 + self.dataGNSS.length
    let indexes := expandIndexes self.dataGNSS b.BestGNSS
    { self with
      Solution := expandSolution N indexes b.BestSol,
      Covariance := expandCovariance N indexes b.BestCov,
      Partials := expandPartials N indexes b.BestPartials }
  else self

/-- Result of `RAIMCompute`: the return code, the object and the argument
`Sats` on return, the satellite markings the solver was called with, in order,
and the ephemeris queries made. -/
structure RAIMResult where
  iret : Int
  self : PRSolution
  Sats : List SatID
  calls : List (List SatID)
  queries : List (SatID × ℚ)
deriving DecidableEq, Repr

/-- Lines 821-828: raise the code of a solution to 1 and set the flags; the
result is the final code and object. -/
def conclude (iret : Int) (self : PRSolution) (BestSL BestRMS : ℚ) : Int × PRSolution :=
  if iret = 0 then
    let a : Int × PRSolution :=
      if BestSL > self.SlopeLimit then (1, { self with SlopeFlag := true }) else (iret, self)
    let b : Int × PRSolution :=
      if BestSL > a.2.SlopeLimit / 2 ∧ a.2.Nsvs = 5 then (1, { a.2 with SlopeFlag := true })
      else a
    let c : Int × PRSolution :=
      if BestRMS ≥ b.2.RMSLimit then (1, { b.2 with RMSFlag := true }) else b
    let d : Int := if c.2.TropFlag then 1 else c.1
    (d, { c.2 with Valid := true })
  else if iret = -1 then (iret, { self with Valid := false })
  else (iret, self)

/-- Lines 752-807: the members after the best solution has been copied out and
the satellites in use have been counted. -/
def copyOut (self : PRSolution) (b : Best) : PRSolution :=
  let self1 := expandBest (copyBest self b) b
  { self1 with Nsvs := (self1.SatelliteIDs.filter (fun s => decide (s.id > 0))).length }

/-- Lines 749-833: copy out the best solution when the loops end with
`iret >= 0`, compute the DOPs for code 0, then set code and flags. -/
def finish (ext : External) (queries : List (SatID × ℚ)) (st : Search) : Option RAIMResult :=
  if st.iret ≥ 0 then
    let self2 := copyOut st.self st.best
    let iret := st.best.BestIret
    if iret = 0 then
      match ext.DOPCompute self2.Partials with
      | none => none
      | some d =>
        let self3 := { self2 with PDOP := d.1, TDOP := d.2.1, GDOP := d.2.2 }
        let c := conclude iret self3 st.best.BestSL st.best.BestRMS
        some ⟨c.1, c.2, st.best.BestSats, st.calls, queries⟩
    else
      let c := conclude iret self2 st.best.BestSL st.best.BestRMS
      some ⟨c.1, c.2, st.best.BestSats, st.calls, queries⟩
  else
    let c := conclude st.iret st.self st.best.BestSL st.best.BestRMS
    some ⟨c.1, c.2, st.Sats, st.calls, queries⟩

/-- Lines 569-571: the members set on entry to `RAIMCompute`. -/
def initialise (self : PRSolution) (Tr : ℚ) : PRSolution :=
  { self with Valid := false, currTime := Tr, TropFlag := false, SlopeFlag := false,
              RMSFlag := false }

/-- The loop variables of `RAIMCompute` before the first stage (lines 555-566,
605, 624-629). `iret` is not initialised by the source; it is assigned by the
first solver call before it is read, and starts here at the initial value of
`BestIret`. -/
def Search.init (self0 : PRSolution) (Sats : List SatID) : Search :=
  { self := self0, Sats := Sats, iret := -5, best := Best.init, Resids := [], Slopes := [],
    calls := [] }

/-- The function `PRSolution::RAIMCompute`, lines 541-838. -/
def RAIMCompute (self : PRSolution) (ext : External) (Tr : ℚ) (Sats : List SatID)
    (Pseudorange : List ℚ) (invMC : Matrix) (pTropModel : Bool) : Option RAIMResult :=
  let self0 := initialise self Tr
  match PreparePRSolution self0 ext.getXvt Tr Sats Pseudorange with
  | none => none
  | some p =>
    let N := p.ret
    if N ≤ 0 then some ⟨-4, self0, p.Sats, [], p.queries⟩
    else
      match stageLoop ext Tr p.SVP invMC pTropModel p.Sats (GoodIndexes p.Sats) N
          (N.toNat + 1) 0 (Search.init self0 p.Sats) with
      | none => none
      | some st => finish ext p.queries st

/-! ## Notions used to state the properties -/

/-- A satellite takes part in a solution: it is not marked and its system is
allowed. -/
def included (allowedGNSS : List SatelliteSystem) (s : SatID) : Bool :=
  decide (0 < s.id) && decide (s.system ∈ allowedGNSS)

/-- Number of satellites that take part in a solution. -/
def nIncluded (allowedGNSS : List SatelliteSystem) (Sats : List SatID) : Nat :=
  (Sats.filter (included allowedGNSS)).length

/-- The constellations in use: the entries of `allowedGNSS` that have a
satellite taking part in the solution. -/
def systemsInUse (allowedGNSS : List SatelliteSystem) (Sats : List SatID) :
    List SatelliteSystem :=
  allowedGNSS.filter (fun g => decide (∃ s ∈ Sats, included allowedGNSS s = true ∧ s.system = g))

/-- The ephemeris of satellite `s` with pseudorange `pr` cannot be had at
receive time `Tr`: the query at the first estimate of the transmit time fails,
or the query at the refined transmit time fails. -/
def ephFails (getXvt : SatID → ℚ → Option Xvt) (Tr : ℚ) (s : SatID) (pr : ℚ) : Bool :=
  match getXvt s (Tr - pr / C_MPS) with
  | none => true
  | some PVT => (getXvt s (Tr - pr / C_MPS - (PVT.clkbias + PVT.relcorr))).isNone

/-- Number of satellites that are included in `SaveSats` (the list left by
`PreparePRSolution`) and marked in `Sats`: the satellites rejected by the
search. -/
def rejected (SaveSats Sats : List SatID) : Nat :=
  ((List.range SaveSats.length).filter
    (fun k => decide (0 < idAt SaveSats k) && decide (idAt Sats k ≤ 0))).length

/-- The solver call that `RAIMCompute` makes for the satellite marking `m`
(line 662), on the object `self0` as initialised by lines 569-571. -/
def solveMarked (self0 : PRSolution) (ext : External) (Tr : ℚ) (SVP invMC : Matrix)
    (pTropModel : Bool) (m : List SatID) : Option Solved :=
  SimplePRSolution self0 ext Tr m SVP invMC pTropModel self0.MaxNIterations
    self0.ConvergenceLimit [] []

/-- Two objects agree on the configuration and on the two flags that only
`RAIMCompute` writes. -/
def sameConfig (a b : PRSolution) : Prop :=
  a.allowedGNSS = b.allowedGNSS ∧ a.RMSLimit = b.RMSLimit ∧ a.SlopeLimit = b.SlopeLimit ∧
  a.NSatsReject = b.NSatsReject ∧ a.MaxNIterations = b.MaxNIterations ∧
  a.ConvergenceLimit = b.ConvergenceLimit ∧ a.hasMemory = b.hasMemory ∧
  a.SlopeFlag = b.SlopeFlag ∧ a.RMSFlag = b.RMSFlag

/-- Two objects hold the same solution. -/
def sameFit (a b : PRSolution) : Prop :=
  a.RMSResidual = b.RMSResidual ∧ a.Solution = b.Solution ∧ a.Covariance = b.Covariance ∧
  a.MaxSlope = b.MaxSlope ∧ a.TropFlag = b.TropFlag ∧ a.SatelliteIDs = b.SatelliteIDs ∧
  a.dataGNSS = b.dataGNSS ∧ a.Partials = b.Partials ∧ a.invMeasCov = b.invMeasCov ∧
  a.NIterations = b.NIterations ∧ a.Convergence = b.Convergence

/-- The RMS residual computed by the numerical body of the solver is not
negative (it is a root mean square). -/
def RMSNonneg (ext : External) : Prop :=
  ∀ T Sats SVP invMC niterLimit convLimit converged f,
    ext.solve T Sats SVP invMC niterLimit convLimit = Numeric.ended converged f →
    0 ≤ f.RMSResidual

/-- The best set holds the solution of a solver call of the search that
converged. -/
def Attained (self0 : PRSolution) (ext : External) (Tr : ℚ) (SVP invMC : Matrix)
    (pTropModel : Bool) (st : Search) : Prop :=
  st.best.BestIret = 0 ∧ st.best.BestSats ∈ st.calls ∧
  ∃ q, solveMarked self0 ext Tr SVP invMC pTropModel st.best.BestSats = some q ∧ q.iret = 0 ∧
    sameFit (copyBest q.self st.best) q.self

/-- What holds of the loop variables of `RAIMCompute` whenever a solver call
of stage `t` has been dealt with. `Save` is the satellite list left by
`PreparePRSolution`. -/
structure SearchInv (self0 : PRSolution) (ext : External) (Tr : ℚ) (SVP invMC : Matrix)
    (pTropModel : Bool) (Save : List SatID) (t : Nat) (st : Search) : Prop where
  cfg : sameConfig st.self self0
  bestIret_le : st.best.BestIret ≤ 0
  saved : st.best.BestRMS ≠ -1 → Attained self0 ext Tr SVP invMC pTropModel st
  code0 : st.best.BestIret = 0 → Attained self0 ext Tr SVP invMC pTropModel st
  iret_zero : st.iret = 0 → st.best.BestIret = 0
  iret_codes : st.iret = 0 ∨ st.iret = -1 ∨ st.iret = -2 ∨ st.iret = -3 ∨ st.iret = -5
  valid : st.iret = -2 ∨ st.iret = -3 → st.self.Valid = false
  sats : st.Sats = Save ∨ st.Sats ∈ st.calls
  calls : ∀ m ∈ st.calls, ∃ c : List Nat, c.Sublist (List.range (GoodIndexes Save).length) ∧
    c.length ≤ t ∧ m = markCombo Save (GoodIndexes Save) c
  bound : 0 ≤ self0.NSatsReject → (t : Int) ≤ self0.NSatsReject
  nonneg : RMSNonneg ext → st.best.BestRMS = -1 ∨ 0 ≤ st.best.BestRMS
  least : RMSNonneg ext → ∀ m ∈ st.calls, ∀ q,
    solveMarked self0 ext Tr SVP invMC pTropModel m = some q → q.iret = 0 →
    0 ≤ st.best.BestRMS ∧ st.best.BestRMS ≤ q.self.RMSResidual
  earlier : RMSNonneg ext → ∀ c : List Nat, c.Sublist (List.range (GoodIndexes Save).length) →
    c.length < t → ∀ q,
    solveMarked self0 ext Tr SVP invMC pTropModel (markCombo Save (GoodIndexes Save) c) = some q →
    q.iret = 0 →
    self0.RMSLimit ≤ q.self.RMSResidual ∨
      (st.best.BestRMS = 0 ∧ rejected Save st.best.BestSats ≤ c.length)
  full : ∀ c : List Nat, c.Sublist (List.range (GoodIndexes Save).length) → c.length < t →
    markCombo Save (GoodIndexes Save) c ∈ st.calls
  last3 : st.iret = -3 → ∃ (c : List Nat) (q : Solved),
    c.Sublist (List.range (GoodIndexes Save).length) ∧ c.length = t ∧
    solveMarked self0 ext Tr SVP invMC pTropModel (markCombo Save (GoodIndexes Save) c) = some q ∧
    q.iret = -3

/-- What holds of the loop variables of `RAIMCompute` when the stage loop is
left (line 747), in terms of the state `st1` at the end of the last stage `t`:
the last stage ran through all its combinations unless the solver returned -3,
and `iret` has been set to 0 exactly on "success" (lines 722-726). -/
def SearchExit (self0 : PRSolution) (ext : External) (Tr : ℚ) (SVP invMC : Matrix)
    (pTropModel : Bool) (Save : List SatID) (st : Search) : Prop :=
  ∃ (t : Nat) (st1 : Search),
    SearchInv self0 ext Tr SVP invMC pTropModel Save t st1 ∧ st1.iret ≠ -5 ∧
    ((∀ c : List Nat, c.Sublist (List.range (GoodIndexes Save).length) → c.length = t →
        markCombo Save (GoodIndexes Save) c ∈ st1.calls) ∨ st1.iret = -3) ∧
    ((0 < st1.best.BestRMS ∧ st1.best.BestRMS < self0.RMSLimit ∧ st = { st1 with iret := 0 }) ∨
     (¬ (0 < st1.best.BestRMS ∧ st1.best.BestRMS < self0.RMSLimit) ∧ st = st1))

/-! ## Example epochs

Concrete inputs on which the definitions above are evaluated. The numerical
body of the solver is given by the RMS residual it reports for each satellite
marking; the other numbers it reports do not enter the control flow. -/

/-- An object with the given configuration and all outputs cleared. -/
def exObject (allowedGNSS : List SatelliteSystem) (RMSLimit : ℚ) (NSatsReject : Int) :
    PRSolution :=
  { allowedGNSS := allowedGNSS, RMSLimit := RMSLimit, SlopeLimit := 1000,
    NSatsReject := NSatsReject, MaxNIterations := 10, ConvergenceLimit := 1 / 1000,
    hasMemory := false, Valid := false, currTime := 0, SatelliteIDs := [], dataGNSS := [],
    Solution := [], Covariance := [], invMeasCov := [], Partials := [], PreFitResidual := [],
    RMSResidual := 0, MaxSlope := 0, TropFlag := false, SlopeFlag := false, RMSFlag := false,
    Nsvs := 0, NIterations := 0, Convergence := 0, PDOP := 0, TDOP := 0, GDOP := 0 }

/-- The numbers left by a solve with the given RMS residual. -/
def exFit (rms : ℚ) : Fit :=
  { Solution := [0, 0, 0, 0], Covariance := [], invMeasCov := [], Partials := [],
    PreFitResidual := [], RMSResidual := rms, MaxSlope := 0, TropFlag := false,
    NIterations := 2, Convergence := 0, Resids := [], Slopes := [] }

/-- Collaborators: an ephemeris service that answers every query (or none, for
`eph = false`), a solver body whose iteration converges on the markings with
`conv Sats` (and reaches the iteration limit on the others) with RMS residual
`rms Sats`, and a DOP computation that succeeds. -/
def exExternal (eph : Bool) (conv : List SatID → Bool) (rms : List SatID → ℚ) : External :=
  { getXvt := fun s _ => if eph then some ⟨(s.id, 0, 0), 0, 0⟩ else none,
    solve := fun _ Sats _ _ _ _ => Numeric.ended (conv Sats) (exFit (rms Sats)),
    DOPCompute := fun _ => some (1, 1, 1) }

/-- The value of a run that returns (a cleared result stands for an
exception). -/
def returned (x : Option RAIMResult) : RAIMResult :=
  x.getD ⟨0, exObject [] 0 0, [], [], []⟩

/-- The value of a call of `PreparePRSolution` that returns. -/
def prepared (x : Option Prepared) : Prepared :=
  x.getD ⟨0, [], [], []⟩

/-- N satellites of constellation 1 with ids 1..N. -/
def exSats (N : Nat) : List SatID :=
  (List.range N).map (fun i => ⟨(i : Int) + 1, 1⟩)

/-- Epoch A: six satellites of one constellation; the third one is faulty: the
RMS residual is 30 with it and 2 without it; RMS limit 10, at most 2
rejections. -/
def selfA : PRSolution := exObject [1] 10 2

/-- The collaborators of epoch A. -/
def extA : External :=
  exExternal true (fun _ => true) (fun Sats => if idAt Sats 2 < 0 then 2 else 30)

/-- The call of `PreparePRSolution` in epoch A. -/
def prepA : Option Prepared :=
  PreparePRSolution selfA extA.getXvt 0 (exSats 6) [0, 0, 0, 0, 0, 0]

/-- The call of `RAIMCompute` in epoch A. -/
def epochA : Option RAIMResult :=
  RAIMCompute selfA extA 0 (exSats 6) [0, 0, 0, 0, 0, 0] [] true

/-- Epoch B: six satellites of one constellation, RMS limit 10, at most 1
rejection. The solve with all satellites and the solves without one of the
first five converge with RMS residual 30; the solve without the sixth
satellite does not converge. -/
def selfB : PRSolution := exObject [1] 10 1

/-- The collaborators of epoch B. -/
def extB : External :=
  exExternal true (fun Sats => decide (0 < idAt Sats 5)) (fun _ => 30)

/-- The call of `PreparePRSolution` in epoch B. -/
def prepB : Option Prepared :=
  PreparePRSolution selfB extB.getXvt 0 (exSats 6) [0, 0, 0, 0, 0, 0]

/-- The call of `RAIMCompute` in epoch B. -/
def epochB : Option RAIMResult :=
  RAIMCompute selfB extB 0 (exSats 6) [0, 0, 0, 0, 0, 0] [] true

/-- Epoch C: five satellites of one constellation with consistent ranges:
every solve converges with RMS residual exactly 0; RMS limit 10; no bound on
the rejections. -/
def selfC : PRSolution := exObject [1] 10 (-1)

/-- The collaborators of epoch C. -/
def extC : External := exExternal true (fun _ => true) (fun _ => 0)

/-- The call of `PreparePRSolution` in epoch C. -/
def prepC : Option Prepared :=
  PreparePRSolution selfC extC.getXvt 0 (exSats 5) [0, 0, 0, 0, 0]

/-- The call of `RAIMCompute` in epoch C. -/
def epochC : Option RAIMResult :=
  RAIMCompute selfC extC 0 (exSats 5) [0, 0, 0, 0, 0] [] true

/-- Epoch D: six satellites of the constellations 2, 1, 3, 1, 1, 1 (six
unknowns); RMS limit 10; no bound on the rejections. -/
def selfD : PRSolution := exObject [1, 2, 3] 10 (-1)

/-- The satellites of epoch D. -/
def exSatsD : List SatID := [⟨1, 2⟩, ⟨2, 1⟩, ⟨3, 3⟩, ⟨4, 1⟩, ⟨5, 1⟩, ⟨6, 1⟩]

/-- The collaborators of epoch D: the solve with all six satellites does not
converge; the solve without the first satellite converges with RMS residual
5, the solve without the third with RMS residual 2. -/
def extD : External :=
  exExternal true (fun Sats => decide (idAt Sats 0 < 0 ∨ idAt Sats 2 < 0))
    (fun Sats => if idAt Sats 0 < 0 then 5 else if idAt Sats 2 < 0 then 2 else 30)

/-- The call of `PreparePRSolution` in epoch D. -/
def prepD : Option Prepared :=
  PreparePRSolution selfD extD.getXvt 0 exSatsD [0, 0, 0, 0, 0, 0]

/-- The call of `RAIMCompute` in epoch D. -/
def epochD : Option RAIMResult :=
  RAIMCompute selfD extD 0 exSatsD [0, 0, 0, 0, 0, 0] [] true

/-- The collaborators of epoch E: the ephemeris service fails for every
satellite. -/
def extE : External := exExternal false (fun _ => true) (fun _ => 0)

/-- The call of `PreparePRSolution` in epoch E, for six satellites of one
constellation. -/
def prepE : Option Prepared :=
  PreparePRSolution selfC extE.getXvt 0 (exSats 6) [0, 0, 0, 0, 0, 0]

/-- The codes that the solver returns for the satellite markings in `calls`,
in the setting of a run of `RAIMCompute` on `self` with matrix `SVP`. -/
def codesOf (self : PRSolution) (ext : External) (Tr : ℚ) (SVP : Matrix)
    (calls : List (List SatID)) : List (Option Int) :=
  calls.map (fun m =>
    (solveMarked (initialise self Tr) ext Tr SVP [] true m).map (fun q => q.iret))

/-- Epoch G, for `PreparePRSolution` alone: five satellites, of which the
second belongs to a constellation that is not allowed, the third is marked on
entry, the fourth has no ephemeris, and the fifth has an ephemeris at its
first transmit time only. -/
def exSatsG : List SatID := [⟨1, 1⟩, ⟨2, 2⟩, ⟨-3, 1⟩, ⟨4, 1⟩, ⟨5, 1⟩]

/-- The ephemeris service of epoch G; every answer has a clock bias of 1 ms. -/
def getXvtG : SatID → ℚ → Option Xvt :=
  fun s t => if s.id = 4 ∨ (s.id = 5 ∧ t < 0) then none else some ⟨(s.id, t, 0), 1 / 1000, 0⟩

/-- The call of `PreparePRSolution` in epoch G, with constellation 1 allowed. -/
def prepG : Option Prepared :=
  PreparePRSolution (exObject [1] 10 0) getXvtG 0 exSatsG [C_MPS, 0, 0, 0, 0]

/-- Epoch H: three satellites of constellations 2 and 3, the second one marked
on entry; only constellation 1 is allowed. -/
def exSatsH : List SatID := [⟨1, 2⟩, ⟨-2, 3⟩, ⟨3, 2⟩]

/-! ## The slopes of SimplePRSolution -/

/-- One pass of the slope loop, lines 479-490, for the satellite `s`. The
state is `(j, Slopes, MaxSlope)`; `n` is the counter left by the satellite
loop of the last iteration, `SQRT` the square root. The difference `n-dim` is
taken in the unsigned type of `dim`. A pass that ends in `continue` leaves the
state as it is, the index `j` included: `j++` is the last statement of the
body. -/
def slopeStep (SQRT : ℚ → ℚ) (G PG : Matrix) (n dim : Nat) (st : Nat × Vector × ℚ)
    (s : SatID) : Nat × Vector × ℚ :=
  let j := st.1
  if s.id ≤ 0 then st
  else if |1 - PG.entry j j| < 1 / 100000000 then st
  else
    let S1 := forLoop dim (fun k S => S.set j (S.getD j 0 + G.entry k j * G.entry k j)) st.2.1
    let v := SQRT (S1.getD j 0 * ((((n : Int) - (dim : Int)) % 2 ^ 64 : Int) : ℚ) /
      (1 - PG.entry j j))
    (j + 1, S1.set j v, if v > st.2.2 then v else st.2.2)

/-- Lines 476-490: `MaxSlope = 0.0; Slopes = 0.0;` and, after a converged
iteration only, the slope loop over the satellites. `Slopes` has `Nsvs`
entries (line 282). The result is `(Slopes, MaxSlope)`. -/
def computeSlopes (SQRT : ℚ → ℚ) (iret : Int) (Sats : List SatID) (G PG : Matrix)
    (n dim Nsvs : Nat) : Vector × ℚ :=
  let st0 : Nat × Vector × ℚ := (0, List.replicate Nsvs 0, 0)
  let st := if iret = 0 then Sats.foldl (slopeStep SQRT G PG n dim) st0 else st0
  (st.2.1, st.2.2)

/-- The slope of the included satellite with index `j`, as the specification
states it: 0 when the projection value `PG(j,j)` is within 1e-8 of 1, and
otherwise the root of `(sum over k < dim of G(k,j)^2) * (Nsvs - dim) / (1 - PG(j,j))`. -/
def slopeOf (SQRT : ℚ → ℚ) (G PG : Matrix) (Nsvs dim j : Nat) : ℚ :=
  if |1 - PG.entry j j| < 1 / 100000000 then 0
  else SQRT (((List.range dim).map (fun k => G.entry k j ^ 2)).sum * ((Nsvs : ℚ) - (dim : ℚ)) /
    (1 - PG.entry j j))

/-- The matrix product `A * B`. -/
def Matrix.mul (A B : Matrix) : Matrix :=
  A.map (fun row => (List.range (B.headD []).length).map
    (fun j => ((List.range row.length).map (fun k => row.getD k 0 * B.entry k j)).sum))

/-- The matrix `transpose(A)`. -/
def Matrix.transpose (A : Matrix) : Matrix :=
  (List.range (A.headD []).length).map (fun j => A.map (fun row => row.getD j 0))

/-- Epoch S: six satellites, the first of constellation 2 and five of
constellation 1, all included; the unknowns are the position and the clocks of
the constellations 1 and 2. -/
def exSatsS : List SatID := [⟨1, 2⟩, ⟨2, 1⟩, ⟨3, 1⟩, ⟨4, 1⟩, ⟨5, 1⟩, ⟨6, 1⟩]

/-- The partials of epoch S: direction cosines and a one in the clock column
of the constellation. -/
def exP : Matrix :=
  [[3 / 5, 4 / 5, 0, 0, 1],
   [1, 0, 0, 1, 0],
   [0, 1, 0, 1, 0],
   [0, 0, 1, 1, 0],
   [-1, 0, 0, 1, 0],
   [0, -1, 0, 1, 0]]

/-- The covariance of epoch S: the inverse of `PT * P`. -/
def exCov : Matrix :=
  [[1 / 2, 0, 0, 0, -3 / 10],
   [0, 1 / 2, 0, 0, -2 / 5],
   [0, 0, 5 / 4, -1 / 4, 0],
   [0, 0, -1 / 4, 1 / 4, 0],
   [-3 / 10, -2 / 5, 0, 0, 3 / 2]]

/-- The generalized inverse of epoch S, `G = Covariance * PT` (line 430). -/
def exG : Matrix := Matrix.mul exCov (Matrix.transpose exP)

/-- The projection of epoch S, `PG = P * G` (line 433). -/
def exPG : Matrix := Matrix.mul exP exG

/-- The numbers left by a solve of the satellites `Sats` for the allowed
constellations `allowed`, with the dimensions of that solve: the position
(1, 2, 3) and the clock 10 + g for each constellation g in use. -/
def exFitDim (allowed : List SatelliteSystem) (Sats : List SatID) (rms : ℚ) : Fit :=
  let dim := 3 + (systemsInUse allowed Sats).length
  { Solution := [1, 2, 3] ++ (systemsInUse allowed Sats).map (fun g => 10 + (g : ℚ)),
    Covariance := List.replicate dim (List.replicate dim 1), invMeasCov := [],
    Partials := List.replicate (nIncluded allowed Sats) (List.replicate dim 1),
    PreFitResidual := [], RMSResidual := rms, MaxSlope := 0, TropFlag := false,
    NIterations := 2, Convergence := 0, Resids := [], Slopes := [] }

/-- Epoch F: one satellite of constellation 2, which is faulty, and six of
constellation 1; every solve converges, with RMS residual 30 while the first
satellite takes part and 2 without it; RMS limit 10; no bound on the
rejections. -/
def selfF : PRSolution := exObject [1, 2] 10 (-1)

/-- The satellites of epoch F. -/
def exSatsF : List SatID := [⟨1, 2⟩, ⟨2, 1⟩, ⟨3, 1⟩, ⟨4, 1⟩, ⟨5, 1⟩, ⟨6, 1⟩, ⟨7, 1⟩]

/-- The collaborators of epoch F. -/
def extF : External :=
  { getXvt := fun s _ => some ⟨(s.id, 0, 0), 0, 0⟩,
    solve := fun _ Sats _ _ _ _ =>
      Numeric.ended true (exFitDim [1, 2] Sats (if idAt Sats 0 < 0 then 2 else 30)),
    DOPCompute := fun _ => some (1, 1, 1) }

/-- The call of `PreparePRSolution` in epoch F. -/
def prepF : Option Prepared :=
  PreparePRSolution selfF extF.getXvt 0 exSatsF [0, 0, 0, 0, 0, 0, 0]

/-- The call of `RAIMCompute` in epoch F. -/
def epochF : Option RAIMResult :=
  RAIMCompute selfF extF 0 exSatsF [0, 0, 0, 0, 0, 0, 0] [] true

/-- The object of epoch B with no rejection allowed. -/
def selfB0 : PRSolution := exObject [1] 10 0

/-- The call of `RAIMCompute` in epoch B with no rejection allowed. -/
def epochB0 : Option RAIMResult :=
  RAIMCompute selfB0 extB 0 (exSats 6) [0, 0, 0, 0, 0, 0] [] true

/-- The value of a call of `SimplePRSolution` that returns. -/
def solved (x : Option Solved) : Solved :=
  x.getD ⟨0, exObject [] 0 0, [], []⟩

/-- A solver call of epoch B: the sixth satellite is marked, and the iteration
reaches its limit without converging. -/
def solveB : Option Solved :=
  SimplePRSolution selfB extB 0 [⟨1, 1⟩, ⟨2, 1⟩, ⟨3, 1⟩, ⟨4, 1⟩, ⟨5, 1⟩, ⟨-6, 1⟩]
    (Matrix.zero 6 4) [] true 10 (1 / 1000) [] []

/-- An object whose `allowedGNSS` names constellation 1 twice. -/
def selfR : PRSolution := exObject [1, 1] 10 0

/-- The solve of epoch C with all five satellites. -/
def solveC : Option Solved :=
  SimplePRSolution selfC extC 0 (exSats 5) (Matrix.zero 5 4) [] true 10 (1 / 1000) [] []

/-! ## The iteration loop of SimplePRSolution -/

/-- What one pass of the iteration loop has computed when it comes to its
tests for convergence (lines 310-440): the flag of the tropospheric
correction, the partials, the residuals, the inverted normal matrix, the
generalized inverse `G`, the projection `PG`, the solution after
`Solution += dX`, and `converge = norm(dX)`. -/
structure Pass where
  TropFlag : Bool
  Partials : Matrix
  Resids : Vector
  Covariance : Matrix
  G : Matrix
  PG : Matrix
  Solution : Vector
  converge : ℚ
deriving DecidableEq, Repr

/-- How the iteration loop is left: by `return -2` (line 425) when the
inversion throws, or by `break` with `iret` 0 (line 450) or -1 (line 466)
after `n_iterate` passes, the last of which is `p`. -/
inductive LoopEnd where
  | singular (s : Singular)
  | ended (iret : Int) (n_iterate : Int) (p : Pass)
deriving DecidableEq, Repr

/-- The iteration loop `do { ... } while(1)`, lines 309-468, from the state
`(n_iterate, Solution)`. `pass n_iterate Solution` is the body up to line 440;
it fails when `inverseSVD` throws. The first argument bounds the number of
passes still made; no result is given when it is used up. -/
def iterationLoop (pass : Int → Vector → Except Singular Pass) (niter_limit : Int)
    (convLimit : ℚ) : Nat → Int → Vector → Option LoopEnd
  | 0, _, _ => none
  | fuel + 1, n_iterate, Solution =>
    match pass n_iterate Solution with
    | Except.error s => some (LoopEnd.singular s)
    | Except.ok p =>
      let n1 := n_iterate + 1
      if n1 > 1 ∧ p.converge < convLimit then some (LoopEnd.ended 0 n1 p)
      else if n1 ≥ niter_limit ∨ p.converge > 10000000000 then some (LoopEnd.ended (-1) n1 p)
      else iterationLoop pass niter_limit convLimit fuel n1 p.Solution

/-- The solution after the first `k` passes of the loop, when none of them
fails. -/
def solutionAfter (pass : Int → Vector → Except Singular Pass) (start : Vector) :
    Nat → Option Vector
  | 0 => some start
  | k + 1 =>
    match solutionAfter pass start k with
    | none => none
    | some Solution =>
      match pass (k : Int) Solution with
      | Except.error _ => none
      | Except.ok p => some p.Solution

/-- The pass with number `k` (counted from 0) of the iteration loop started at
`start`, when the passes before it have not failed. -/
def passAt (pass : Int → Vector → Except Singular Pass) (start : Vector) (k : Nat) :
    Option Pass :=
  match solutionAfter pass start k with
  | none => none
  | some Solution =>
    match pass (k : Int) Solution with
    | Except.error _ => none
    | Except.ok p => some p

/-- The counter `n` of the satellite loop of a pass (lines 316-399): set to 0
at the head of the loop and advanced for every satellite that is not marked. -/
def satLoopCount (Sats : List SatID) : Nat :=
  Sats.foldl (fun n s => if s.id ≤ 0 then n else n + 1) 0

/-- The numerical collaborators of the body of `SimplePRSolution`: the
a-priori solution cut down to the dimension (lines 290-304), the inverse
measurement covariance of the included satellites (lines 256-269), one pass of
the iteration loop as a function of the arguments of the call, the pass
number and the current solution, the square root and the root mean square. -/
structure Kernel where
  localAPSol : List SatID → Vector
  iMC : List SatID → Matrix → Matrix
  pass : ℚ → List SatID → Matrix → Matrix → Int → Vector → Except Singular Pass
  SQRT : ℚ → ℚ
  RMS : Vector → ℚ

/-- The difference of two vectors. -/
def vecSub (a b : Vector) : Vector := List.zipWith (fun x y => x - y) a b

/-- The product of a matrix and a vector. -/
def matVec (A : Matrix) (v : Vector) : Vector :=
  A.map (fun row => ((List.range row.length).map (fun k => row.getD k 0 * v.getD k 0)).sum)

/-- The numerical body of `SimplePRSolution`, lines 273-509, for an object with
the given `allowedGNSS`: the iteration loop with the limit of line 288, then
the slopes, the pre-fit residuals and the RMS residual. The loop is given
`niter_limit` passes, which it never uses up; the value for a loop without
result is not taken. -/
def solveBody (K : Kernel) (allowedGNSS : List SatelliteSystem) (T : ℚ) (Sats : List SatID)
    (SVP invMC : Matrix) (niterLimit : Int) (convLimit : ℚ) : Numeric :=
  let Nsvs := (countSystems allowedGNSS Sats).1
  let dim := 3 + (sortSystems allowedGNSS (countSystems allowedGNSS Sats).2).length
  let niter_limit : Int := if niterLimit < 2 then 2 else niterLimit
  match iterationLoop (K.pass T Sats SVP invMC) niter_limit convLimit niter_limit.toNat 0
      (K.localAPSol Sats) with
  | none => Numeric.singular ⟨[], [], false, [], []⟩
  | some (LoopEnd.singular s) => Numeric.singular s
  | some (LoopEnd.ended iret n_iterate p) =>
    let sl := computeSlopes K.SQRT iret Sats p.G p.PG (satLoopCount Sats) dim Nsvs
    Numeric.ended (decide (iret = 0))
      { Solution := p.Solution, Covariance := p.Covariance, invMeasCov := K.iMC Sats invMC,
        Partials := p.Partials,
        PreFitResidual := vecSub (matVec p.Partials (vecSub p.Solution (K.localAPSol Sats)))
          p.Resids,
        RMSResidual := K.RMS p.Resids, MaxSlope := sl.2, TropFlag := p.TropFlag,
        NIterations := n_iterate, Convergence := p.converge, Resids := p.Resids,
        Slopes := sl.1 }

/-! ## DOPCompute

The function is embedded over an arbitrary field of numbers, so that it can be
evaluated over the rationals and its property stated over the reals, with the
real square root. -/

/-- Read `M(i,j)` of a matrix over the field `K`. -/
def entryOf {K : Type} [Zero K] (M : List (List K)) (i j : Nat) : K :=
  (M.getD i []).getD j 0

/-- The matrix `transpose(A)` over the field `K`. -/
def transposeOf {K : Type} [Zero K] (A : List (List K)) : List (List K) :=
  (List.range (A.headD []).length).map (fun j => A.map (fun row => row.getD j 0))

/-- The matrix product `A * B` over the field `K`. -/
def mulOf {K : Type} [Field K] (A B : List (List K)) : List (List K) :=
  A.map (fun row => (List.range (B.headD []).length).map
    (fun j => ((List.range row.length).map (fun k => row.getD k 0 * entryOf B k j)).sum))

/-- Modelled from the spec: `RSS(a, b)`, the root of the sum of the squares
(geometric DOP = sqrt(PDOP² + TDOP²)). -/
def RSS {K : Type} [Field K] (SQRT : K → K) (a b : K) : K := SQRT (a * a + b * b)

/-- The function `PRSolution::DOPCompute`, lines 842-855, on the member
`Partials`; the result is `(PDOP, TDOP, GDOP)`, and there is none when
`inverseLUD` throws. -/
def DOPCompute {K : Type} [Field K] (SQRT : K → K)
    (inverseLUD : List (List K) → Option (List (List K))) (Partials : List (List K)) :
    Option (K × K × K) :=
  let PTP := mulOf (transposeOf Partials) Partials
  match inverseLUD PTP with
  | none => none
  | some Cov =>
    let PDOP := SQRT (entryOf Cov 0 0 + entryOf Cov 1 1 + entryOf Cov 2 2)
    let TDOP := SQRT ((List.range' 3 (Cov.length - 3)).foldl (fun t i => t + entryOf Cov i i) 0)
    some (PDOP, TDOP, RSS SQRT PDOP TDOP)

/-! ## Rinex3NavDataOperatorLessThanFull -/

/-- Modelled from the spec: the members of `Rinex3NavData` that the comparison
reads. The transmit time is given by the GPS week and the second of week, the
satellite by constellation and id, and `fields` is the list `toList()`. -/
structure Rinex3NavData where
  weeknum : Int
  xmitTime : Int
  time : ℚ
  sat : SatelliteSystem × Int
  fields : List ℚ
deriving DecidableEq, Repr

/-- Modelled from the spec: the order of `GPSWeekSecond`, by week and then by
second of week. -/
def xmitLess (l r : Rinex3NavData) : Bool :=
  decide (l.weeknum < r.weeknum ∨ (l.weeknum = r.weeknum ∧ l.xmitTime < r.xmitTime))

/-- Modelled from the spec: the order of satellite identifiers, by
constellation and then by id. -/
def satLess (l r : SatelliteSystem × Int) : Bool :=
  decide (l.1 < r.1 ∨ (l.1 = r.1 ∧ l.2 < r.2))

/-- The loop of lines 126-144 over the two field lists; `rlist` is read in
step with `llist`. -/
def fieldsLess (epsilon : ℚ) : List ℚ → List ℚ → Bool
  | [], _ => false
  | a :: llist, rlist =>
    let b := rlist.headD 0
    let diff := a - b
    let err := if a = 0 then b else diff / a
    if err > epsilon then true
    else if err < -epsilon then false
    else fieldsLess epsilon llist rlist.tail

/-- The function `Rinex3NavDataOperatorLessThanFull::operator()`, lines 93-148. -/
def lessThanFull (epsilon : ℚ) (l r : Rinex3NavData) : Bool :=
  if xmitLess l r then true
  else if l.weeknum = r.weeknum ∧ l.xmitTime = r.xmitTime then
    if l.time < r.time then true
    else if r.time < l.time then false
    else if satLess l.sat r.sat then true
    else if satLess r.sat l.sat then false
    else fieldsLess epsilon l.fields r.fields
  else false

/-! ## Further example inputs -/

/-- A solver body whose passes report the step norms `norms`, one pass after
the other, and change nothing else. -/
def exKernel (norms : List ℚ) : Kernel :=
  { localAPSol := fun _ => [0, 0, 0, 0],
    iMC := fun _ _ => [],
    pass := fun _ _ _ _ n Solution =>
      Except.ok { TropFlag := false, Partials := [], Resids := [], Covariance := [], G := [],
                  PG := [], Solution := Solution, converge := norms.getD n.toNat 0 },
    SQRT := fun x => x,
    RMS := fun _ => 1 }

/-- Collaborators with the solver body of the kernel `K`. -/
def exExternalK (K : Kernel) (allowedGNSS : List SatelliteSystem) : External :=
  { getXvt := fun s _ => some ⟨(s.id, 0, 0), 0, 0⟩,
    solve := solveBody K allowedGNSS,
    DOPCompute := fun _ => some (1, 1, 1) }

/-- A solve of five satellites whose first correction has a norm of 2e10 m. -/
def solveDiverge : Option Solved :=
  SimplePRSolution selfC (exExternalK (exKernel [20000000000]) [1]) 0 (exSats 5)
    (Matrix.zero 5 4) [] true 10 (1 / 1000) [] []

/-- A solve of five satellites with corrections of 6400 km, 3 m and 0.1 mm. -/
def solveConverge : Option Solved :=
  SimplePRSolution selfC (exExternalK (exKernel [6400000, 3, 1 / 10000]) [1]) 0 (exSats 5)
    (Matrix.zero 5 4) [] true 10 (1 / 1000) [] []

/-- An object whose `allowedGNSS` names constellation 1 twice, before
constellation 2. -/
def selfR2 : PRSolution := exObject [1, 1, 2] 10 0

/-- One satellite of constellation 1 and four of constellation 2. -/
def exSatsR : List SatID := [⟨1, 1⟩, ⟨2, 2⟩, ⟨3, 2⟩, ⟨4, 2⟩, ⟨5, 2⟩]

/-- The satellites `exSatsR` with the first one marked. -/
def exSatsR2 : List SatID := [⟨-1, 1⟩, ⟨2, 2⟩, ⟨3, 2⟩, ⟨4, 2⟩, ⟨5, 2⟩]

/-- The design of four satellites with the unit matrix as partials, over the
field `K`. -/
def exUnit (K : Type) [Field K] : List (List K) :=
  [[1, 0, 0, 0], [0, 1, 0, 0], [0, 0, 1, 0], [0, 0, 0, 1]]

/-- Two navigation records that differ in one data field only, 1 against 0. -/
def exNavL : Rinex3NavData := ⟨2200, 86400, 0, (1, 7), [5, 1, 3]⟩

/-- The second record. -/
def exNavR : Rinex3NavData := ⟨2200, 86400, 0, (1, 7), [5, 0, 3]⟩

/-! ## Elementary facts -/

theorem vectorindex_eq_neg_one {α : Type} [DecidableEq α] (vec : List α) (value : α) :
    vectorindex vec value = -1 ↔ value ∉ vec := by
  unfold vectorindex
  by_cases h : value ∈ vec
  · have h1 : vec.indexOf value < vec.length := List.indexOf_lt_length.mpr h
    simp only [h1, if_true, h, not_true_eq_false, iff_false]
    omega
  · have h1 : ¬ vec.indexOf value < vec.length := fun hh => h (List.indexOf_lt_length.mp hh)
    simp [h1, h]

theorem countSystems_fold (allowedGNSS : List SatelliteSystem) (Sats : List SatID)
    (acc : Nat × List SatelliteSystem) :
    (Sats.foldl (countStep allowedGNSS) acc).1 = acc.1 + nIncluded allowedGNSS Sats ∧
    ∀ g, g ∈ (Sats.foldl (countStep allowedGNSS) acc).2 ↔
      g ∈ acc.2 ∨ ∃ s ∈ Sats, included allowedGNSS s = true ∧ s.system = g := by
  induction Sats generalizing acc with
  | nil => simp [nIncluded]
  | cons s rest ih =>
    rw [List.foldl_cons]
    obtain ⟨ih1, ih2⟩ := ih (countStep allowedGNSS acc s)
    by_cases hid : s.id ≤ 0
    · have hinc : included allowedGNSS s = false := by
        simp [included]; intro h; omega
      have hstep : countStep allowedGNSS acc s = acc := by simp [countStep, hid]
      rw [hstep] at ih1 ih2 ⊢
      refine ⟨?_, ?_⟩
      · rw [ih1]; simp [nIncluded, List.filter_cons, hinc]
      · intro g; rw [ih2 g]; simp [hinc]
    · by_cases hsys : s.system ∈ allowedGNSS
      · have hinc : included allowedGNSS s = true := by
          simp [included, hsys]; omega
        have hv : ¬ vectorindex allowedGNSS s.system = -1 := by
          rw [vectorindex_eq_neg_one]; exact fun h => h hsys
        have hstep : countStep allowedGNSS acc s =
            (acc.1 + 1, if vectorindex acc.2 s.system = -1 then acc.2 ++ [s.system] else acc.2) := by
          simp [countStep, hid, hv]
        rw [hstep] at ih1 ih2 ⊢
        refine ⟨?_, ?_⟩
        · rw [ih1]; simp [nIncluded, List.filter_cons, hinc]; omega
        · intro g; rw [ih2 g]; dsimp only
          by_cases hm : s.system ∈ acc.2
          · have : ¬ vectorindex acc.2 s.system = -1 := by
              rw [vectorindex_eq_neg_one]; exact fun h => h hm
            simp only [this, if_false, List.mem_cons, exists_eq_or_imp, hinc, true_and]
            constructor
            · rintro (h | h)
              · exact Or.inl h
              · exact Or.inr (Or.inr h)
            · rintro (h | h | h)
              · exact Or.inl h
              · exact Or.inl (h ▸ hm)
              · exact Or.inr h
          · have : vectorindex acc.2 s.system = -1 := by
              rw [vectorindex_eq_neg_one]; exact hm
            simp only [this, if_true, List.mem_append, List.mem_cons, List.not_mem_nil,
              or_false, exists_eq_or_imp, hinc, true_and]
            constructor
            · rintro ((h | h) | h)
              · exact Or.inl h
              · exact Or.inr (Or.inl h.symm)
              · exact Or.inr (Or.inr h)
            · rintro (h | h | h)
              · exact Or.inl (Or.inl h)
              · exact Or.inl (Or.inr h.symm)
              · exact Or.inr h
      · have hinc : included allowedGNSS s = false := by
          simp [included, hsys]
        have hv : vectorindex allowedGNSS s.system = -1 := by
          rw [vectorindex_eq_neg_one]; exact hsys
        have hstep : countStep allowedGNSS acc s = acc := by simp [countStep, hid, hv]
        rw [hstep] at ih1 ih2 ⊢
        refine ⟨?_, ?_⟩
        · rw [ih1]; simp [nIncluded, List.filter_cons, hinc]
        · intro g; rw [ih2 g]; simp [hinc]

theorem countSystems_fst (allowedGNSS : List SatelliteSystem) (Sats : List SatID) :
    (countSystems allowedGNSS Sats).1 = nIncluded allowedGNSS Sats := by
  have h := (countSystems_fold allowedGNSS Sats (0, [])).1
  simpa [countSystems] using h

theorem sortSystems_countSystems (allowedGNSS : List SatelliteSystem) (Sats : List SatID) :
    sortSystems allowedGNSS (countSystems allowedGNSS Sats).2 =
      systemsInUse allowedGNSS Sats := by
  unfold sortSystems systemsInUse
  apply List.filter_congr
  intro g _
  have h := (countSystems_fold allowedGNSS Sats (0, [])).2 g
  simp only [List.not_mem_nil, false_or] at h
  have hv := vectorindex_eq_neg_one (countSystems allowedGNSS Sats).2 g
  by_cases hg : ∃ s ∈ Sats, included allowedGNSS s = true ∧ s.system = g
  · have hm : g ∈ (countSystems allowedGNSS Sats).2 := h.mpr hg
    have : ¬ vectorindex (countSystems allowedGNSS Sats).2 g = -1 := fun e => (hv.mp e) hm
    simp [this, hg]
  · have hm : g ∉ (countSystems allowedGNSS Sats).2 := fun e => hg (h.mp e)
    have : vectorindex (countSystems allowedGNSS Sats).2 g = -1 := hv.mpr hm
    simp only [this, ne_eq, not_true_eq_false, decide_False, hg]

/-! ## SimplePRSolution: the satellite-count check -/

theorem systemsInUse_length_of_nodup (allowedGNSS : List SatelliteSystem) (Sats : List SatID)
    (hnd : allowedGNSS.Nodup) :
    (systemsInUse allowedGNSS Sats).length =
      (((Sats.filter (included allowedGNSS)).map SatID.system).dedup).length := by
  apply List.Perm.length_eq
  unfold systemsInUse
  rw [List.perm_ext_iff_of_nodup (hnd.filter _) (List.nodup_dedup _)]
  intro g
  simp only [List.mem_filter, decide_eq_true_eq, List.mem_dedup, List.mem_map]
  constructor
  · rintro ⟨_, s, hs, hinc, rfl⟩
    exact ⟨s, ⟨hs, hinc⟩, rfl⟩
  · rintro ⟨s, ⟨hs, hinc⟩, rfl⟩
    refine ⟨?_, s, hs, hinc, rfl⟩
    simp only [included, Bool.and_eq_true, decide_eq_true_eq] at hinc
    exact hinc.2

theorem SimplePRSolution_guards {self : PRSolution} {ext : External} {T : ℚ}
    {Sats : List SatID} {SVP invMC : Matrix} {pTropModel : Bool} {niterLimit : Int}
    {convLimit : ℚ} {Resids Slopes : Vector} {r : Solved}
    (h : SimplePRSolution self ext T Sats SVP invMC pTropModel niterLimit convLimit Resids Slopes
      = some r) :
    pTropModel = true ∧
    ¬ (Sats.length ≠ SVP.length ∨ (invMC.length > 0 ∧ invMC.length ≠ Sats.length)) ∧
    ¬ self.allowedGNSS.length = 0 := by
  unfold SimplePRSolution at h
  refine ⟨?_, ?_, ?_⟩
  · cases pTropModel
    · simp at h
    · rfl
  · intro hc
    cases pTropModel
    · simp at h
    · rw [if_neg (by simp), if_pos hc] at h; cases h
  · intro hc
    cases pTropModel
    · simp at h
    · by_cases h2 : Sats.length ≠ SVP.length ∨ (invMC.length > 0 ∧ invMC.length ≠ Sats.length)
      · rw [if_neg (by simp), if_pos h2] at h; cases h
      · rw [if_neg (by simp), if_neg h2, if_pos hc] at h; cases h

theorem SimplePRSolution_eq (self : PRSolution) (ext : External) (T : ℚ)
    (Sats : List SatID) (SVP invMC : Matrix) (niterLimit : Int)
    (convLimit : ℚ) (Resids Slopes : Vector)
    (hg1 : ¬ (Sats.length ≠ SVP.length ∨ (invMC.length > 0 ∧ invMC.length ≠ Sats.length)))
    (hg2 : ¬ self.allowedGNSS.length = 0) :
    SimplePRSolution self ext T Sats SVP invMC true niterLimit convLimit Resids Slopes =
      if nIncluded self.allowedGNSS Sats < 3 + (systemsInUse self.allowedGNSS Sats).length then
        some ⟨-3, { self with Valid := false, Nsvs := nIncluded self.allowedGNSS Sats },
          Resids, Slopes⟩
      else if (Sats.filter (fun s => decide (0 < s.id))).length ≠ nIncluded self.allowedGNSS Sats
        then none
      else
        match ext.solve T Sats SVP invMC niterLimit convLimit with
        | Numeric.singular s =>
          some ⟨-2,
            writeSingular { self with Valid := false, Nsvs := nIncluded self.allowedGNSS Sats } s,
            s.Resids, s.Slopes⟩
        | Numeric.ended converged f =>
          some ⟨if converged then 0 else -1,
            writeFit { self with Valid := false, Nsvs := nIncluded self.allowedGNSS Sats } T Sats
              (systemsInUse self.allowedGNSS Sats) f,
            f.Resids, f.Slopes⟩ := by
  unfold SimplePRSolution
  simp only [hg1, hg2, if_false, Bool.true_eq_false]
  rw [countSystems_fst, sortSystems_countSystems]

theorem SimplePRSolution_cases {self : PRSolution} {ext : External} {T : ℚ}
    {Sats : List SatID} {SVP invMC : Matrix} {pTropModel : Bool} {niterLimit : Int}
    {convLimit : ℚ} {Resids Slopes : Vector} {r : Solved}
    (h : SimplePRSolution self ext T Sats SVP invMC pTropModel niterLimit convLimit Resids Slopes
      = some r) :
    (nIncluded self.allowedGNSS Sats < 3 + (systemsInUse self.allowedGNSS Sats).length ∧
      r = ⟨-3, { self with Valid := false, Nsvs := nIncluded self.allowedGNSS Sats },
            Resids, Slopes⟩) ∨
    (¬ nIncluded self.allowedGNSS Sats < 3 + (systemsInUse self.allowedGNSS Sats).length ∧
      ∃ s, ext.solve T Sats SVP invMC niterLimit convLimit = Numeric.singular s ∧
        r = ⟨-2,
          writeSingular { self with Valid := false, Nsvs := nIncluded self.allowedGNSS Sats } s,
          s.Resids, s.Slopes⟩) ∨
    (¬ nIncluded self.allowedGNSS Sats < 3 + (systemsInUse self.allowedGNSS Sats).length ∧
      ∃ c f, ext.solve T Sats SVP invMC niterLimit convLimit = Numeric.ended c f ∧
        r = ⟨if c then 0 else -1,
          writeFit { self with Valid := false, Nsvs := nIncluded self.allowedGNSS Sats } T Sats
            (systemsInUse self.allowedGNSS Sats) f,
          f.Resids, f.Slopes⟩) := by
  obtain ⟨hp, hg1, hg2⟩ := SimplePRSolution_guards h
  subst hp
  rw [SimplePRSolution_eq self ext T Sats SVP invMC niterLimit convLimit Resids Slopes hg1 hg2] at h
  by_cases hlt : nIncluded self.allowedGNSS Sats < 3 + (systemsInUse self.allowedGNSS Sats).length
  · left
    rw [if_pos hlt] at h
    exact ⟨hlt, (Option.some.inj h).symm⟩
  · right
    rw [if_neg hlt] at h
    by_cases hc : (Sats.filter (fun s => decide (0 < s.id))).length ≠
        nIncluded self.allowedGNSS Sats
    · rw [if_pos hc] at h; cases h
    · rw [if_neg hc] at h
      cases hs : ext.solve T Sats SVP invMC niterLimit convLimit with
      | singular s =>
        left
        rw [hs] at h
        exact ⟨hlt, s, rfl, (Option.some.inj h).symm⟩
      | ended c f =>
        right
        rw [hs] at h
        exact ⟨hlt, c, f, rfl, (Option.some.inj h).symm⟩

/-- The codes of `SimplePRSolution`. -/
theorem SimplePRSolution_codes {self : PRSolution} {ext : External} {T : ℚ}
    {Sats : List SatID} {SVP invMC : Matrix} {pTropModel : Bool} {niterLimit : Int}
    {convLimit : ℚ} {Resids Slopes : Vector} {r : Solved}
    (h : SimplePRSolution self ext T Sats SVP invMC pTropModel niterLimit convLimit Resids Slopes
      = some r) :
    r.iret = 0 ∨ r.iret = -1 ∨ r.iret = -2 ∨ r.iret = -3 := by
  rcases SimplePRSolution_cases h with ⟨_, rfl⟩ | ⟨_, s, _, rfl⟩ | ⟨_, c, f, _, rfl⟩
  · exact Or.inr (Or.inr (Or.inr rfl))
  · exact Or.inr (Or.inr (Or.inl rfl))
  · cases c
    · exact Or.inr (Or.inl rfl)
    · exact Or.inl rfl

/-- C4: for a non-empty `allowedGNSS` (and a call that passes the argument
checks of lines 198-209), `SimplePRSolution` returns -3 exactly when the number
of included satellites (id > 0 and system in `allowedGNSS`) is smaller than
3 + the number of constellations in use; a call that returns -3 leaves
`Solution`, `Covariance`, `Resids` and `Slopes` as they were. For an
`allowedGNSS` without repetitions the number of constellations in use is the
number of distinct constellations among the included satellites. -/
theorem C4_too_few_satellites (self : PRSolution) (ext : External) (T : ℚ)
    (Sats : List SatID) (SVP invMC : Matrix) (niterLimit : Int) (convLimit : ℚ)
    (Resids Slopes : Vector)
    (hallowed : self.allowedGNSS ≠ []) (hdim : Sats.length = SVP.length)
    (hmc : invMC.length = 0 ∨ invMC.length = Sats.length) :
    ((∃ r, SimplePRSolution self ext T Sats SVP invMC true niterLimit convLimit Resids Slopes
          = some r ∧ r.iret = -3) ↔
      nIncluded self.allowedGNSS Sats < 3 + (systemsInUse self.allowedGNSS Sats).length) ∧
    (∀ r, SimplePRSolution self ext T Sats SVP invMC true niterLimit convLimit Resids Slopes
          = some r → r.iret = -3 →
      r.self.Solution = self.Solution ∧ r.self.Covariance = self.Covariance ∧
      r.Resids = Resids ∧ r.Slopes = Slopes) ∧
    (self.allowedGNSS.Nodup →
      (systemsInUse self.allowedGNSS Sats).length =
        (((Sats.filter (included self.allowedGNSS)).map SatID.system).dedup).length) := by
  have hg1 : ¬ (Sats.length ≠ SVP.length ∨ (invMC.length > 0 ∧ invMC.length ≠ Sats.length)) := by
    rintro (h | ⟨h1, h2⟩)
    · exact h hdim
    · rcases hmc with h | h
      · omega
      · exact h2 h
  have hg2 : ¬ self.allowedGNSS.length = 0 := by
    intro h; exact hallowed (List.length_eq_zero.mp h)
  refine ⟨⟨?_, ?_⟩, ?_, systemsInUse_length_of_nodup _ _⟩
  · rintro ⟨r, hr, h3⟩
    rcases SimplePRSolution_cases hr with ⟨hlt, _⟩ | ⟨_, s, _, rfl⟩ | ⟨_, c, f, _, rfl⟩
    · exact hlt
    · simp at h3
    · cases c <;> simp at h3
  · intro hlt
    rw [SimplePRSolution_eq self ext T Sats SVP invMC niterLimit convLimit Resids Slopes
      hg1 hg2, if_pos hlt]
    exact ⟨_, rfl, rfl⟩
  · intro r hr h3
    rcases SimplePRSolution_cases hr with ⟨_, rfl⟩ | ⟨_, s, _, rfl⟩ | ⟨_, c, f, _, rfl⟩
    · exact ⟨rfl, rfl, rfl, rfl⟩
    · simp at h3
    · cases c <;> simp at h3

/-! ## PreparePRSolution: the returned count -/

theorem prepareSat_marked (getXvt : SatID → ℚ → Option Xvt) (Tr : ℚ) (s : SatID) (pr : ℚ)
    (h : s.id ≤ 0) : prepareSat getXvt Tr s pr = ⟨s, [0, 0, 0, 0], 0, 0, []⟩ := by
  simp [prepareSat, h]

theorem prepareSat_included (getXvt : SatID → ℚ → Option Xvt) (Tr : ℚ) (s : SatID) (pr : ℚ)
    (h : 0 < s.id) :
    (prepareSat getXvt Tr s pr).noeph = (if ephFails getXvt Tr s pr then 1 else 0) ∧
    (prepareSat getXvt Tr s pr).NSVS = (if ephFails getXvt Tr s pr then 0 else 1) ∧
    (0 < (prepareSat getXvt Tr s pr).sat.id ↔ ephFails getXvt Tr s pr = false) := by
  have hn : ¬ s.id ≤ 0 := by omega
  have habs : ¬ (0 < -(abs s.id)) := by
    have := abs_nonneg s.id
    omega
  cases h1 : getXvt s (Tr - pr / C_MPS) with
  | none => simp [prepareSat, ephFails, hn, h1, habs]
  | some PVT =>
    cases h2 : getXvt s (Tr - pr / C_MPS - (PVT.clkbias + PVT.relcorr)) with
    | none => simp [prepareSat, ephFails, hn, h1, h2, habs]
    | some PVT2 => simp [prepareSat, ephFails, hn, h1, h2, h]

theorem markSystems_snd (allowedGNSS : List SatelliteSystem) (Sats : List SatID) :
    (markSystems allowedGNSS Sats).2 = nIncluded allowedGNSS Sats := by
  induction Sats with
  | nil => rfl
  | cons s rest ih =>
    unfold markSystems
    by_cases hid : s.id ≤ 0
    · have hinc : included allowedGNSS s = false := by
        simp [included]; intro h; omega
      simp only [hid, if_true, ih, nIncluded, List.filter_cons, hinc]
      rfl
    · by_cases hsys : s.system ∈ allowedGNSS
      · have hinc : included allowedGNSS s = true := by
          simp [included, hsys]; omega
        have hv : ¬ vectorindex allowedGNSS s.system = -1 := by
          rw [vectorindex_eq_neg_one]; exact fun h => h hsys
        simp only [hid, if_false, hv, ih, nIncluded, List.filter_cons, hinc, if_true,
          List.length_cons]
      · have hinc : included allowedGNSS s = false := by
          simp [included, hsys]
        have hv : vectorindex allowedGNSS s.system = -1 := by
          rw [vectorindex_eq_neg_one]; exact hsys
        simp only [hid, if_false, hv, if_true, ih, nIncluded, List.filter_cons, hinc]
        rfl

theorem mem_kSubsets (l : List Nat) : ∀ (k : Nat) (c : List Nat),
    c ∈ kSubsets k l ↔ c.Sublist l ∧ c.length = k := by
  induction l with
  | nil =>
    intro k c
    cases k with
    | zero => simp [kSubsets]
    | succ k =>
      simp only [kSubsets, List.not_mem_nil, List.sublist_nil, false_iff, not_and]
      rintro rfl; simp
  | cons x xs ih =>
    intro k c
    cases k with
    | zero =>
      simp only [kSubsets, List.mem_singleton, List.length_eq_zero]
      constructor
      · rintro rfl; exact ⟨List.nil_sublist _, rfl⟩
      · exact fun h => h.2
    | succ k =>
      simp only [kSubsets, List.mem_append, List.mem_map, ih, List.sublist_cons_iff]
      constructor
      · rintro (⟨c', ⟨hs, hl⟩, rfl⟩ | ⟨hs, hl⟩)
        · exact ⟨Or.inr ⟨c', rfl, hs⟩, by simp [hl]⟩
        · exact ⟨Or.inl hs, hl⟩
      · rintro ⟨hs | ⟨c', rfl, hs⟩, hl⟩
        · exact Or.inr ⟨hs, hl⟩
        · exact Or.inl ⟨c', ⟨hs, by simpa using hl⟩, rfl⟩

theorem markAt_getElem? (S : List SatID) (k j : Nat) :
    (markAt S k)[j]? =
      if j = k then S[j]?.map (fun s => { s with id := -(abs s.id) }) else S[j]? := by
  unfold markAt
  cases h : S[k]? with
  | none =>
    by_cases hj : j = k
    · subst hj; simp [h]
    · simp [hj]
  | some s =>
    by_cases hj : j = k
    · subst hj
      have hlt : j < S.length := by
        rcases Nat.lt_or_ge j S.length with h1 | h1
        · exact h1
        · rw [List.getElem?_eq_none h1] at h; cases h
      simp [h, List.getElem?_set, hlt]
    · have : ¬ k = j := fun e => hj e.symm
      simp [hj, List.getElem?_set, this]

theorem idAt_markAt (S : List SatID) (k j : Nat) :
    idAt (markAt S k) j = if j = k then -(abs (idAt S j)) else idAt S j := by
  unfold idAt
  rw [markAt_getElem?]
  by_cases hj : j = k
  · simp only [hj, if_true]
    cases S[k]? <;> simp
  · simp only [hj, if_false]

theorem length_markAt (S : List SatID) (k : Nat) : (markAt S k).length = S.length := by
  unfold markAt
  cases S[k]? <;> simp

theorem idAt_fold (g : Nat → Nat) (Combo : List Nat) (is : List Nat) :
    ∀ (S : List SatID) (j : Nat),
    idAt (is.foldl (fun Sats i => if i ∈ Combo then markAt Sats (g i) else Sats) S) j =
      if ∃ i ∈ is, i ∈ Combo ∧ g i = j then -(abs (idAt S j)) else idAt S j := by
  induction is with
  | nil => intro S j; simp
  | cons i is ih =>
    intro S j
    rw [List.foldl_cons, ih]
    by_cases hi : i ∈ Combo
    · simp only [hi, if_true, idAt_markAt, List.mem_cons, exists_eq_or_imp, true_and]
      by_cases h1 : j = g i
      · subst h1
        simp
      · have h1' : ¬ g i = j := fun e => h1 e.symm
        simp [h1, h1']
    · simp [hi]

theorem idAt_markCombo (S : List SatID) (Good Combo : List Nat) (j : Nat) :
    idAt (markCombo S Good Combo) j =
      if ∃ i, i < Good.length ∧ i ∈ Combo ∧ Good.getD i 0 = j then -(abs (idAt S j))
      else idAt S j := by
  unfold markCombo
  rw [idAt_fold (fun i => Good.getD i 0)]
  simp only [List.mem_range]

theorem length_markCombo (S : List SatID) (Good Combo : List Nat) :
    (markCombo S Good Combo).length = S.length := by
  unfold markCombo
  generalize List.range Good.length = is
  induction is generalizing S with
  | nil => rfl
  | cons i is ih =>
    rw [List.foldl_cons, ih]
    split
    · exact length_markAt _ _
    · rfl

theorem mem_GoodIndexes (S : List SatID) (k : Nat) :
    k ∈ GoodIndexes S ↔ k < S.length ∧ 0 < idAt S k := by
  simp [GoodIndexes]

theorem nodup_GoodIndexes (S : List SatID) : (GoodIndexes S).Nodup :=
  List.Nodup.filter _ (List.nodup_range _)

theorem rejected_markCombo (S : List SatID) (c : List Nat)
    (hc : c.Sublist (List.range (GoodIndexes S).length)) :
    rejected S (markCombo S (GoodIndexes S) c) = c.length := by
  have hcnd : c.Nodup := List.Nodup.sublist hc (List.nodup_range _)
  have hclt : ∀ i ∈ c, i < (GoodIndexes S).length := fun i hi =>
    List.mem_range.mp (hc.subset hi)
  have hget : ∀ i, i < (GoodIndexes S).length →
      (GoodIndexes S).getD i 0 ∈ GoodIndexes S := by
    intro i hi
    rw [List.getD_eq_getElem _ _ hi]
    exact List.getElem_mem hi
  have hinj : ∀ x ∈ c, ∀ y ∈ c,
      (GoodIndexes S).getD x 0 = (GoodIndexes S).getD y 0 → x = y := by
    intro x hx y hy hxy
    rw [List.getD_eq_getElem _ _ (hclt x hx), List.getD_eq_getElem _ _ (hclt y hy)] at hxy
    exact (List.Nodup.getElem_inj_iff (nodup_GoodIndexes S)).mp hxy
  have hmapnd : (c.map (fun i => (GoodIndexes S).getD i 0)).Nodup :=
    List.Nodup.map_on hinj hcnd
  have hperm : ((List.range S.length).filter
      (fun k => decide (0 < idAt S k) &&
        decide (idAt (markCombo S (GoodIndexes S) c) k ≤ 0))).Perm
      (c.map (fun i => (GoodIndexes S).getD i 0)) := by
    rw [List.perm_ext_iff_of_nodup (List.Nodup.filter _ (List.nodup_range _)) hmapnd]
    intro k
    simp only [List.mem_filter, List.mem_range, Bool.and_eq_true, decide_eq_true_eq,
      List.mem_map, idAt_markCombo]
    constructor
    · rintro ⟨hk, hpos, hle⟩
      by_cases hsel : ∃ i, i < (GoodIndexes S).length ∧ i ∈ c ∧ (GoodIndexes S).getD i 0 = k
      · obtain ⟨i, _, hic, hik⟩ := hsel
        exact ⟨i, hic, hik⟩
      · rw [if_neg hsel] at hle
        omega
    · rintro ⟨i, hic, hik⟩
      have hm := hget i (hclt i hic)
      rw [hik, mem_GoodIndexes] at hm
      refine ⟨hm.1, hm.2, ?_⟩
      rw [if_pos ⟨i, hclt i hic, hic, hik⟩]
      have := abs_nonneg (idAt S k)
      omega
  unfold rejected
  rw [hperm.length_eq, List.length_map]

theorem map_idAt_range (S : List SatID) :
    (List.range S.length).map (idAt S) = S.map SatID.id := by
  apply List.ext_getElem
  · simp
  · intro i h1 h2
    simp only [List.getElem_map, List.getElem_range, idAt]
    have hi : i < S.length := by simpa using h2
    rw [List.getElem?_eq_getElem hi]

theorem length_GoodIndexes (S : List SatID) :
    (GoodIndexes S).length = (S.filter (fun s => decide (0 < s.id))).length := by
  unfold GoodIndexes
  rw [← List.countP_eq_length_filter, ← List.countP_eq_length_filter]
  have h1 : List.countP (fun i => decide (0 < idAt S i)) (List.range S.length) =
      List.countP (fun x => decide (0 < x)) ((List.range S.length).map (idAt S)) := by
    rw [List.countP_map]; rfl
  have h2 : List.countP (fun s : SatID => decide (0 < s.id)) S =
      List.countP (fun x => decide (0 < x)) (S.map SatID.id) := by
    rw [List.countP_map]; rfl
  rw [h1, h2, map_idAt_range]

/-! ## The search loops of RAIMCompute -/

theorem sameConfig_refl (a : PRSolution) : sameConfig a a :=
  ⟨rfl, rfl, rfl, rfl, rfl, rfl, rfl, rfl, rfl⟩

theorem sameConfig_trans {a b c : PRSolution} (h1 : sameConfig a b) (h2 : sameConfig b c) :
    sameConfig a c := by
  obtain ⟨a1, a2, a3, a4, a5, a6, a7, a8, a9⟩ := h1
  obtain ⟨b1, b2, b3, b4, b5, b6, b7, b8, b9⟩ := h2
  exact ⟨a1.trans b1, a2.trans b2, a3.trans b3, a4.trans b4, a5.trans b5, a6.trans b6,
    a7.trans b7, a8.trans b8, a9.trans b9⟩

theorem SimplePRSolution_sameConfig {self : PRSolution} {ext : External} {T : ℚ}
    {Sats : List SatID} {SVP invMC : Matrix} {pTropModel : Bool} {niterLimit : Int}
    {convLimit : ℚ} {Resids Slopes : Vector} {r : Solved}
    (h : SimplePRSolution self ext T Sats SVP invMC pTropModel niterLimit convLimit Resids Slopes
      = some r) : sameConfig r.self self := by
  rcases SimplePRSolution_cases h with ⟨_, rfl⟩ | ⟨_, s, _, rfl⟩ | ⟨_, c, f, _, rfl⟩ <;>
    exact ⟨rfl, rfl, rfl, rfl, rfl, rfl, rfl, rfl, rfl⟩

/-- The solver sets `Valid` on the codes 0 and -1 and clears it on -2 and -3. -/
theorem SimplePRSolution_valid {self : PRSolution} {ext : External} {T : ℚ}
    {Sats : List SatID} {SVP invMC : Matrix} {pTropModel : Bool} {niterLimit : Int}
    {convLimit : ℚ} {Resids Slopes : Vector} {r : Solved}
    (h : SimplePRSolution self ext T Sats SVP invMC pTropModel niterLimit convLimit Resids Slopes
      = some r) :
    (r.iret = -2 ∨ r.iret = -3 → r.self.Valid = false) ∧
    (r.iret = 0 ∨ r.iret = -1 → r.self.Valid = true ∧ r.self.SatelliteIDs = Sats) := by
  rcases SimplePRSolution_cases h with ⟨_, rfl⟩ | ⟨_, s, _, rfl⟩ | ⟨_, c, f, _, rfl⟩
  · exact ⟨fun _ => rfl, fun h => by rcases h with h | h <;> simp at h⟩
  · exact ⟨fun _ => rfl, fun h => by rcases h with h | h <;> simp at h⟩
  · refine ⟨fun h => ?_, fun _ => ⟨rfl, rfl⟩⟩
    cases c <;> rcases h with h | h <;> simp at h

/-- Code and solution of a solver call do not depend on the outputs held by
the object it is called on. -/
theorem SimplePRSolution_transfer {a : PRSolution} (b : PRSolution) {ext : External} {T : ℚ}
    {Sats : List SatID} {SVP invMC : Matrix} {pTropModel : Bool} {niterLimit : Int}
    {convLimit : ℚ} {R S : Vector} (R' S' : Vector) {q : Solved}
    (hab : a.allowedGNSS = b.allowedGNSS)
    (h : SimplePRSolution a ext T Sats SVP invMC pTropModel niterLimit convLimit R S = some q) :
    ∃ q', SimplePRSolution b ext T Sats SVP invMC pTropModel niterLimit convLimit R' S' = some q' ∧
      q'.iret = q.iret ∧ (q.iret = 0 → sameFit q'.self q.self) := by
  obtain ⟨hp, hg1, hg2⟩ := SimplePRSolution_guards h
  subst hp
  have hg2' : ¬ b.allowedGNSS.length = 0 := by rw [← hab]; exact hg2
  rw [SimplePRSolution_eq a ext T Sats SVP invMC niterLimit convLimit R S hg1 hg2] at h
  rw [SimplePRSolution_eq b ext T Sats SVP invMC niterLimit convLimit R' S' hg1 hg2', ← hab]
  by_cases hlt : nIncluded a.allowedGNSS Sats < 3 + (systemsInUse a.allowedGNSS Sats).length
  · rw [if_pos hlt] at h ⊢
    cases h
    exact ⟨_, rfl, rfl, fun h => by simp at h⟩
  · rw [if_neg hlt] at h ⊢
    by_cases hc : (Sats.filter (fun s => decide (0 < s.id))).length ≠
        nIncluded a.allowedGNSS Sats
    · rw [if_pos hc] at h; cases h
    · rw [if_neg hc] at h ⊢
      cases hs : ext.solve T Sats SVP invMC niterLimit convLimit with
      | singular s =>
        rw [hs] at h
        cases h
        exact ⟨_, rfl, rfl, fun h => by simp at h⟩
      | ended c f =>
        rw [hs] at h
        cases h
        exact ⟨_, rfl, rfl, fun _ => ⟨rfl, rfl, rfl, rfl, rfl, rfl, rfl, rfl, rfl, rfl, rfl⟩⟩

theorem SimplePRSolution_rms_nonneg {self : PRSolution} {ext : External} {T : ℚ}
    {Sats : List SatID} {SVP invMC : Matrix} {pTropModel : Bool} {niterLimit : Int}
    {convLimit : ℚ} {Resids Slopes : Vector} {r : Solved} (hrms : RMSNonneg ext)
    (h : SimplePRSolution self ext T Sats SVP invMC pTropModel niterLimit convLimit Resids Slopes
      = some r) (h0 : r.iret = 0) : 0 ≤ r.self.RMSResidual := by
  rcases SimplePRSolution_cases h with ⟨_, rfl⟩ | ⟨_, s, _, rfl⟩ | ⟨_, c, f, hs, rfl⟩
  · simp at h0
  · simp at h0
  · exact hrms _ _ _ _ _ _ _ _ hs

theorem trial_cases {ext : External} {Tr : ℚ} {SVP invMC : Matrix} {pTropModel : Bool}
    {Save : List SatID} {Good : List Nat} {stage : Int} {c : List Nat} {st st' : Search}
    {b : Bool}
    (h : trial ext Tr SVP invMC pTropModel Save Good stage c st = some (st', b)) :
    ∃ q, SimplePRSolution st.self ext Tr (markCombo Save Good c) SVP invMC pTropModel
        st.self.MaxNIterations st.self.ConvergenceLimit st.Resids st.Slopes = some q ∧
      st'.self = q.self ∧ st'.Sats = markCombo Save Good c ∧ st'.iret = q.iret ∧
      st'.calls = st.calls ++ [markCombo Save Good c] ∧
      ((q.iret = 0 ∧ st'.best = saveBest q.self 0 (noteIret 0 st.best) ∧
          (b = true ↔ (stage = 0 ∧ q.self.RMSResidual < q.self.RMSLimit))) ∨
       ((q.iret = -1 ∨ q.iret = -2) ∧ st'.best = noteIret q.iret st.best ∧ b = false) ∨
       (q.iret = -3 ∧ st'.best = noteIret (-3) st.best ∧ b = true)) := by
  unfold trial at h
  dsimp only at h
  cases hq : SimplePRSolution st.self ext Tr (markCombo Save Good c) SVP invMC pTropModel
        st.self.MaxNIterations st.self.ConvergenceLimit st.Resids st.Slopes with
  | none => rw [hq] at h; cases h
  | some q =>
    rw [hq] at h
    refine ⟨q, rfl, ?_⟩
    rcases SimplePRSolution_codes hq with h0 | h1 | h2 | h3
    · simp only [h0, lt_self_iff_false, if_false, record, Option.some.injEq,
        Prod.mk.injEq] at h
      by_cases hb : stage = 0 ∧ q.self.RMSResidual < q.self.RMSLimit
      · simp only [hb, and_self, if_true, Prod.mk.injEq] at h
        obtain ⟨rfl, rfl⟩ := h
        exact ⟨rfl, rfl, h0.symm, rfl, Or.inl ⟨h0, rfl, by simp [hb]⟩⟩
      · simp only [hb, if_false, Prod.mk.injEq] at h
        obtain ⟨rfl, rfl⟩ := h
        exact ⟨rfl, rfl, h0.symm, rfl, Or.inl ⟨h0, rfl, by simp [hb]⟩⟩
    · simp only [h1, show ((-1 : Int) < 0) by decide, if_true, Option.some.injEq,
        Prod.mk.injEq] at h
      obtain ⟨rfl, rfl⟩ := h
      exact ⟨rfl, rfl, h1.symm, rfl, Or.inr (Or.inl ⟨Or.inl h1, by rw [h1], rfl⟩)⟩
    · simp only [h2, show ((-2 : Int) < 0) by decide, if_true, show ¬ ((-2 : Int) = -1) by decide,
        if_false, Option.some.injEq, Prod.mk.injEq] at h
      obtain ⟨rfl, rfl⟩ := h
      exact ⟨rfl, rfl, h2.symm, rfl, Or.inr (Or.inl ⟨Or.inr h2, by rw [h2], rfl⟩)⟩
    · simp only [h3, show ((-3 : Int) < 0) by decide, if_true, show ¬ ((-3 : Int) = -1) by decide,
        show ¬ ((-3 : Int) = -2) by decide, if_false, Option.some.injEq, Prod.mk.injEq] at h
      obtain ⟨rfl, rfl⟩ := h
      exact ⟨rfl, rfl, h3.symm, rfl, Or.inr (Or.inr ⟨h3, rfl, rfl⟩)⟩

theorem noteIret_eq (i : Int) (b : Best) :
    noteIret i b = { b with BestIret := (noteIret i b).BestIret } := by
  unfold noteIret; split <;> rfl

theorem noteIret_BestIret (i : Int) (b : Best) :
    (noteIret i b).BestIret = if i ≤ 0 ∧ i > b.BestIret then i else b.BestIret := by
  unfold noteIret; split <;> rfl

theorem noteIret_of_zero (i : Int) (b : Best) (h : b.BestIret = 0) : noteIret i b = b := by
  unfold noteIret
  have : ¬ (i ≤ 0 ∧ i > b.BestIret) := by omega
  rw [if_neg this]

/-- The best set after the body of the combination loop: either the solution
just computed, taken because there was none or its RMS is smaller, or the
previous set with the code noted. -/
theorem trial_best {ext : External} {Tr : ℚ} {SVP invMC : Matrix} {pTropModel : Bool}
    {Save : List SatID} {Good : List Nat} {stage : Int} {c : List Nat} {st st' : Search}
    {b : Bool}
    (h : trial ext Tr SVP invMC pTropModel Save Good stage c st = some (st', b)) :
    ∃ q, SimplePRSolution st.self ext Tr (markCombo Save Good c) SVP invMC pTropModel
        st.self.MaxNIterations st.self.ConvergenceLimit st.Resids st.Slopes = some q ∧
      st'.self = q.self ∧ st'.Sats = markCombo Save Good c ∧ st'.iret = q.iret ∧
      st'.calls = st.calls ++ [markCombo Save Good c] ∧
      (b = true → q.iret = -3 ∨ stage = 0) ∧
      ((q.iret = 0 ∧ (st.best.BestRMS < 0 ∨ q.self.RMSResidual < st.best.BestRMS) ∧
          st'.best = bestOf q.self 0) ∨
       ((q.iret = 0 → ¬ (st.best.BestRMS < 0 ∨ q.self.RMSResidual < st.best.BestRMS)) ∧
          st'.best = noteIret q.iret st.best)) := by
  obtain ⟨q, hq, h1, h2, h3, h4, h5⟩ := trial_cases h
  refine ⟨q, hq, h1, h2, h3, h4, ?_, ?_⟩
  · intro hb
    rcases h5 with ⟨_, _, hb'⟩ | ⟨_, _, hb'⟩ | ⟨h3', _, _⟩
    · exact Or.inr (hb'.mp hb).1
    · rw [hb'] at hb; cases hb
    · exact Or.inl h3'
  · rcases h5 with ⟨h0, hbest, _⟩ | ⟨hi, hbest, _⟩ | ⟨hi, hbest, _⟩
    · have hrms : (noteIret 0 st.best).BestRMS = st.best.BestRMS := by
        rw [noteIret_eq]
      by_cases hc : st.best.BestRMS < 0 ∨ q.self.RMSResidual < st.best.BestRMS
      · left
        refine ⟨h0, hc, ?_⟩
        rw [hbest, saveBest, hrms, if_pos hc]
      · right
        refine ⟨fun _ => hc, ?_⟩
        rw [hbest, saveBest, hrms, if_neg hc, h0]
    · right
      exact ⟨fun h0 => by rcases hi with hi | hi <;> rw [hi] at h0 <;> simp at h0, hbest⟩
    · right
      refine ⟨fun h0 => by rw [hi] at h0; simp at h0, ?_⟩
      rw [hbest, hi]

theorem Attained_mono {self0 : PRSolution} {ext : External} {Tr : ℚ} {SVP invMC : Matrix}
    {pTropModel : Bool} {st st' : Search} (hb : st'.best = st.best)
    (hc : ∀ m, m ∈ st.calls → m ∈ st'.calls)
    (h : Attained self0 ext Tr SVP invMC pTropModel st) :
    Attained self0 ext Tr SVP invMC pTropModel st' := by
  unfold Attained at h ⊢
  rw [hb]
  exact ⟨h.1, hc _ h.2.1, h.2.2⟩

theorem trial_inv {self0 : PRSolution} {ext : External} {Tr : ℚ} {SVP invMC : Matrix}
    {pTropModel : Bool} {Save : List SatID} {t : Nat} {c : List Nat} {st st' : Search}
    {b : Bool}
    (hinv : SearchInv self0 ext Tr SVP invMC pTropModel Save t st)
    (hc : c.Sublist (List.range (GoodIndexes Save).length)) (hlen : c.length = t)
    (h : trial ext Tr SVP invMC pTropModel Save (GoodIndexes Save) (t : Int) c st
      = some (st', b)) :
    SearchInv self0 ext Tr SVP invMC pTropModel Save t st' ∧
    markCombo Save (GoodIndexes Save) c ∈ st'.calls ∧ st'.iret ≠ -5 ∧
    (b = true → st'.iret = -3 ∨ t = 0) := by
  obtain ⟨q, hq, hself, hsats, hiret, hcalls, hbrk, hbest⟩ := trial_best h
  have hcfgq : sameConfig q.self st.self := SimplePRSolution_sameConfig hq
  have hcfg' : sameConfig st'.self self0 := by
    rw [hself]; exact sameConfig_trans hcfgq hinv.cfg
  have hmc : st.self.MaxNIterations = self0.MaxNIterations := hinv.cfg.2.2.2.2.1
  have hcl : st.self.ConvergenceLimit = self0.ConvergenceLimit := hinv.cfg.2.2.2.2.2.1
  rw [hmc, hcl] at hq
  obtain ⟨q0, hq0, hq0i, hq0f⟩ :=
    SimplePRSolution_transfer self0 [] [] hinv.cfg.1 hq
  have hq0' : solveMarked self0 ext Tr SVP invMC pTropModel
      (markCombo Save (GoodIndexes Save) c) = some q0 := hq0
  have hmem : markCombo Save (GoodIndexes Save) c ∈ st'.calls := by rw [hcalls]; simp
  have hsub : ∀ m, m ∈ st.calls → m ∈ st'.calls := by
    intro m hm; rw [hcalls]; exact List.mem_append_left _ hm
  have hcodes := SimplePRSolution_codes hq
  have hvalid := SimplePRSolution_valid hq
  have hne5 : st'.iret ≠ -5 := by
    rw [hiret]; rcases hcodes with h | h | h | h <;> rw [h] <;> decide
  have hbrk' : b = true → st'.iret = -3 ∨ t = 0 := by
    intro hb
    rcases hbrk hb with h | h
    · exact Or.inl (hiret.trans h)
    · exact Or.inr (by exact_mod_cast h)
  have hcalls' : ∀ m ∈ st'.calls, ∃ c : List Nat,
      c.Sublist (List.range (GoodIndexes Save).length) ∧ c.length ≤ t ∧
      m = markCombo Save (GoodIndexes Save) c := by
    intro m hm
    rw [hcalls, List.mem_append, List.mem_singleton] at hm
    rcases hm with hm | hm
    · exact hinv.calls m hm
    · exact ⟨c, hc, hlen.le, hm⟩
  have hcodes' : st'.iret = 0 ∨ st'.iret = -1 ∨ st'.iret = -2 ∨ st'.iret = -3 ∨ st'.iret = -5 := by
    rw [hiret]; rcases hcodes with h | h | h | h
    · exact Or.inl h
    · exact Or.inr (Or.inl h)
    · exact Or.inr (Or.inr (Or.inl h))
    · exact Or.inr (Or.inr (Or.inr (Or.inl h)))
  have hvalid' : st'.iret = -2 ∨ st'.iret = -3 → st'.self.Valid = false := by
    rw [hiret, hself]; exact hvalid.1
  have hsats' : st'.Sats = Save ∨ st'.Sats ∈ st'.calls := Or.inr (by rw [hsats]; exact hmem)
  have hfull' : ∀ c : List Nat, c.Sublist (List.range (GoodIndexes Save).length) →
      c.length < t → markCombo Save (GoodIndexes Save) c ∈ st'.calls :=
    fun c1 h1 h2 => hsub _ (hinv.full c1 h1 h2)
  have hlast' : st'.iret = -3 → ∃ (c : List Nat) (q : Solved),
      c.Sublist (List.range (GoodIndexes Save).length) ∧ c.length = t ∧
      solveMarked self0 ext Tr SVP invMC pTropModel (markCombo Save (GoodIndexes Save) c)
        = some q ∧ q.iret = -3 := by
    intro h3
    exact ⟨c, q0, hc, hlen, hq0', hq0i.trans (hiret.symm.trans h3)⟩
  refine ⟨?_, hmem, hne5, hbrk'⟩
  rcases hbest with ⟨h0, hcond, hb⟩ | ⟨hncond, hb⟩
  · -- the solution just computed becomes the best
    have hsid : q.self.SatelliteIDs = markCombo Save (GoodIndexes Save) c :=
      (hvalid.2 (Or.inl h0)).2
    have hfit := hq0f h0
    have hatt : Attained self0 ext Tr SVP invMC pTropModel st' := by
      unfold Attained
      rw [hb]
      refine ⟨rfl, ?_, ?_⟩
      · show q.self.SatelliteIDs ∈ st'.calls
        rw [hsid]; exact hmem
      · refine ⟨q0, ?_, hq0i.trans h0, ?_⟩
        · show solveMarked self0 ext Tr SVP invMC pTropModel q.self.SatelliteIDs = some q0
          rw [hsid]; exact hq0'
        · obtain ⟨f1, f2, f3, f4, f5, f6, f7, f8, f9, f10, f11⟩ := hfit
          exact ⟨f1.symm, f2.symm, f3.symm, f4.symm, f5.symm, f6.symm, f7.symm, f8.symm,
            f9.symm, f10.symm, f11.symm⟩
    have hbrms : st'.best.BestRMS = q.self.RMSResidual := by rw [hb]; rfl
    exact
      { cfg := hcfg'
        bestIret_le := by rw [hb]; exact le_refl _
        saved := fun _ => hatt
        code0 := fun _ => hatt
        iret_zero := fun _ => by rw [hb]; rfl
        iret_codes := hcodes'
        valid := hvalid'
        sats := hsats'
        calls := hcalls'
        bound := hinv.bound
        nonneg := fun hrms => Or.inr (by
          rw [hbrms]; exact SimplePRSolution_rms_nonneg hrms hq h0)
        least := by
          intro hrms m hm q1 hq1 hq1i
          have hqn : 0 ≤ q.self.RMSResidual := SimplePRSolution_rms_nonneg hrms hq h0
          rw [hbrms]
          refine ⟨hqn, ?_⟩
          rw [hcalls, List.mem_append, List.mem_singleton] at hm
          rcases hm with hm | hm
          · have hold := hinv.least hrms m hm q1 hq1 hq1i
            rcases hcond with hlt | hlt
            · exact absurd hold.1 (not_le.mpr hlt)
            · exact le_trans hlt.le hold.2
          · rw [hm, hq0'] at hq1
            cases hq1
            rw [hfit.1]
        earlier := by
          intro hrms c1 hc1 hl1 q1 hq1 hq1i
          rcases hinv.earlier hrms c1 hc1 hl1 q1 hq1 hq1i with hl | ⟨hz, _⟩
          · exact Or.inl hl
          · exfalso
            have hqn : 0 ≤ q.self.RMSResidual := SimplePRSolution_rms_nonneg hrms hq h0
            rw [hz] at hcond
            rcases hcond with hlt | hlt
            · exact absurd hlt (lt_irrefl _)
            · exact absurd hqn (not_le.mpr hlt)
        full := hfull'
        last3 := hlast' }
  · -- the best set keeps its solution
    have hrms_eq : st'.best.BestRMS = st.best.BestRMS := by rw [hb, noteIret_eq]
    have hsats_eq : st'.best.BestSats = st.best.BestSats := by rw [hb, noteIret_eq]
    have hkeep : st.best.BestIret = 0 → st'.best = st.best := by
      intro hz; rw [hb]; exact noteIret_of_zero _ _ hz
    have hatt : Attained self0 ext Tr SVP invMC pTropModel st →
        Attained self0 ext Tr SVP invMC pTropModel st' :=
      fun ha => Attained_mono (hkeep ha.1) hsub ha
    have hbi : st'.best.BestIret =
        if q.iret ≤ 0 ∧ q.iret > st.best.BestIret then q.iret else st.best.BestIret := by
      rw [hb, noteIret_BestIret]
    exact
      { cfg := hcfg'
        bestIret_le := by
          rw [hbi]; split
          · rename_i hh; exact hh.1
          · exact hinv.bestIret_le
        saved := fun hne => hatt (hinv.saved (by rw [← hrms_eq]; exact hne))
        code0 := by
          intro hz
          by_cases h0 : q.iret = 0
          · have hnc := hncond h0
            have hge : ¬ st.best.BestRMS < 0 := fun hh => hnc (Or.inl hh)
            apply hatt
            apply hinv.saved
            intro hm1
            rw [hm1] at hge
            exact hge (by norm_num)
          · apply hatt
            apply hinv.code0
            rw [hbi] at hz
            split at hz
            · exact absurd hz h0
            · exact hz
        iret_zero := by
          intro hz
          rw [hiret] at hz
          rw [hbi, hz]
          have := hinv.bestIret_le
          split
          · rfl
          · rename_i hh
            omega
        iret_codes := hcodes'
        valid := hvalid'
        sats := hsats'
        calls := hcalls'
        bound := hinv.bound
        nonneg := fun hrms => by rw [hrms_eq]; exact hinv.nonneg hrms
        least := by
          intro hrms m hm q1 hq1 hq1i
          rw [hrms_eq]
          rw [hcalls, List.mem_append, List.mem_singleton] at hm
          rcases hm with hm | hm
          · exact hinv.least hrms m hm q1 hq1 hq1i
          · rw [hm, hq0'] at hq1
            cases hq1
            have h0 : q.iret = 0 := hq0i.symm.trans hq1i
            have hnc := hncond h0
            rw [(hq0f h0).1]
            constructor
            · exact not_lt.mp (fun hh => hnc (Or.inl hh))
            · exact not_lt.mp (fun hh => hnc (Or.inr hh))
        earlier := by
          intro hrms c1 hc1 hl1 q1 hq1 hq1i
          rw [hrms_eq, hsats_eq]
          exact hinv.earlier hrms c1 hc1 hl1 q1 hq1 hq1i
        full := hfull'
        last3 := hlast' }

theorem comboLoop_inv {self0 : PRSolution} {ext : External} {Tr : ℚ} {SVP invMC : Matrix}
    {pTropModel : Bool} {Save : List SatID} {t : Nat} :
    ∀ (cs : List (List Nat)) (st st' : Search),
    (∀ c ∈ cs, c.Sublist (List.range (GoodIndexes Save).length) ∧ c.length = t) →
    SearchInv self0 ext Tr SVP invMC pTropModel Save t st →
    comboLoop ext Tr SVP invMC pTropModel Save (GoodIndexes Save) (t : Int) cs st = some st' →
    SearchInv self0 ext Tr SVP invMC pTropModel Save t st' ∧
    (∀ m, m ∈ st.calls → m ∈ st'.calls) ∧
    ((∀ c ∈ cs, markCombo Save (GoodIndexes Save) c ∈ st'.calls) ∨ st'.iret = -3 ∨ t = 0) ∧
    (∀ c0 rest, cs = c0 :: rest →
      markCombo Save (GoodIndexes Save) c0 ∈ st'.calls ∧ st'.iret ≠ -5) := by
  intro cs
  induction cs with
  | nil =>
    intro st st' _ hinv h
    simp only [comboLoop, Option.some.injEq] at h
    subst h
    exact ⟨hinv, fun _ hm => hm, Or.inl (fun c hc => absurd hc (List.not_mem_nil c)),
      fun c0 rest h => by cases h⟩
  | cons c rest ih =>
    intro st st' hcs hinv h
    have hc := hcs c (List.mem_cons_self _ _)
    have hrest : ∀ c' ∈ rest, c'.Sublist (List.range (GoodIndexes Save).length) ∧
        c'.length = t := fun c' hc' => hcs c' (List.mem_cons_of_mem _ hc')
    unfold comboLoop at h
    cases htr : trial ext Tr SVP invMC pTropModel Save (GoodIndexes Save) (t : Int) c st with
    | none => rw [htr] at h; cases h
    | some res =>
      obtain ⟨st1, b⟩ := res
      rw [htr] at h
      obtain ⟨hinv1, hmem1, hne1, hbrk1⟩ := trial_inv hinv hc.1 hc.2 htr
      have hsub1 : ∀ m, m ∈ st.calls → m ∈ st1.calls := by
        obtain ⟨q, _, _, _, _, hcalls, _⟩ := trial_best htr
        intro m hm; rw [hcalls]; exact List.mem_append_left _ hm
      cases b with
      | true =>
        simp only [Option.some.injEq] at h
        subst h
        refine ⟨hinv1, hsub1, ?_, ?_⟩
        · rcases hbrk1 rfl with h3 | h0
          · exact Or.inr (Or.inl h3)
          · exact Or.inr (Or.inr h0)
        · intro c0 rest' he
          cases he
          exact ⟨hmem1, hne1⟩
      | false =>
        simp only at h
        obtain ⟨hinv', hsub', hall', hhead'⟩ := ih st1 st' hrest hinv1 h
        refine ⟨hinv', fun m hm => hsub' m (hsub1 m hm), ?_, ?_⟩
        · rcases hall' with hall | h3 | h0
          · left
            intro c' hc'
            rcases List.mem_cons.mp hc' with rfl | hc'
            · exact hsub' _ hmem1
            · exact hall c' hc'
          · exact Or.inr (Or.inl h3)
          · exact Or.inr (Or.inr h0)
        · intro c0 rest' he
          cases he
          refine ⟨hsub' _ hmem1, ?_⟩
          cases hr : rest with
          | nil =>
            rw [hr] at h
            simp only [comboLoop, Option.some.injEq] at h
            rw [← h]; exact hne1
          | cons c2 rest2 => exact (hhead' c2 rest2 hr).2

theorem kSubsets_ne_nil (k : Nat) (l : List Nat) (h : k ≤ l.length) : kSubsets k l ≠ [] := by
  have hm : l.take k ∈ kSubsets k l := by
    rw [mem_kSubsets]
    exact ⟨List.take_sublist _ _, by simp [h]⟩
  intro he
  rw [he] at hm
  exact absurd hm (List.not_mem_nil _)

theorem Combinations_eq {n t : Nat} {combos : List (List Nat)}
    (h : Combinations (n : Int) (t : Int) = some combos) :
    t ≤ n ∧ combos = kSubsets t (List.range n) := by
  unfold Combinations at h
  by_cases hc : (t : Int) > (n : Int) ∨ (n : Int) < 0 ∨ (t : Int) < 0
  · rw [if_pos hc] at h; cases h
  · rw [if_neg hc] at h
    simp only [Int.toNat_ofNat, Option.some.injEq] at h
    exact ⟨by omega, h.symm⟩

theorem SearchInv_next {self0 : PRSolution} {ext : External} {Tr : ℚ} {SVP invMC : Matrix}
    {pTropModel : Bool} {Save : List SatID} {t : Nat} {st1 : Search}
    (hinv : SearchInv self0 ext Tr SVP invMC pTropModel Save t st1)
    (hall : ∀ c : List Nat, c.Sublist (List.range (GoodIndexes Save).length) → c.length = t →
        markCombo Save (GoodIndexes Save) c ∈ st1.calls)
    (hns : ¬ (st1.best.BestRMS > 0 ∧ st1.best.BestRMS < st1.self.RMSLimit))
    (hnb : ¬ (st1.self.NSatsReject > -1 ∧ (t : Int) + 1 > st1.self.NSatsReject))
    (hn3 : st1.iret ≠ -3) :
    SearchInv self0 ext Tr SVP invMC pTropModel Save (t + 1) st1 := by
  have hlim : st1.self.RMSLimit = self0.RMSLimit := hinv.cfg.2.1
  have hnsr : st1.self.NSatsReject = self0.NSatsReject := hinv.cfg.2.2.2.1
  exact
    { cfg := hinv.cfg
      bestIret_le := hinv.bestIret_le
      saved := hinv.saved
      code0 := hinv.code0
      iret_zero := hinv.iret_zero
      iret_codes := hinv.iret_codes
      valid := hinv.valid
      sats := hinv.sats
      calls := by
        intro m hm
        obtain ⟨c, h1, h2, h3⟩ := hinv.calls m hm
        exact ⟨c, h1, Nat.le_succ_of_le h2, h3⟩
      bound := by
        intro h0
        rw [hnsr] at hnb
        push_cast
        omega
      nonneg := hinv.nonneg
      least := hinv.least
      earlier := by
        intro hrms c1 hc1 hl1 q1 hq1 hq1i
        rcases Nat.lt_succ_iff_lt_or_eq.mp hl1 with hlt | heq
        · exact hinv.earlier hrms c1 hc1 hlt q1 hq1 hq1i
        · have hm := hall c1 hc1 heq
          obtain ⟨hge, hle⟩ := hinv.least hrms _ hm q1 hq1 hq1i
          rw [hlim] at hns
          by_cases hl : st1.best.BestRMS < self0.RMSLimit
          · right
            have hz : st1.best.BestRMS = 0 := by
              have : ¬ st1.best.BestRMS > 0 := fun hh => hns ⟨hh, hl⟩
              exact le_antisymm (not_lt.mp this) hge
            refine ⟨hz, ?_⟩
            have hne : st1.best.BestRMS ≠ -1 := by rw [hz]; norm_num
            obtain ⟨_, hbm, _⟩ := hinv.saved hne
            obtain ⟨cb, hcb1, hcb2, hcb3⟩ := hinv.calls _ hbm
            rw [hcb3, rejected_markCombo Save cb hcb1, heq]
            exact hcb2
          · left
            exact le_trans (not_lt.mp hl) hle
      full := by
        intro c1 hc1 hl1
        rcases Nat.lt_succ_iff_lt_or_eq.mp hl1 with hlt | heq
        · exact hinv.full c1 hc1 hlt
        · exact hall c1 hc1 heq
      last3 := fun h3 => absurd h3 hn3 }

theorem stageLoop_exit {self0 : PRSolution} {ext : External} {Tr : ℚ} {SVP invMC : Matrix}
    {pTropModel : Bool} {Save : List SatID} :
    ∀ (left t : Nat) (st st' : Search),
    SearchInv self0 ext Tr SVP invMC pTropModel Save t st →
    stageLoop ext Tr SVP invMC pTropModel Save (GoodIndexes Save)
      ((GoodIndexes Save).length : Int) left (t : Int) st = some st' →
    SearchExit self0 ext Tr SVP invMC pTropModel Save st' := by
  intro left
  induction left with
  | zero => intro t st st' _ h; simp [stageLoop] at h
  | succ left ih =>
    intro t st st' hinv h
    unfold stageLoop at h
    cases hcomb : Combinations ((GoodIndexes Save).length : Int) (t : Int) with
    | none => rw [hcomb] at h; cases h
    | some combos =>
      rw [hcomb] at h
      dsimp only at h
      obtain ⟨htn, hcombos⟩ := Combinations_eq hcomb
      cases hloop : comboLoop ext Tr SVP invMC pTropModel Save (GoodIndexes Save) (t : Int)
          combos st with
      | none => rw [hloop] at h; cases h
      | some st1 =>
        rw [hloop] at h
        dsimp only at h
        have hcs : ∀ c ∈ combos, c.Sublist (List.range (GoodIndexes Save).length) ∧
            c.length = t := by
          intro c hc; rw [hcombos, mem_kSubsets] at hc; exact hc
        obtain ⟨hinv1, _, hall, hhead⟩ := comboLoop_inv combos st st1 hcs hinv hloop
        have hne : combos ≠ [] := by
          rw [hcombos]; exact kSubsets_ne_nil _ _ (by simpa using htn)
        obtain ⟨c0, rest, hcr⟩ := List.exists_cons_of_ne_nil hne
        obtain ⟨hm0, hne5⟩ := hhead c0 rest hcr
        have hfull : (∀ c : List Nat, c.Sublist (List.range (GoodIndexes Save).length) →
            c.length = t → markCombo Save (GoodIndexes Save) c ∈ st1.calls) ∨
            st1.iret = -3 := by
          rcases hall with hall | h3 | h0
          · left
            intro c hc hl
            exact hall c (by rw [hcombos, mem_kSubsets]; exact ⟨hc, hl⟩)
          · exact Or.inr h3
          · left
            intro c hc hl
            have hc0 : c0 ∈ combos := by rw [hcr]; exact List.mem_cons_self _ _
            have hl0 := (hcs c0 hc0).2
            rw [h0] at hl hl0
            rw [List.length_eq_zero.mp hl, ← List.length_eq_zero.mp hl0]
            exact hm0
        have hlim : st1.self.RMSLimit = self0.RMSLimit := hinv1.cfg.2.1
        by_cases hs : st1.best.BestRMS > 0 ∧ st1.best.BestRMS < st1.self.RMSLimit
        · rw [if_pos hs] at h
          simp only [Option.some.injEq] at h
          refine ⟨t, st1, hinv1, hne5, hfull, Or.inl ⟨hs.1, ?_, h.symm⟩⟩
          rw [← hlim]; exact hs.2
        · rw [if_neg hs] at h
          have hs' : ¬ (0 < st1.best.BestRMS ∧ st1.best.BestRMS < self0.RMSLimit) := by
            rw [← hlim]; exact hs
          by_cases hb : st1.self.NSatsReject > -1 ∧ (t : Int) + 1 > st1.self.NSatsReject
          · rw [if_pos hb] at h
            simp only [Option.some.injEq] at h
            exact ⟨t, st1, hinv1, hne5, hfull, Or.inr ⟨hs', h.symm⟩⟩
          · rw [if_neg hb] at h
            by_cases h34 : st1.iret = -3 ∨ st1.iret = -4
            · rw [if_pos h34] at h
              simp only [Option.some.injEq] at h
              exact ⟨t, st1, hinv1, hne5, hfull, Or.inr ⟨hs', h.symm⟩⟩
            · rw [if_neg h34] at h
              have hall' : ∀ c : List Nat,
                  c.Sublist (List.range (GoodIndexes Save).length) → c.length = t →
                  markCombo Save (GoodIndexes Save) c ∈ st1.calls := by
                rcases hfull with hf | h3
                · exact hf
                · exact absurd (Or.inl h3) h34
              have hnext := SearchInv_next hinv1 hall' hs hb (fun h3 => h34 (Or.inl h3))
              have hcast : (t : Int) + 1 = ((t + 1 : Nat) : Int) := by push_cast; rfl
              rw [hcast] at h
              exact ih (t + 1) st1 st' hnext h

/-- The stage counter of `stageLoop` only stands for the exception of
`Combinations`: once it is at least `n + 1 - t`, a larger value gives the same
result. -/
theorem stageLoop_left_irrelevant (ext : External) (Tr : ℚ) (SVP invMC : Matrix)
    (pTropModel : Bool) (Save : List SatID) (Good : List Nat) (n : Nat) :
    ∀ (left k t : Nat) (st : Search), n + 1 ≤ left + t →
      stageLoop ext Tr SVP invMC pTropModel Save Good (n : Int) (left + k) (t : Int) st =
        stageLoop ext Tr SVP invMC pTropModel Save Good (n : Int) left (t : Int) st := by
  intro left
  induction left with
  | zero =>
    intro k t st h
    have hnone : Combinations (n : Int) (t : Int) = none := by
      unfold Combinations
      rw [if_pos]
      left
      omega
    cases k with
    | zero => rfl
    | succ k =>
      rw [Nat.zero_add]
      simp only [stageLoop, hnone]
  | succ left ih =>
    intro k t st h
    have hk : left + 1 + k = (left + k) + 1 := by omega
    rw [hk]
    simp only [stageLoop]
    cases Combinations (n : Int) (t : Int) with
    | none => rfl
    | some combos =>
      dsimp only
      cases comboLoop ext Tr SVP invMC pTropModel Save Good (t : Int) combos st with
      | none => rfl
      | some st1 =>
        dsimp only
        have hcast : (t : Int) + 1 = ((t + 1 : Nat) : Int) := by push_cast; rfl
        rw [hcast, ih k (t + 1) st1 (by omega)]

/-! ## RAIMCompute as a whole -/

theorem PreparePRSolution_congr {a b : PRSolution} (h : a.allowedGNSS = b.allowedGNSS)
    (getXvt : SatID → ℚ → Option Xvt) (Tr : ℚ) (Sats : List SatID) (Pseudorange : List ℚ) :
    PreparePRSolution a getXvt Tr Sats Pseudorange =
      PreparePRSolution b getXvt Tr Sats Pseudorange := by
  unfold PreparePRSolution
  rw [h]

theorem prepareLoop_filter (getXvt : SatID → ℚ → Option Xvt) (Tr : ℚ) (Sats : List SatID) :
    ∀ Pseudorange : List ℚ,
    ((prepareLoop getXvt Tr Sats Pseudorange).Sats.filter (fun s => decide (0 < s.id))).length =
      (prepareLoop getXvt Tr Sats Pseudorange).NSVS := by
  induction Sats with
  | nil => intro prs; simp [prepareLoop]
  | cons s rest ih =>
    intro prs
    simp only [prepareLoop, List.filter_cons]
    generalize prs.headD 0 = pr
    by_cases hid : s.id ≤ 0
    · have hnp : ¬ 0 < s.id := by omega
      rw [prepareSat_marked _ _ _ _ hid]
      simp only [hnp, decide_False, zero_add]
      exact ih _
    · have hpos : 0 < s.id := by omega
      obtain ⟨_, p2, p3⟩ := prepareSat_included getXvt Tr s pr hpos
      rw [p2]
      cases he : ephFails getXvt Tr s pr
      · have hp : 0 < (prepareSat getXvt Tr s pr).sat.id := p3.mpr he
        simp [hp, ih]
        omega
      · have hp : ¬ 0 < (prepareSat getXvt Tr s pr).sat.id := by
          intro hh; have := p3.mp hh; rw [he] at this; cases this
        simp [hp, ih]

/-- A positive value returned by `PreparePRSolution` is the number of
satellites left with `id > 0`, the length of `GoodIndexes`. -/
theorem PreparePRSolution_good {self : PRSolution} {getXvt : SatID → ℚ → Option Xvt} {Tr : ℚ}
    {Sats : List SatID} {Pseudorange : List ℚ} {p : Prepared}
    (h : PreparePRSolution self getXvt Tr Sats Pseudorange = some p) (hpos : 0 < p.ret) :
    p.ret = ((GoodIndexes p.Sats).length : Int) := by
  unfold PreparePRSolution at h
  by_cases h1 : self.allowedGNSS.length = 0
  · rw [if_pos h1] at h; cases h
  · rw [if_neg h1] at h
    dsimp only at h
    by_cases h2 : ((markSystems self.allowedGNSS Sats).2 : Int) ≤ 0
    · rw [if_pos h2] at h
      cases h
      simp at hpos
    · rw [if_neg h2] at h
      by_cases h3 : ((prepareLoop getXvt Tr (markSystems self.allowedGNSS Sats).1
          Pseudorange).noeph : Int) = ((markSystems self.allowedGNSS Sats).2 : Int)
      · rw [if_pos h3] at h
        cases h
        simp at hpos
      · rw [if_neg h3] at h
        cases h
        dsimp only
        rw [length_GoodIndexes, prepareLoop_filter]

theorem SearchInv_init (self0 : PRSolution) (ext : External) (Tr : ℚ) (SVP invMC : Matrix)
    (pTropModel : Bool) (Save : List SatID) :
    SearchInv self0 ext Tr SVP invMC pTropModel Save 0 (Search.init self0 Save) :=
  { cfg := sameConfig_refl _
    bestIret_le := by simp [Search.init, Best.init]
    saved := fun h => absurd rfl h
    code0 := fun h => by simp [Search.init, Best.init] at h
    iret_zero := fun h => by simp [Search.init] at h
    iret_codes := Or.inr (Or.inr (Or.inr (Or.inr rfl)))
    valid := fun h => by rcases h with h | h <;> simp [Search.init] at h
    sats := Or.inl rfl
    calls := fun m hm => by simp [Search.init] at hm
    bound := fun h => by simpa using h
    nonneg := fun _ => Or.inl rfl
    least := fun _ m hm => by simp [Search.init] at hm
    earlier := fun _ c _ hl => absurd hl (Nat.not_lt_zero _)
    full := fun c _ hl => absurd hl (Nat.not_lt_zero _)
    last3 := fun h => by simp [Search.init] at h }

/-- The two ways `RAIMCompute` returns: at once with -4 when
`PreparePRSolution` finds no satellite, or after the search. -/
theorem RAIMCompute_cases {self : PRSolution} {ext : External} {Tr : ℚ} {Sats : List SatID}
    {Pseudorange : List ℚ} {invMC : Matrix} {pTropModel : Bool} {r : RAIMResult}
    (h : RAIMCompute self ext Tr Sats Pseudorange invMC pTropModel = some r) :
    ∃ p, PreparePRSolution self ext.getXvt Tr Sats Pseudorange = some p ∧
      ((p.ret ≤ 0 ∧ r = ⟨-4, initialise self Tr, p.Sats, [], p.queries⟩) ∨
       (0 < p.ret ∧ ∃ st,
          SearchExit (initialise self Tr) ext Tr p.SVP invMC pTropModel p.Sats st ∧
          finish ext p.queries st = some r)) := by
  unfold RAIMCompute at h
  dsimp only at h
  rw [PreparePRSolution_congr (show (initialise self Tr).allowedGNSS = self.allowedGNSS from rfl)]
    at h
  cases hp : PreparePRSolution self ext.getXvt Tr Sats Pseudorange with
  | none => rw [hp] at h; cases h
  | some p =>
    rw [hp] at h
    dsimp only at h
    refine ⟨p, rfl, ?_⟩
    by_cases hle : p.ret ≤ 0
    · rw [if_pos hle] at h
      exact Or.inl ⟨hle, (Option.some.inj h).symm⟩
    · rw [if_neg hle] at h
      have hpos : 0 < p.ret := by omega
      have hN := PreparePRSolution_good hp hpos
      right
      refine ⟨hpos, ?_⟩
      cases hst : stageLoop ext Tr p.SVP invMC pTropModel p.Sats (GoodIndexes p.Sats) p.ret
          (p.ret.toNat + 1) 0 (Search.init (initialise self Tr) p.Sats) with
      | none => rw [hst] at h; cases h
      | some st =>
        rw [hst] at h
        dsimp only at h
        refine ⟨st, ?_, h⟩
        rw [hN] at hst
        exact stageLoop_exit _ 0 _ _ (SearchInv_init _ _ _ _ _ _ _) hst

theorem expandBest_copyBest (self : PRSolution) (b : Best) :
    expandBest (copyBest self b) b = copyBest self b := by
  unfold expandBest
  have : ¬ (copyBest self b).dataGNSS.length ≠ b.BestGNSS.length := by
    simp [copyBest]
  rw [if_neg this]

theorem copyOut_eq (self : PRSolution) (b : Best) :
    copyOut self b =
      { copyBest self b with
        Nsvs := (b.BestSats.filter (fun s => decide (s.id > 0))).length } := by
  unfold copyOut
  rw [expandBest_copyBest]
  rfl

/-- Lines 821-827 for `iret = 0`. -/
theorem conclude_zero (s : PRSolution) (SL RMS : ℚ) :
    ((conclude 0 s SL RMS).1 = 1 ↔
      (SL > s.SlopeLimit ∨ (SL > s.SlopeLimit / 2 ∧ s.Nsvs = 5) ∨ RMS ≥ s.RMSLimit ∨
        s.TropFlag = true)) ∧
    ((conclude 0 s SL RMS).1 = 0 ∨ (conclude 0 s SL RMS).1 = 1) ∧
    (conclude 0 s SL RMS).2.Valid = true ∧
    ((conclude 0 s SL RMS).2.SlopeFlag = true ↔
      (s.SlopeFlag = true ∨ SL > s.SlopeLimit ∨ (SL > s.SlopeLimit / 2 ∧ s.Nsvs = 5))) ∧
    ((conclude 0 s SL RMS).2.RMSFlag = true ↔ (s.RMSFlag = true ∨ RMS ≥ s.RMSLimit)) ∧
    sameFit (conclude 0 s SL RMS).2 s ∧ (conclude 0 s SL RMS).2.Nsvs = s.Nsvs ∧
    (conclude 0 s SL RMS).2.allowedGNSS = s.allowedGNSS ∧
    (conclude 0 s SL RMS).2.RMSLimit = s.RMSLimit ∧
    (conclude 0 s SL RMS).2.SlopeLimit = s.SlopeLimit := by
  unfold conclude
  by_cases h1 : SL > s.SlopeLimit <;> by_cases h2 : SL > s.SlopeLimit / 2 ∧ s.Nsvs = 5 <;>
    by_cases h3 : RMS ≥ s.RMSLimit <;> cases h4 : s.TropFlag <;>
    simp [h1, h2, h3, h4, sameFit]

/-- Lines 821-828 for a negative `iret`. -/
theorem conclude_neg (iret : Int) (s : PRSolution) (SL RMS : ℚ) (h : iret < 0) :
    (conclude iret s SL RMS).1 = iret ∧
    (iret = -1 → (conclude iret s SL RMS).2.Valid = false) ∧
    (iret ≠ -1 → (conclude iret s SL RMS).2 = s) ∧
    (conclude iret s SL RMS).2.TropFlag = s.TropFlag ∧
    (conclude iret s SL RMS).2.SlopeFlag = s.SlopeFlag ∧
    (conclude iret s SL RMS).2.RMSFlag = s.RMSFlag := by
  unfold conclude
  have h0 : ¬ iret = 0 := by omega
  by_cases h1 : iret = -1
  · simp [h0, h1]
  · simp [h0, h1]

/-- How `RAIMCompute` ends. Either it returns -4 at once; or the stage loop
ends in a state `st1` of some stage `t` and the best solution is copied out
(the last solver call returned 0, or a stage ended in success); or the loop
ends on a failed solver call, whose code is returned with the object and the
satellite list left by that call. -/
theorem RAIMCompute_result {self : PRSolution} {ext : External} {Tr : ℚ} {Sats : List SatID}
    {Pseudorange : List ℚ} {invMC : Matrix} {pTropModel : Bool} {r : RAIMResult}
    (h : RAIMCompute self ext Tr Sats Pseudorange invMC pTropModel = some r) :
    ∃ p, PreparePRSolution self ext.getXvt Tr Sats Pseudorange = some p ∧
      ((p.ret ≤ 0 ∧ r = ⟨-4, initialise self Tr, p.Sats, [], p.queries⟩) ∨
       (0 < p.ret ∧ ∃ (t : Nat) (st1 : Search),
          SearchInv (initialise self Tr) ext Tr p.SVP invMC pTropModel p.Sats t st1 ∧
          st1.iret ≠ -5 ∧
          ((∀ c : List Nat, c.Sublist (List.range (GoodIndexes p.Sats).length) →
              c.length = t → markCombo p.Sats (GoodIndexes p.Sats) c ∈ st1.calls) ∨
            st1.iret = -3) ∧
          r.calls = st1.calls ∧
          ((Attained (initialise self Tr) ext Tr p.SVP invMC pTropModel st1 ∧
              r.Sats = st1.best.BestSats ∧
              ∃ d : ℚ × ℚ × ℚ,
                r.iret = (conclude 0
                  { copyOut st1.self st1.best with PDOP := d.1, TDOP := d.2.1, GDOP := d.2.2 }
                  st1.best.BestSL st1.best.BestRMS).1 ∧
                r.self = (conclude 0
                  { copyOut st1.self st1.best with PDOP := d.1, TDOP := d.2.1, GDOP := d.2.2 }
                  st1.best.BestSL st1.best.BestRMS).2) ∨
           (st1.iret < 0 ∧
              ¬ (0 < st1.best.BestRMS ∧ st1.best.BestRMS < (initialise self Tr).RMSLimit) ∧
              r.iret = st1.iret ∧ r.Sats = st1.Sats ∧
              r.self = (conclude st1.iret st1.self st1.best.BestSL st1.best.BestRMS).2)))) := by
  obtain ⟨p, hp, hcase⟩ := RAIMCompute_cases h
  refine ⟨p, hp, ?_⟩
  rcases hcase with hearly | ⟨hpos, st, ⟨t, st1, hinv, hne5, hfull, hst⟩, hfin⟩
  · exact Or.inl hearly
  · right
    refine ⟨hpos, t, st1, hinv, hne5, hfull, ?_⟩
    -- the state at the exit and the three fields that `iret := 0` leaves alone
    have hparts : st.self = st1.self ∧ st.best = st1.best ∧ st.calls = st1.calls ∧
        st.Sats = st1.Sats := by
      rcases hst with ⟨_, _, rfl⟩ | ⟨_, rfl⟩
      · exact ⟨rfl, rfl, rfl, rfl⟩
      · exact ⟨rfl, rfl, rfl, rfl⟩
    obtain ⟨hs1, hs2, hs3, hs4⟩ := hparts
    have hcopy : 0 ≤ st.iret → Attained (initialise self Tr) ext Tr p.SVP invMC pTropModel st1 := by
      intro h0
      rcases hst with ⟨hb1, _, rfl⟩ | ⟨_, rfl⟩
      · apply hinv.saved
        intro hm1
        rw [hm1] at hb1
        exact absurd hb1 (by norm_num)
      · apply hinv.code0
        apply hinv.iret_zero
        rcases hinv.iret_codes with hc | hc | hc | hc | hc
        · exact hc
        all_goals (rw [hc] at h0; exact absurd h0 (by decide))
    unfold finish at hfin
    by_cases h0 : st.iret ≥ 0
    · rw [if_pos h0] at hfin
      dsimp only at hfin
      have hatt := hcopy h0
      rw [hs1, hs2, hatt.1, if_pos rfl] at hfin
      cases hd : ext.DOPCompute (copyOut st1.self st1.best).Partials with
      | none => rw [hd] at hfin; cases hfin
      | some d =>
        rw [hd] at hfin
        dsimp only at hfin
        rw [hs3] at hfin
        have hr := (Option.some.inj hfin).symm
        refine ⟨by rw [hr], Or.inl ⟨hatt, by rw [hr], d, by rw [hr], by rw [hr]⟩⟩
    · rw [if_neg h0] at hfin
      dsimp only at hfin
      have hlt : st.iret < 0 := by omega
      rcases hst with ⟨_, _, rfl⟩ | ⟨hns, rfl⟩
      · exact absurd hlt (lt_irrefl _)
      · have hr := (Option.some.inj hfin).symm
        refine ⟨by rw [hr], Or.inr ⟨hlt, hns, ?_, by rw [hr], by rw [hr]⟩⟩
        rw [hr]
        exact (conclude_neg _ _ _ _ hlt).1

/-! ## Properties of RAIMCompute -/

/-- C3: whenever `RAIMCompute` returns, `Valid` is true on return exactly when
the returned code is 0 or 1; the code is one of 1, 0, -1, -2, -3, -4, and every
negative code leaves `Valid` false. -/
theorem C3_valid_iff_usable (self : PRSolution) (ext : External) (Tr : ℚ) (Sats : List SatID)
    (Pseudorange : List ℚ) (invMC : Matrix) (pTropModel : Bool) (r : RAIMResult)
    (h : RAIMCompute self ext Tr Sats Pseudorange invMC pTropModel = some r) :
    (r.self.Valid = true ↔ (r.iret = 0 ∨ r.iret = 1)) ∧
    (r.iret = 1 ∨ r.iret = 0 ∨ r.iret = -1 ∨ r.iret = -2 ∨ r.iret = -3 ∨ r.iret = -4) ∧
    (r.iret < 0 → r.self.Valid = false) := by
  obtain ⟨p, _, hcase⟩ := RAIMCompute_result h
  rcases hcase with ⟨_, rfl⟩ | ⟨_, t, st1, hinv, hne5, _, _, hend⟩
  · simp [initialise]
  · rcases hend with ⟨_, _, d, hi, hs⟩ | ⟨hlt, _, hi, _, hs⟩
    · obtain ⟨_, h01, hv, _⟩ := conclude_zero
        { copyOut st1.self st1.best with PDOP := d.1, TDOP := d.2.1, GDOP := d.2.2 }
        st1.best.BestSL st1.best.BestRMS
      rw [← hi] at h01
      rw [← hs] at hv
      refine ⟨⟨fun _ => h01, fun _ => hv⟩, ?_, ?_⟩
      · rcases h01 with h0 | h1
        · exact Or.inr (Or.inl h0)
        · exact Or.inl h1
      · intro hneg
        rcases h01 with h0 | h1 <;> omega
    · obtain ⟨_, hm1, hnm1, _⟩ := conclude_neg st1.iret st1.self st1.best.BestSL
        st1.best.BestRMS hlt
      have hvalid : r.self.Valid = false := by
        rw [hs]
        by_cases h1 : st1.iret = -1
        · exact hm1 h1
        · rw [hnm1 h1]
          apply hinv.valid
          rcases hinv.iret_codes with hc | hc | hc | hc | hc
          · omega
          · exact absurd hc h1
          · exact Or.inl hc
          · exact Or.inr hc
          · exact absurd hc hne5
      refine ⟨⟨fun hv => ?_, fun h01 => ?_⟩, ?_, fun _ => hvalid⟩
      · rw [hvalid] at hv; cases hv
      · rcases h01 with h0 | h1 <;> omega
      · rw [hi]
        rcases hinv.iret_codes with hc | hc | hc | hc | hc
        · omega
        · exact Or.inr (Or.inr (Or.inl hc))
        · exact Or.inr (Or.inr (Or.inr (Or.inl hc)))
        · exact Or.inr (Or.inr (Or.inr (Or.inr (Or.inl hc))))
        · exact absurd hc hne5

theorem rejected_self (S : List SatID) : rejected S S = 0 := by
  unfold rejected
  rw [List.length_eq_zero, List.filter_eq_nil_iff]
  intro k _
  simp only [Bool.and_eq_true, decide_eq_true_eq, not_and, not_le]
  exact fun h => h

/-- C10: if `PreparePRSolution` returns a value <= 0 (no satellite with valid
geometry, in particular when every ephemeris query fails), `RAIMCompute`
returns -4 with `Valid`, `TropFlag`, `SlopeFlag` and `RMSFlag` all false, and
has not called `SimplePRSolution`. -/
theorem C10_no_ephemeris (self : PRSolution) (ext : External) (Tr : ℚ) (Sats : List SatID)
    (Pseudorange : List ℚ) (invMC : Matrix) (pTropModel : Bool) (p : Prepared)
    (hp : PreparePRSolution self ext.getXvt Tr Sats Pseudorange = some p)
    (hle : p.ret ≤ 0) :
    ∃ r, RAIMCompute self ext Tr Sats Pseudorange invMC pTropModel = some r ∧
      r.iret = -4 ∧ r.self.Valid = false ∧ r.self.TropFlag = false ∧
      r.self.SlopeFlag = false ∧ r.self.RMSFlag = false ∧ r.calls = [] ∧ r.Sats = p.Sats := by
  refine ⟨⟨-4, initialise self Tr, p.Sats, [], p.queries⟩, ?_, rfl, rfl, rfl, rfl, rfl, rfl, rfl⟩
  unfold RAIMCompute
  dsimp only
  rw [PreparePRSolution_congr (show (initialise self Tr).allowedGNSS = self.allowedGNSS from rfl),
    hp]
  dsimp only
  rw [if_pos hle]

/-- C9: with `NSatsReject >= 0`, every solver call of `RAIMCompute` is made
with at most `NSatsReject` of the satellites left included by
`PreparePRSolution` marked, and so is the satellite list on return. -/
theorem C9_reject_bound (self : PRSolution) (ext : External) (Tr : ℚ) (Sats : List SatID)
    (Pseudorange : List ℚ) (invMC : Matrix) (pTropModel : Bool) (r : RAIMResult)
    (p : Prepared)
    (h : RAIMCompute self ext Tr Sats Pseudorange invMC pTropModel = some r)
    (hp : PreparePRSolution self ext.getXvt Tr Sats Pseudorange = some p)
    (hbound : 0 ≤ self.NSatsReject) :
    (∀ m ∈ r.calls, (rejected p.Sats m : Int) ≤ self.NSatsReject) ∧
    (rejected p.Sats r.Sats : Int) ≤ self.NSatsReject := by
  obtain ⟨p', hp', hcase⟩ := RAIMCompute_result h
  rw [hp] at hp'
  cases hp'
  rcases hcase with ⟨_, rfl⟩ | ⟨_, t, st1, hinv, _, _, hcalls, hend⟩
  · refine ⟨fun m hm => absurd hm (List.not_mem_nil m), ?_⟩
    show (rejected p.Sats p.Sats : Int) ≤ self.NSatsReject
    rw [rejected_self]
    exact hbound
  · have ht : (t : Int) ≤ self.NSatsReject := hinv.bound hbound
    have hcall : ∀ m ∈ st1.calls, (rejected p.Sats m : Int) ≤ self.NSatsReject := by
      intro m hm
      obtain ⟨c, hc1, hc2, rfl⟩ := hinv.calls m hm
      rw [rejected_markCombo p.Sats c hc1]
      omega
    refine ⟨fun m hm => hcall m (by rw [← hcalls]; exact hm), ?_⟩
    rcases hend with ⟨hatt, hsats, _⟩ | ⟨_, _, _, hsats, _⟩
    · rw [hsats]
      exact hcall _ hatt.2.1
    · rw [hsats]
      rcases hinv.sats with hs | hs
      · rw [hs, rejected_self]; exact hbound
      · exact hcall _ hs

/-- C6: when `RAIMCompute` returns 0 or 1 (in particular with
RMSResidual < RMSLimit) and the returned marking rejects `s` of the satellites
left included by `PreparePRSolution`, every combination that rejects fewer
than `s` of them made the solver fail or gave an RMS residual >= RMSLimit. The
RMS residual of the solver is taken to be non-negative. -/
theorem C6_fewest_rejections (self : PRSolution) (ext : External) (Tr : ℚ)
    (Sats : List SatID) (Pseudorange : List ℚ) (invMC : Matrix) (pTropModel : Bool)
    (r : RAIMResult) (p : Prepared)
    (h : RAIMCompute self ext Tr Sats Pseudorange invMC pTropModel = some r)
    (hp : PreparePRSolution self ext.getXvt Tr Sats Pseudorange = some p)
    (hrms : RMSNonneg ext) (hcode : r.iret = 0 ∨ r.iret = 1) :
    ∀ c : List Nat, c.Sublist (List.range (GoodIndexes p.Sats).length) →
      c.length < rejected p.Sats r.Sats →
      ∀ q, solveMarked (initialise self Tr) ext Tr p.SVP invMC pTropModel
          (markCombo p.Sats (GoodIndexes p.Sats) c) = some q →
        q.iret ≠ 0 ∨ self.RMSLimit ≤ q.self.RMSResidual := by
  obtain ⟨p', hp', hcase⟩ := RAIMCompute_result h
  rw [hp] at hp'
  cases hp'
  rcases hcase with ⟨_, rfl⟩ | ⟨_, t, st1, hinv, _, _, _, hend⟩
  · rcases hcode with hc | hc <;> simp at hc
  · rcases hend with ⟨hatt, hsats, _⟩ | ⟨hlt, _, hi, _, _⟩
    · intro c hc hl q hq
      by_cases hq0 : q.iret = 0
      · right
        obtain ⟨cb, hcb1, hcb2, hcb3⟩ := hinv.calls _ hatt.2.1
        have hs : rejected p.Sats r.Sats = cb.length := by
          rw [hsats, hcb3, rejected_markCombo p.Sats cb hcb1]
        have hlt : c.length < t := by omega
        rcases hinv.earlier hrms c hc hlt q hq hq0 with hge | ⟨_, hrej⟩
        · exact hge
        · rw [← hsats] at hrej
          omega
      · exact Or.inl hq0
    · rcases hcode with hc | hc <;> omega

/-- C7 (amended): when `RAIMCompute` returns 0 or 1 with a marking that rejects
`s` of the satellites left included by `PreparePRSolution`, and the solver
returns -3 (too few satellites) for no exclusion of `s` of these satellites,
the returned RMS residual is at most the RMS residual of every exclusion of
`s` of these satellites on which the solver converges. The RMS residual of
the solver is taken to be non-negative. -/
theorem C7_lowest_rms_of_stage (self : PRSolution) (ext : External) (Tr : ℚ)
    (Sats : List SatID) (Pseudorange : List ℚ) (invMC : Matrix) (pTropModel : Bool)
    (r : RAIMResult) (p : Prepared)
    (h : RAIMCompute self ext Tr Sats Pseudorange invMC pTropModel = some r)
    (hp : PreparePRSolution self ext.getXvt Tr Sats Pseudorange = some p)
    (hrms : RMSNonneg ext) (hcode : r.iret = 0 ∨ r.iret = 1)
    (hno3 : ∀ c : List Nat, c.Sublist (List.range (GoodIndexes p.Sats).length) →
      c.length = rejected p.Sats r.Sats →
      ∀ q, solveMarked (initialise self Tr) ext Tr p.SVP invMC pTropModel
          (markCombo p.Sats (GoodIndexes p.Sats) c) = some q → q.iret ≠ -3) :
    ∀ c : List Nat, c.Sublist (List.range (GoodIndexes p.Sats).length) →
      c.length = rejected p.Sats r.Sats →
      ∀ q, solveMarked (initialise self Tr) ext Tr p.SVP invMC pTropModel
          (markCombo p.Sats (GoodIndexes p.Sats) c) = some q →
        q.iret = 0 → r.self.RMSResidual ≤ q.self.RMSResidual := by
  obtain ⟨p', hp', hcase⟩ := RAIMCompute_result h
  rw [hp] at hp'
  cases hp'
  rcases hcase with ⟨_, rfl⟩ | ⟨_, t, st1, hinv, _, hfull, _, hend⟩
  · rcases hcode with hc | hc <;> simp at hc
  · rcases hend with ⟨hatt, hsats, d, _, hself⟩ | ⟨hlt, _, hi, _, _⟩
    · intro c hc hl q hq hq0
      obtain ⟨cb, hcb1, hcb2, hcb3⟩ := hinv.calls _ hatt.2.1
      have hs : rejected p.Sats r.Sats = cb.length := by
        rw [hsats, hcb3, rejected_markCombo p.Sats cb hcb1]
      have hrms_eq : r.self.RMSResidual = st1.best.BestRMS := by
        rw [hself]
        rw [(conclude_zero _ _ _).2.2.2.2.2.1.1, copyOut_eq]
        rfl
      have hmem : markCombo p.Sats (GoodIndexes p.Sats) c ∈ st1.calls := by
        rcases Nat.lt_or_ge c.length t with hlt | hge
        · exact hinv.full c hc hlt
        · have hct : c.length = t := by omega
          rcases hfull with hf | h3
          · exact hf c hc hct
          · exfalso
            obtain ⟨c3, q3, hc3, hl3, hq3, hq3i⟩ := hinv.last3 h3
            exact hno3 c3 hc3 (by omega) q3 hq3 hq3i
      rw [hrms_eq]
      exact (hinv.least hrms _ hmem q hq hq0).2
    · rcases hcode with hc | hc <;> omega

theorem sameFit_trans {a b c : PRSolution} (h1 : sameFit a b) (h2 : sameFit b c) :
    sameFit a c := by
  obtain ⟨a1, a2, a3, a4, a5, a6, a7, a8, a9, a10, a11⟩ := h1
  obtain ⟨b1, b2, b3, b4, b5, b6, b7, b8, b9, b10, b11⟩ := h2
  exact ⟨a1.trans b1, a2.trans b2, a3.trans b3, a4.trans b4, a5.trans b5, a6.trans b6,
    a7.trans b7, a8.trans b8, a9.trans b9, a10.trans b10, a11.trans b11⟩

/-- What a return with code 0 or 1 delivers: the solution of a solver call of
the search that converged, with the satellite marking of that call, and (for a
solver whose RMS residual is never negative) with the least RMS residual among
the calls of the search that converged. -/
theorem RAIMCompute_best {self : PRSolution} {ext : External} {Tr : ℚ} {Sats : List SatID}
    {Pseudorange : List ℚ} {invMC : Matrix} {pTropModel : Bool} {r : RAIMResult}
    {p : Prepared}
    (h : RAIMCompute self ext Tr Sats Pseudorange invMC pTropModel = some r)
    (hp : PreparePRSolution self ext.getXvt Tr Sats Pseudorange = some p)
    (hcode : r.iret = 0 ∨ r.iret = 1) :
    r.Sats ∈ r.calls ∧
    (∃ q, solveMarked (initialise self Tr) ext Tr p.SVP invMC pTropModel r.Sats = some q ∧
      q.iret = 0 ∧ sameFit r.self q.self) ∧
    (RMSNonneg ext → ∀ m ∈ r.calls, ∀ q,
      solveMarked (initialise self Tr) ext Tr p.SVP invMC pTropModel m = some q → q.iret = 0 →
      r.self.RMSResidual ≤ q.self.RMSResidual) := by
  obtain ⟨p', hp', hcase⟩ := RAIMCompute_result h
  rw [hp] at hp'
  cases hp'
  rcases hcase with ⟨_, rfl⟩ | ⟨_, t, st1, hinv, _, _, hcalls, hend⟩
  · rcases hcode with hc | hc <;> simp at hc
  · rcases hend with ⟨hatt, hsats, d, _, hself⟩ | ⟨hlt, _, hi, _, _⟩
    · obtain ⟨_, hmem, q, hq, hq0, hfit⟩ := hatt
      have hrfit : sameFit r.self (copyBest q.self st1.best) := by
        rw [hself]
        refine sameFit_trans (conclude_zero _ _ _).2.2.2.2.2.1 ?_
        rw [copyOut_eq]
        exact ⟨rfl, rfl, rfl, rfl, rfl, rfl, rfl, rfl, rfl, rfl, rfl⟩
      refine ⟨by rw [hsats, hcalls]; exact hmem, ⟨q, by rw [hsats]; exact hq, hq0,
        sameFit_trans hrfit hfit⟩, ?_⟩
      intro hrms m hm q' hq' hq'0
      rw [hcalls] at hm
      have hle := (hinv.least hrms m hm q' hq' hq'0).2
      have : r.self.RMSResidual = st1.best.BestRMS := hrfit.1
      rw [this]
      exact hle
    · rcases hcode with hc | hc <;> omega

/-- C2: when `RAIMCompute` returns after copying out a best solution (its code
is then not negative), the returned list is the marking of a solver call of
the search that converged, the winning solve, and `MaxSlope`, `RMSResidual`
and `TropFlag` on return are `BestSL`, `BestRMS` and the flag of that solve;
`Nsvs` is the number of satellites with id > 0 in the returned list. The code
is 1 exactly when MaxSlope > SlopeLimit, or MaxSlope > SlopeLimit/2 with
Nsvs = 5, or RMSResidual >= RMSLimit, or the tropospheric correction was not
applied on the winning solve, and 0 otherwise; `SlopeFlag` is set exactly in
the two slope cases and `RMSFlag` exactly in the RMS case. -/
theorem C2_degraded_code (self : PRSolution) (ext : External) (Tr : ℚ) (Sats : List SatID)
    (Pseudorange : List ℚ) (invMC : Matrix) (pTropModel : Bool) (r : RAIMResult)
    (h : RAIMCompute self ext Tr Sats Pseudorange invMC pTropModel = some r)
    (hcopy : 0 ≤ r.iret) :
    (r.iret = 1 ↔
      (r.self.MaxSlope > self.SlopeLimit ∨
       (r.self.MaxSlope > self.SlopeLimit / 2 ∧ r.self.Nsvs = 5) ∨
       r.self.RMSResidual ≥ self.RMSLimit ∨ r.self.TropFlag = true)) ∧
    (r.iret = 0 ∨ r.iret = 1) ∧
    (r.self.SlopeFlag = true ↔
      (r.self.MaxSlope > self.SlopeLimit ∨
       (r.self.MaxSlope > self.SlopeLimit / 2 ∧ r.self.Nsvs = 5))) ∧
    (r.self.RMSFlag = true ↔ r.self.RMSResidual ≥ self.RMSLimit) ∧
    r.self.Nsvs = (r.Sats.filter (fun s => decide (s.id > 0))).length ∧
    ∃ p q, PreparePRSolution self ext.getXvt Tr Sats Pseudorange = some p ∧
      r.Sats ∈ r.calls ∧
      solveMarked (initialise self Tr) ext Tr p.SVP invMC pTropModel r.Sats = some q ∧
      q.iret = 0 ∧ r.self.MaxSlope = q.self.MaxSlope ∧
      r.self.RMSResidual = q.self.RMSResidual ∧ r.self.TropFlag = q.self.TropFlag ∧
      (r.iret = 1 ↔
        (q.self.MaxSlope > self.SlopeLimit ∨
         (q.self.MaxSlope > self.SlopeLimit / 2 ∧
            (r.Sats.filter (fun s => decide (s.id > 0))).length = 5) ∨
         q.self.RMSResidual ≥ self.RMSLimit ∨ q.self.TropFlag = true)) := by
  obtain ⟨p, hprep, hcase⟩ := RAIMCompute_result h
  rcases hcase with ⟨_, rfl⟩ | ⟨_, t, st1, hinv, hne5, _, _, hend⟩
  · simp at hcopy
  · rcases hend with ⟨_, hsats, d, hi, hs⟩ | ⟨hlt, _, hi, _, _⟩
    · obtain ⟨h1, h01, _, hsf, hrf, hfit, hn, _, hrl, hsl⟩ := conclude_zero
        { copyOut st1.self st1.best with PDOP := d.1, TDOP := d.2.1, GDOP := d.2.2 }
        st1.best.BestSL st1.best.BestRMS
      rw [← hi] at h1 h01
      rw [← hs] at hsf hrf hfit hn hrl hsl
      obtain ⟨c1, c2, c3, _, _, _, _, c8, c9⟩ := hinv.cfg
      have eSL : ({ copyOut st1.self st1.best with
          PDOP := d.1, TDOP := d.2.1, GDOP := d.2.2 } : PRSolution).SlopeLimit =
          self.SlopeLimit := by
        rw [copyOut_eq]; exact c3
      have eRL : ({ copyOut st1.self st1.best with
          PDOP := d.1, TDOP := d.2.1, GDOP := d.2.2 } : PRSolution).RMSLimit =
          self.RMSLimit := by
        rw [copyOut_eq]; exact c2
      have eSF : ({ copyOut st1.self st1.best with
          PDOP := d.1, TDOP := d.2.1, GDOP := d.2.2 } : PRSolution).SlopeFlag = false := by
        rw [copyOut_eq]; exact c8
      have eRF : ({ copyOut st1.self st1.best with
          PDOP := d.1, TDOP := d.2.1, GDOP := d.2.2 } : PRSolution).RMSFlag = false := by
        rw [copyOut_eq]; exact c9
      have eMS : r.self.MaxSlope = st1.best.BestSL := by
        rw [hfit.2.2.2.1, copyOut_eq]; rfl
      have eRMS : r.self.RMSResidual = st1.best.BestRMS := by
        rw [hfit.1, copyOut_eq]; rfl
      have eN : ({ copyOut st1.self st1.best with
          PDOP := d.1, TDOP := d.2.1, GDOP := d.2.2 } : PRSolution).Nsvs = r.self.Nsvs :=
        hn.symm
      have eT : ({ copyOut st1.self st1.best with
          PDOP := d.1, TDOP := d.2.1, GDOP := d.2.2 } : PRSolution).TropFlag =
          r.self.TropFlag := hfit.2.2.2.2.1.symm
      rw [eSL, eRL, eN, eT, ← eMS, ← eRMS] at h1
      rw [eSL, eN, eSF, ← eMS] at hsf
      rw [eRL, eRF, ← eRMS] at hrf
      have hNs : r.self.Nsvs = (r.Sats.filter (fun s => decide (s.id > 0))).length := by
        rw [hn, hsats, copyOut_eq]
      obtain ⟨hmem, ⟨q, hq, hq0, hfit'⟩, _⟩ := RAIMCompute_best h hprep h01
      have tMS : r.self.MaxSlope = q.self.MaxSlope := hfit'.2.2.2.1
      have tRMS : r.self.RMSResidual = q.self.RMSResidual := hfit'.1
      have tT : r.self.TropFlag = q.self.TropFlag := hfit'.2.2.2.2.1
      refine ⟨h1, h01, ?_, ?_, hNs, p, q, hprep, hmem, hq, hq0, tMS, tRMS, tT, ?_⟩
      · simpa using hsf
      · simpa using hrf
      · rw [← tMS, ← tRMS, ← tT, ← hNs]
        exact h1
    · omega

/-! ## The example epochs -/

theorem RMSNonneg_exExternal (eph : Bool) (conv : List SatID → Bool) (rms : List SatID → ℚ)
    (h : ∀ S, 0 ≤ rms S) : RMSNonneg (exExternal eph conv rms) := by
  intro T S V M n c b f hf
  simp only [exExternal, Numeric.ended.injEq] at hf
  rw [← hf.2]
  exact h S

theorem RMSNonneg_extA : RMSNonneg extA := by
  apply RMSNonneg_exExternal
  intro S
  split <;> norm_num

theorem epochA_returns : epochA = some (returned epochA) := by decide!

theorem prepA_returns : prepA = some (prepared prepA) := by decide!

theorem prepE_returns : prepE = some (prepared prepE) := by decide!

/-- C1 (failing run): in epoch B the solver converges (code 0) on the call of
stage 0 and on the first five calls of stage 1, and does not converge (code
-1) on the last call of stage 1, where the bound on the rejections ends the
search; `RAIMCompute` returns -1 with `Valid` false, and the satellite list
comes back with the sixth satellite marked, as for that last call. -/
theorem C1_converged_run_returns_failure :
    epochB = some (returned epochB) ∧ prepB = some (prepared prepB) ∧
    codesOf selfB extB 0 (prepared prepB).SVP (returned epochB).calls =
      [some 0, some 0, some 0, some 0, some 0, some 0, some (-1)] ∧
    (returned epochB).iret = -1 ∧ (returned epochB).self.Valid = false ∧
    (returned epochB).Sats.map SatID.id = [1, 2, 3, 4, 5, -6] := by
  decide!

/-- C8 (failing run): in epoch C the stage-0 solve converges with RMS residual
0, below the RMS limit 10; `RAIMCompute` goes on to stage 1 and stage 2 (seven
solver calls in all) and returns -3 with `Valid` false and two satellites
marked. -/
theorem C8_zero_rms_run_goes_on :
    epochC = some (returned epochC) ∧ prepC = some (prepared prepC) ∧
    (solveMarked (initialise selfC 0) extC 0 (prepared prepC).SVP [] true (exSats 5)).map
      (fun q => (q.iret, q.self.RMSResidual)) = some (0, 0) ∧
    selfC.RMSLimit = 10 ∧
    (returned epochC).calls.length = 7 ∧
    (returned epochC).iret = -3 ∧ (returned epochC).self.Valid = false ∧
    (returned epochC).Sats.map SatID.id = [-1, -2, 3, 4, 5] := by
  decide!

/-- C7 (counterexample): in epoch D `RAIMCompute` returns 0 with the first
satellite rejected (one rejection) and RMS residual 5, after three solver
calls: stage 0, which does not converge, the exclusion of the first satellite,
and the exclusion of the second, which returns -3 and ends the stage. The
exclusion of the third satellite alone, not tried, converges with RMS
residual 2. -/
theorem C7_counterexample :
    epochD = some (returned epochD) ∧ prepD = some (prepared prepD) ∧
    (returned epochD).iret = 0 ∧
    rejected (prepared prepD).Sats (returned epochD).Sats = 1 ∧
    (returned epochD).self.RMSResidual = 5 ∧
    codesOf selfD extD 0 (prepared prepD).SVP (returned epochD).calls =
      [some (-1), some 0, some (-3)] ∧
    List.Sublist [2] (List.range (GoodIndexes (prepared prepD).Sats).length) ∧
    ([2] : List Nat).length = rejected (prepared prepD).Sats (returned epochD).Sats ∧
    (solveMarked (initialise selfD 0) extD 0 (prepared prepD).SVP [] true
        (markCombo (prepared prepD).Sats (GoodIndexes (prepared prepD).Sats) [2])).map
      (fun q => (q.iret, q.self.RMSResidual)) = some (0, 2) ∧
    ¬ ((returned epochD).self.RMSResidual ≤ 2) := by
  decide!

/-- Witness of C2: epoch A, which returns 0 with five satellites in use; the
winning solve is the one without the third satellite. -/
theorem C2_degraded_code_witness :
    epochA = some (returned epochA) ∧ 0 ≤ (returned epochA).iret ∧
    (((returned epochA).iret = 1 ↔
      ((returned epochA).self.MaxSlope > selfA.SlopeLimit ∨
       ((returned epochA).self.MaxSlope > selfA.SlopeLimit / 2 ∧
          (returned epochA).self.Nsvs = 5) ∨
       (returned epochA).self.RMSResidual ≥ selfA.RMSLimit ∨
       (returned epochA).self.TropFlag = true)) ∧
     ((returned epochA).iret = 0 ∨ (returned epochA).iret = 1) ∧
     ((returned epochA).self.SlopeFlag = true ↔
      ((returned epochA).self.MaxSlope > selfA.SlopeLimit ∨
       ((returned epochA).self.MaxSlope > selfA.SlopeLimit / 2 ∧
          (returned epochA).self.Nsvs = 5))) ∧
     ((returned epochA).self.RMSFlag = true ↔
        (returned epochA).self.RMSResidual ≥ selfA.RMSLimit) ∧
     (returned epochA).self.Nsvs =
        ((returned epochA).Sats.filter (fun s => decide (s.id > 0))).length ∧
     ∃ p q, PreparePRSolution selfA extA.getXvt 0 (exSats 6) [0, 0, 0, 0, 0, 0] = some p ∧
      (returned epochA).Sats ∈ (returned epochA).calls ∧
      solveMarked (initialise selfA 0) extA 0 p.SVP [] true (returned epochA).Sats = some q ∧
      q.iret = 0 ∧ (returned epochA).self.MaxSlope = q.self.MaxSlope ∧
      (returned epochA).self.RMSResidual = q.self.RMSResidual ∧
      (returned epochA).self.TropFlag = q.self.TropFlag ∧
      ((returned epochA).iret = 1 ↔
        (q.self.MaxSlope > selfA.SlopeLimit ∨
         (q.self.MaxSlope > selfA.SlopeLimit / 2 ∧
            ((returned epochA).Sats.filter (fun s => decide (s.id > 0))).length = 5) ∨
         q.self.RMSResidual ≥ selfA.RMSLimit ∨ q.self.TropFlag = true))) :=
  ⟨epochA_returns, by decide!,
    C2_degraded_code selfA extA 0 (exSats 6) [0, 0, 0, 0, 0, 0] [] true (returned epochA)
      epochA_returns (by decide!)⟩

/-- Witness of C3: epoch A. -/
theorem C3_valid_iff_usable_witness :
    epochA = some (returned epochA) ∧
    (((returned epochA).self.Valid = true ↔
        ((returned epochA).iret = 0 ∨ (returned epochA).iret = 1)) ∧
     ((returned epochA).iret = 1 ∨ (returned epochA).iret = 0 ∨ (returned epochA).iret = -1 ∨
        (returned epochA).iret = -2 ∨ (returned epochA).iret = -3 ∨
        (returned epochA).iret = -4) ∧
     ((returned epochA).iret < 0 → (returned epochA).self.Valid = false)) :=
  ⟨epochA_returns,
    C3_valid_iff_usable selfA extA 0 (exSats 6) [0, 0, 0, 0, 0, 0] [] true (returned epochA)
      epochA_returns⟩

/-- Witness of C4: three satellites of one constellation are fewer than the
four unknowns. -/
theorem C4_too_few_satellites_witness :
    selfC.allowedGNSS ≠ [] ∧ (exSats 3).length = (Matrix.zero 3 4).length ∧
    (([] : Matrix).length = 0 ∨ ([] : Matrix).length = (exSats 3).length) ∧
    nIncluded selfC.allowedGNSS (exSats 3) <
      3 + (systemsInUse selfC.allowedGNSS (exSats 3)).length ∧
    ∃ r, SimplePRSolution selfC extC 0 (exSats 3) (Matrix.zero 3 4) [] true 10 (1 / 1000) [] []
        = some r ∧ r.iret = -3 :=
  ⟨by decide, by decide, Or.inl rfl, by decide!,
    (C4_too_few_satellites selfC extC 0 (exSats 3) (Matrix.zero 3 4) [] 10 (1 / 1000) [] []
      (by decide) (by decide) (Or.inl rfl)).1.mpr (by decide!)⟩

/-- Witness of C10: epoch E, where `PreparePRSolution` returns -4. -/
theorem C10_no_ephemeris_witness :
    prepE = some (prepared prepE) ∧ (prepared prepE).ret ≤ 0 ∧
    ∃ r, RAIMCompute selfC extE 0 (exSats 6) [0, 0, 0, 0, 0, 0] [] true = some r ∧
      r.iret = -4 ∧ r.self.Valid = false ∧ r.self.TropFlag = false ∧
      r.self.SlopeFlag = false ∧ r.self.RMSFlag = false ∧ r.calls = [] ∧
      r.Sats = (prepared prepE).Sats :=
  ⟨prepE_returns, by decide!,
    C10_no_ephemeris selfC extE 0 (exSats 6) [0, 0, 0, 0, 0, 0] [] true (prepared prepE)
      prepE_returns (by decide!)⟩

/-- Witness of C9: epoch A, with at most 2 rejections allowed. -/
theorem C9_reject_bound_witness :
    epochA = some (returned epochA) ∧ prepA = some (prepared prepA) ∧
    0 ≤ selfA.NSatsReject ∧
    ((∀ m ∈ (returned epochA).calls,
        (rejected (prepared prepA).Sats m : Int) ≤ selfA.NSatsReject) ∧
     (rejected (prepared prepA).Sats (returned epochA).Sats : Int) ≤ selfA.NSatsReject) :=
  ⟨epochA_returns, prepA_returns, by decide,
    C9_reject_bound selfA extA 0 (exSats 6) [0, 0, 0, 0, 0, 0] [] true (returned epochA)
      (prepared prepA) epochA_returns prepA_returns (by decide)⟩

/-- Witness of C6: epoch A, where the returned marking rejects one satellite. -/
theorem C6_fewest_rejections_witness :
    epochA = some (returned epochA) ∧ prepA = some (prepared prepA) ∧ RMSNonneg extA ∧
    ((returned epochA).iret = 0 ∨ (returned epochA).iret = 1) ∧
    rejected (prepared prepA).Sats (returned epochA).Sats = 1 ∧
    (∀ c : List Nat, c.Sublist (List.range (GoodIndexes (prepared prepA).Sats).length) →
      c.length < rejected (prepared prepA).Sats (returned epochA).Sats →
      ∀ q, solveMarked (initialise selfA 0) extA 0 (prepared prepA).SVP [] true
          (markCombo (prepared prepA).Sats (GoodIndexes (prepared prepA).Sats) c) = some q →
        q.iret ≠ 0 ∨ selfA.RMSLimit ≤ q.self.RMSResidual) :=
  ⟨epochA_returns, prepA_returns, RMSNonneg_extA, by decide!, by decide!,
    C6_fewest_rejections selfA extA 0 (exSats 6) [0, 0, 0, 0, 0, 0] [] true (returned epochA)
      (prepared prepA) epochA_returns prepA_returns RMSNonneg_extA (by decide!)⟩

theorem epochA_no_code3 :
    ∀ c ∈ kSubsets (rejected (prepared prepA).Sats (returned epochA).Sats)
        (List.range (GoodIndexes (prepared prepA).Sats).length),
      (solveMarked (initialise selfA 0) extA 0 (prepared prepA).SVP [] true
        (markCombo (prepared prepA).Sats (GoodIndexes (prepared prepA).Sats) c)).map
          (fun q => q.iret) ≠ some (-3) := by
  decide!

/-- Witness of C7 (amended): epoch A, where no exclusion of one satellite
leaves too few satellites. -/
theorem C7_lowest_rms_of_stage_witness :
    epochA = some (returned epochA) ∧ prepA = some (prepared prepA) ∧ RMSNonneg extA ∧
    ((returned epochA).iret = 0 ∨ (returned epochA).iret = 1) ∧
    (∀ c : List Nat, c.Sublist (List.range (GoodIndexes (prepared prepA).Sats).length) →
      c.length = rejected (prepared prepA).Sats (returned epochA).Sats →
      ∀ q, solveMarked (initialise selfA 0) extA 0 (prepared prepA).SVP [] true
          (markCombo (prepared prepA).Sats (GoodIndexes (prepared prepA).Sats) c) = some q →
        q.iret = 0 → (returned epochA).self.RMSResidual ≤ q.self.RMSResidual) :=
  ⟨epochA_returns, prepA_returns, RMSNonneg_extA, by decide!,
    C7_lowest_rms_of_stage selfA extA 0 (exSats 6) [0, 0, 0, 0, 0, 0] [] true (returned epochA)
      (prepared prepA) epochA_returns prepA_returns RMSNonneg_extA (by decide!)
      (fun c hc hl q hq h3 =>
        epochA_no_code3 c ((mem_kSubsets _ _ _).mpr ⟨hc, hl⟩) (by rw [hq]; simp [h3]))⟩

/-! ## PreparePRSolution satellite by satellite -/

theorem markSystems_cons (allowed : List SatelliteSystem) (s : SatID) (rest : List SatID) :
    (markSystems allowed (s :: rest)).1 =
      (if 0 < s.id ∧ s.system ∉ allowed then { s with id := -s.id } else s) ::
        (markSystems allowed rest).1 := by
  by_cases hid : s.id ≤ 0
  · have hn : ¬ 0 < s.id := by omega
    simp [markSystems, hid, hn]
  · have hp : 0 < s.id := by omega
    by_cases hsys : s.system ∈ allowed
    · have hv : ¬ vectorindex allowed s.system = -1 := by
        rw [vectorindex_eq_neg_one]; exact fun h => h hsys
      simp [markSystems, hid, hv, hsys]
    · have hv : vectorindex allowed s.system = -1 := by
        rw [vectorindex_eq_neg_one]; exact hsys
      simp [markSystems, hid, hv, hsys, hp]

theorem prepareSat_row (getXvt : SatID → ℚ → Option Xvt) (Tr : ℚ) (s : SatID) (pr : ℚ)
    (h : 0 < s.id) :
    (ephFails getXvt Tr s pr = true →
      prepareSat getXvt Tr s pr = ⟨{ s with id := -(abs s.id) }, [0, 0, 0, 0], 1, 0,
        (prepareSat getXvt Tr s pr).queries⟩) ∧
    (ephFails getXvt Tr s pr = false →
      ∃ PVT1 PVT2, getXvt s (Tr - pr / C_MPS) = some PVT1 ∧
        getXvt s (Tr - pr / C_MPS - (PVT1.clkbias + PVT1.relcorr)) = some PVT2 ∧
        prepareSat getXvt Tr s pr = ⟨s, [PVT2.x.1, PVT2.x.2.1, PVT2.x.2.2,
          pr + C_MPS * (PVT2.clkbias + PVT2.relcorr)], 0, 1,
          [(s, Tr - pr / C_MPS), (s, Tr - pr / C_MPS - (PVT1.clkbias + PVT1.relcorr))]⟩) := by
  have hn : ¬ s.id ≤ 0 := by omega
  cases h1 : getXvt s (Tr - pr / C_MPS) with
  | none => simp [prepareSat, ephFails, hn, h1]
  | some PVT =>
    cases h2 : getXvt s (Tr - pr / C_MPS - (PVT.clkbias + PVT.relcorr)) with
    | none => simp [prepareSat, ephFails, hn, h1, h2]
    | some PVT2 => simp [prepareSat, ephFails, hn, h1, h2]

/-- What the two loops of `PreparePRSolution` leave for one satellite. -/
theorem prepareSat_mark (allowed : List SatelliteSystem) (getXvt : SatID → ℚ → Option Xvt)
    (Tr : ℚ) (s : SatID) (pr : ℚ) (s' : SatID) (row : List ℚ)
    (hs : (prepareSat getXvt Tr
      (if 0 < s.id ∧ s.system ∉ allowed then { s with id := -s.id } else s) pr).sat = s')
    (hr : (prepareSat getXvt Tr
      (if 0 < s.id ∧ s.system ∉ allowed then { s with id := -s.id } else s) pr).row = row) :
    s'.system = s.system ∧ |s'.id| = |s.id| ∧ (s.id ≤ 0 → s' = s) ∧
    (0 < s.id → s.system ∉ allowed → s'.id = -s.id) ∧
    (0 < s'.id ↔ 0 < s.id ∧ s.system ∈ allowed ∧ ephFails getXvt Tr s pr = false) ∧
    (0 < s'.id → s' = s ∧ ∃ PVT1 PVT2, getXvt s (Tr - pr / C_MPS) = some PVT1 ∧
        getXvt s (Tr - pr / C_MPS - (PVT1.clkbias + PVT1.relcorr)) = some PVT2 ∧
        row = [PVT2.x.1, PVT2.x.2.1, PVT2.x.2.2,
          pr + C_MPS * (PVT2.clkbias + PVT2.relcorr)]) ∧
    (s'.id ≤ 0 → row = [0, 0, 0, 0]) := by
  by_cases hid : s.id ≤ 0
  · have hn : ¬ 0 < s.id := by omega
    simp only [hn, false_and, if_false] at hs hr
    rw [prepareSat_marked _ _ _ _ hid] at hs hr
    dsimp only at hs hr
    subst hs; subst hr
    simp [hn]
  · have hp : 0 < s.id := by omega
    by_cases hsys : s.system ∈ allowed
    · have hc : ¬ (0 < s.id ∧ s.system ∉ allowed) := fun h => h.2 hsys
      rw [if_neg hc] at hs hr
      obtain ⟨f1, f2⟩ := prepareSat_row getXvt Tr s pr hp
      cases he : ephFails getXvt Tr s pr
      · obtain ⟨P1, P2, q1, q2, e⟩ := f2 he
        rw [e] at hs hr
        dsimp only at hs hr
        subst hs; subst hr
        simp only [hp, hsys, true_and, forall_true_left, not_true_eq_false, IsEmpty.forall_iff,
          and_self, not_le.mpr hp]
        refine ⟨⟨P1, P2, q1, q2, rfl⟩, ?_⟩
        trivial
      · have e := f1 he
        rw [e] at hs hr
        dsimp only at hs hr
        subst hs; subst hr
        have hab : |s.id| = s.id := abs_of_pos hp
        have hneg : ¬ 0 < -|s.id| := by rw [hab]; omega
        simp [hp, hsys, hneg, hab]
        omega
    · have hc : (0 < s.id ∧ s.system ∉ allowed) := ⟨hp, hsys⟩
      rw [if_pos hc] at hs hr
      have hm : ({ s with id := -s.id } : SatID).id ≤ 0 := by simp; omega
      rw [prepareSat_marked _ _ _ _ hm] at hs hr
      dsimp only at hs hr
      subst hs; subst hr
      have hneg : ¬ 0 < -s.id := by omega
      simp [hp, hsys, hneg]


theorem getD_tail (prs : List ℚ) (i : Nat) : prs.tail.getD i 0 = prs.getD (i + 1) 0 := by
  cases prs <;> simp

/-- Satellite by satellite: what `PreparePRSolution` leaves in the list and in
`SVP` for the satellite at index `i`. -/
theorem prepareLoop_at (allowed : List SatelliteSystem) (getXvt : SatID → ℚ → Option Xvt)
    (Tr : ℚ) (Sats : List SatID) :
    ∀ (prs : List ℚ) (i : Nat) (s s' : SatID) (row : List ℚ), Sats[i]? = some s →
    (prepareLoop getXvt Tr (markSystems allowed Sats).1 prs).Sats[i]? = some s' →
    (prepareLoop getXvt Tr (markSystems allowed Sats).1 prs).SVP[i]? = some row →
    s'.system = s.system ∧ |s'.id| = |s.id| ∧ (s.id ≤ 0 → s' = s) ∧
    (0 < s.id → s.system ∉ allowed → s'.id = -s.id) ∧
    (0 < s'.id ↔ 0 < s.id ∧ s.system ∈ allowed ∧ ephFails getXvt Tr s (prs.getD i 0) = false) ∧
    (0 < s'.id → s' = s ∧ ∃ PVT1 PVT2, getXvt s (Tr - prs.getD i 0 / C_MPS) = some PVT1 ∧
        getXvt s (Tr - prs.getD i 0 / C_MPS - (PVT1.clkbias + PVT1.relcorr)) = some PVT2 ∧
        row = [PVT2.x.1, PVT2.x.2.1, PVT2.x.2.2,
          prs.getD i 0 + C_MPS * (PVT2.clkbias + PVT2.relcorr)]) ∧
    (s'.id ≤ 0 → row = [0, 0, 0, 0]) := by
  induction Sats with
  | nil => intro prs i s s' row h; simp at h
  | cons a rest ih =>
    intro prs i s s' row h1 h2 h3
    rw [markSystems_cons] at h2 h3
    simp only [prepareLoop] at h2 h3
    cases i with
    | zero =>
      simp only [List.getElem?_cons_zero, Option.some.injEq] at h1 h2 h3
      subst h1
      have hd : prs.getD 0 0 = prs.headD 0 := by cases prs <;> simp
      rw [hd]
      exact prepareSat_mark allowed getXvt Tr a (prs.headD 0) s' row h2 h3
    | succ i =>
      simp only [List.getElem?_cons_succ] at h1 h2 h3
      rw [← getD_tail]
      exact ih prs.tail i s s' row h1 h2 h3

theorem prepareLoop_length (getXvt : SatID → ℚ → Option Xvt) (Tr : ℚ) (Sats : List SatID) :
    ∀ prs : List ℚ, (prepareLoop getXvt Tr Sats prs).Sats.length = Sats.length ∧
      (prepareLoop getXvt Tr Sats prs).SVP.length = Sats.length := by
  induction Sats with
  | nil => intro prs; simp [prepareLoop]
  | cons a rest ih => intro prs; simp [prepareLoop, ih]

theorem markSystems_length (allowed : List SatelliteSystem) (Sats : List SatID) :
    (markSystems allowed Sats).1.length = Sats.length := by
  induction Sats with
  | nil => simp [markSystems]
  | cons a rest ih => rw [markSystems_cons]; simp [ih]

theorem prepareLoop_all_marked (getXvt : SatID → ℚ → Option Xvt) (Tr : ℚ) (Sats : List SatID) :
    ∀ prs : List ℚ, (∀ s ∈ Sats, s.id ≤ 0) →
      prepareLoop getXvt Tr Sats prs =
        ⟨Sats, List.replicate Sats.length [0, 0, 0, 0], 0, 0, []⟩ := by
  induction Sats with
  | nil => intro prs _; simp [prepareLoop]
  | cons a rest ih =>
    intro prs h
    have ha : a.id ≤ 0 := h a (List.mem_cons_self _ _)
    have hr := ih prs.tail (fun s hs => h s (List.mem_cons_of_mem _ hs))
    simp only [prepareLoop, prepareSat_marked _ _ _ _ ha, hr]
    simp [List.replicate_succ]

theorem markSystems_all_marked (allowed : List SatelliteSystem) (Sats : List SatID)
    (h : nIncluded allowed Sats = 0) : ∀ s ∈ (markSystems allowed Sats).1, s.id ≤ 0 := by
  induction Sats with
  | nil => intro s hs; simp [markSystems] at hs
  | cons a rest ih =>
    intro s hs
    rw [markSystems_cons] at hs
    have hsplit : included allowed a = false ∧ nIncluded allowed rest = 0 := by
      unfold nIncluded at h ⊢
      rw [List.filter_cons] at h
      cases hi : included allowed a
      · rw [hi] at h; simpa using h
      · rw [hi] at h; simp at h
    rcases List.mem_cons.mp hs with rfl | hs
    · have hinc := hsplit.1
      simp only [included, Bool.and_eq_false_iff, decide_eq_false_iff_not, not_lt] at hinc
      split
      · rename_i hc; simp; omega
      · rename_i hc
        rcases hinc with hinc | hinc
        · exact hinc
        · by_contra hpos
          exact hc ⟨by omega, hinc⟩
    · exact ih hsplit.2 s hs

/-- In every case `PreparePRSolution` leaves what the satellite loop leaves. -/
theorem PreparePRSolution_loop {self : PRSolution} {getXvt : SatID → ℚ → Option Xvt} {Tr : ℚ}
    {Sats : List SatID} {Pseudorange : List ℚ} {p : Prepared}
    (h : PreparePRSolution self getXvt Tr Sats Pseudorange = some p) :
    p.Sats = (prepareLoop getXvt Tr (markSystems self.allowedGNSS Sats).1 Pseudorange).Sats ∧
    p.SVP = (prepareLoop getXvt Tr (markSystems self.allowedGNSS Sats).1 Pseudorange).SVP ∧
    p.queries =
      (prepareLoop getXvt Tr (markSystems self.allowedGNSS Sats).1 Pseudorange).queries := by
  unfold PreparePRSolution at h
  by_cases h1 : self.allowedGNSS.length = 0
  · rw [if_pos h1] at h; cases h
  · rw [if_neg h1] at h
    dsimp only at h
    by_cases h2 : ((markSystems self.allowedGNSS Sats).2 : Int) ≤ 0
    · rw [if_pos h2] at h
      cases h
      have hz : nIncluded self.allowedGNSS Sats = 0 := by
        rw [markSystems_snd] at h2; omega
      rw [prepareLoop_all_marked _ _ _ _ (markSystems_all_marked _ _ hz), markSystems_length]
      exact ⟨rfl, rfl, rfl⟩
    · rw [if_neg h2] at h
      by_cases h3 : ((prepareLoop getXvt Tr (markSystems self.allowedGNSS Sats).1
          Pseudorange).noeph : Int) = ((markSystems self.allowedGNSS Sats).2 : Int)
      · rw [if_pos h3] at h
        cases h
        exact ⟨rfl, rfl, rfl⟩
      · rw [if_neg h3] at h
        cases h
        exact ⟨rfl, rfl, rfl⟩


theorem markSystems_of_absent (allowed : List SatelliteSystem) (Sats : List SatID)
    (h : ∀ s ∈ Sats, s.system ∉ allowed) :
    (markSystems allowed Sats).1 =
      Sats.map (fun s => if 0 < s.id then { s with id := -s.id } else s) ∧
    nIncluded allowed Sats = 0 := by
  induction Sats with
  | nil => simp [markSystems, nIncluded]
  | cons a rest ih =>
    have ha : a.system ∉ allowed := h a (List.mem_cons_self _ _)
    obtain ⟨ih1, ih2⟩ := ih (fun s hs => h s (List.mem_cons_of_mem _ hs))
    have hinc : included allowed a = false := by simp [included, ha]
    constructor
    · rw [markSystems_cons, ih1]
      simp [ha]
    · unfold nIncluded at ih2 ⊢
      rw [List.filter_cons, hinc]
      simpa using ih2

/-- C11. If no satellite of the list belongs to a constellation of the
(non-empty) `allowedGNSS`, `PreparePRSolution` returns 0, makes no ephemeris
query, leaves the list with every positive id negated and nothing else
changed, and leaves `SVP` with one row of four zeros per satellite. -/
theorem C11_all_disallowed (self : PRSolution) (getXvt : SatID → ℚ → Option Xvt) (Tr : ℚ)
    (Sats : List SatID) (Pseudorange : List ℚ) (hdef : self.allowedGNSS ≠ [])
    (h : ∀ s ∈ Sats, s.system ∉ self.allowedGNSS) :
    ∃ p, PreparePRSolution self getXvt Tr Sats Pseudorange = some p ∧ p.ret = 0 ∧
      p.queries = [] ∧
      p.Sats = Sats.map (fun s => if 0 < s.id then { s with id := -s.id } else s) ∧
      p.SVP = List.replicate Sats.length [0, 0, 0, 0] := by
  obtain ⟨h1, h2⟩ := markSystems_of_absent self.allowedGNSS Sats h
  have hl : ¬ self.allowedGNSS.length = 0 := by
    intro e; exact hdef (List.length_eq_zero.mp e)
  have hN : ((markSystems self.allowedGNSS Sats).2 : Int) ≤ 0 := by
    rw [markSystems_snd, h2]; simp
  refine ⟨⟨0, (markSystems self.allowedGNSS Sats).1, List.replicate Sats.length [0, 0, 0, 0],
    []⟩, ?_, rfl, rfl, h1, rfl⟩
  unfold PreparePRSolution
  rw [if_neg hl]
  dsimp only
  rw [if_pos hN]

/-- The satellite, the entry and the row at an index of the lists that
`PreparePRSolution` takes and leaves. -/
theorem PreparePRSolution_at {self : PRSolution} {getXvt : SatID → ℚ → Option Xvt} {Tr : ℚ}
    {Sats : List SatID} {Pseudorange : List ℚ} {p : Prepared}
    (h : PreparePRSolution self getXvt Tr Sats Pseudorange = some p) :
    p.Sats.length = Sats.length ∧ p.SVP.length = Sats.length ∧
    ∀ (i : Nat) (s' : SatID), p.Sats[i]? = some s' →
      ∃ s row, Sats[i]? = some s ∧ p.SVP[i]? = some row ∧
      s'.system = s.system ∧ |s'.id| = |s.id| ∧ (s.id ≤ 0 → s' = s) ∧
      (0 < s.id → s.system ∉ self.allowedGNSS → s'.id = -s.id) ∧
      (0 < s'.id ↔ 0 < s.id ∧ s.system ∈ self.allowedGNSS ∧
        ephFails getXvt Tr s (Pseudorange.getD i 0) = false) ∧
      (0 < s'.id → s' = s ∧ ∃ PVT1 PVT2,
        getXvt s (Tr - Pseudorange.getD i 0 / C_MPS) = some PVT1 ∧
        getXvt s (Tr - Pseudorange.getD i 0 / C_MPS - (PVT1.clkbias + PVT1.relcorr)) =
          some PVT2 ∧
        row = [PVT2.x.1, PVT2.x.2.1, PVT2.x.2.2,
          Pseudorange.getD i 0 + C_MPS * (PVT2.clkbias + PVT2.relcorr)]) ∧
      (s'.id ≤ 0 → row = [0, 0, 0, 0]) := by
  obtain ⟨e1, e2, _⟩ := PreparePRSolution_loop h
  obtain ⟨l1, l2⟩ := prepareLoop_length getXvt Tr (markSystems self.allowedGNSS Sats).1
    Pseudorange
  rw [markSystems_length] at l1 l2
  rw [← e1] at l1
  rw [← e2] at l2
  refine ⟨l1, l2, ?_⟩
  intro i s' hs'
  have hi : i < p.Sats.length := by
    by_contra hc
    rw [List.getElem?_eq_none (by omega)] at hs'
    cases hs'
  have hi1 : i < Sats.length := by omega
  have hi2 : i < p.SVP.length := by omega
  refine ⟨Sats[i], p.SVP[i], List.getElem?_eq_getElem hi1, List.getElem?_eq_getElem hi2, ?_⟩
  apply prepareLoop_at self.allowedGNSS getXvt Tr Sats Pseudorange i Sats[i] s' p.SVP[i]
    (List.getElem?_eq_getElem hi1)
  · rw [← e1]; exact hs'
  · rw [← e2]; exact List.getElem?_eq_getElem hi2


/-- C19. The function `PreparePRSolution` changes nothing in the satellite
list but the sign of ids: the list keeps its length, every satellite keeps its
constellation and the magnitude of its id, and a satellite that is marked on
entry is left as it was. -/
theorem C19_only_sign_changes {self : PRSolution} {getXvt : SatID → ℚ → Option Xvt} {Tr : ℚ}
    {Sats : List SatID} {Pseudorange : List ℚ} {p : Prepared}
    (h : PreparePRSolution self getXvt Tr Sats Pseudorange = some p) :
    p.Sats.length = Sats.length ∧
    ∀ (i : Nat) (s s' : SatID), Sats[i]? = some s → p.Sats[i]? = some s' →
      s'.system = s.system ∧ |s'.id| = |s.id| ∧ (s'.id = s.id ∨ s'.id = -s.id) ∧
      (s.id ≤ 0 → s' = s) := by
  obtain ⟨l1, _, hat⟩ := PreparePRSolution_at h
  refine ⟨l1, ?_⟩
  intro i s s' hs hs'
  obtain ⟨s0, row, q1, _, q3, q4, q5, _⟩ := hat i s' hs'
  rw [hs] at q1
  cases q1
  exact ⟨q3, q4, abs_eq_abs.mp q4, q5⟩

theorem mem_markAt {S : List SatID} {k : Nat} {s : SatID} (h : s ∈ markAt S k)
    (hpos : 0 < s.id) : s ∈ S := by
  unfold markAt at h
  cases hk : S[k]? with
  | none => rw [hk] at h; exact h
  | some a =>
    rw [hk] at h
    rcases List.mem_or_eq_of_mem_set h with h | h
    · exact h
    · subst h
      have := abs_nonneg a.id
      simp at hpos
      omega

theorem mem_markCombo {S : List SatID} {Good Combo : List Nat} {s : SatID}
    (h : s ∈ markCombo S Good Combo) (hpos : 0 < s.id) : s ∈ S := by
  unfold markCombo at h
  generalize List.range Good.length = is at h
  induction is generalizing S with
  | nil => exact h
  | cons i is ih =>
    rw [List.foldl_cons] at h
    have := ih h
    split at this
    · exact mem_markAt this hpos
    · exact this

/-- On a list whose included satellites all have an allowed constellation, the
two counts of `SimplePRSolution` agree and the call returns. -/
theorem SimplePRSolution_returns (self : PRSolution) (ext : External) (T : ℚ)
    (Sats : List SatID) (SVP invMC : Matrix) (niterLimit : Int)
    (convLimit : ℚ) (Resids Slopes : Vector)
    (hall : ∀ s ∈ Sats, 0 < s.id → s.system ∈ self.allowedGNSS)
    (hg1 : Sats.length = SVP.length) (hg2 : invMC.length = 0 ∨ invMC.length = Sats.length)
    (hg3 : self.allowedGNSS ≠ []) :
    (Sats.filter (fun s => decide (0 < s.id))).length = nIncluded self.allowedGNSS Sats ∧
    ∃ r, SimplePRSolution self ext T Sats SVP invMC true niterLimit convLimit Resids Slopes
      = some r := by
  have hcount : (Sats.filter (fun s => decide (0 < s.id))).length =
      nIncluded self.allowedGNSS Sats := by
    unfold nIncluded
    congr 1
    apply List.filter_congr
    intro s hs
    by_cases hp : 0 < s.id
    · simp [included, hp, hall s hs hp]
    · simp [included, hp]
  refine ⟨hcount, ?_⟩
  have g1 : ¬ (Sats.length ≠ SVP.length ∨ (invMC.length > 0 ∧ invMC.length ≠ Sats.length)) := by
    intro hc
    rcases hc with hc | ⟨hc1, hc2⟩
    · exact hc hg1
    · rcases hg2 with e | e
      · omega
      · exact hc2 e
  have g2 : ¬ self.allowedGNSS.length = 0 := fun e => hg3 (List.length_eq_zero.mp e)
  rw [SimplePRSolution_eq self ext T Sats SVP invMC niterLimit convLimit Resids Slopes g1 g2]
  split
  · exact ⟨_, rfl⟩
  · rw [if_neg (by simpa using hcount)]
    cases ext.solve T Sats SVP invMC niterLimit convLimit with
    | singular s => exact ⟨_, rfl⟩
    | ended c f => exact ⟨_, rfl⟩

theorem prepG_returns : prepG = some (prepared prepG) := by
  decide!

/-- Witness of C11: epoch H, where no satellite has an allowed constellation. -/
theorem C11_all_disallowed_witness :
    (exObject [1] 10 0).allowedGNSS ≠ [] ∧
    (∀ s ∈ exSatsH, s.system ∉ (exObject [1] 10 0).allowedGNSS) ∧
    ∃ p, PreparePRSolution (exObject [1] 10 0) getXvtG 0 exSatsH [0, 0, 0] = some p ∧
      p.ret = 0 ∧ p.queries = [] ∧
      p.Sats = exSatsH.map (fun s => if 0 < s.id then { s with id := -s.id } else s) ∧
      p.SVP = List.replicate exSatsH.length [0, 0, 0, 0] :=
  ⟨by decide, by decide,
    C11_all_disallowed (exObject [1] 10 0) getXvtG 0 exSatsH [0, 0, 0] (by decide) (by decide)⟩

/-- Witness of C19: epoch G. -/
theorem C19_only_sign_changes_witness :
    prepG = some (prepared prepG) ∧
    (prepared prepG).Sats.length = exSatsG.length ∧
    ∀ (i : Nat) (s s' : SatID), exSatsG[i]? = some s → (prepared prepG).Sats[i]? = some s' →
      s'.system = s.system ∧ |s'.id| = |s.id| ∧ (s'.id = s.id ∨ s'.id = -s.id) ∧
      (s.id ≤ 0 → s' = s) :=
  ⟨prepG_returns, C19_only_sign_changes prepG_returns⟩

/-- C13 (fails for code -1). In epoch B the solve without the sixth satellite
reaches the iteration limit: `SimplePRSolution` returns -1 and leaves `Valid`
true, since line 510 sets `Valid = true` on every path that leaves the
iteration loop. -/
theorem C13_unconverged_solve_sets_valid :
    solveB = some (solved solveB) ∧ (solved solveB).iret = -1 ∧
    (solved solveB).self.Valid = true := by
  decide!

theorem mem_systemsInUse (allowed : List SatelliteSystem) (Sats : List SatID)
    (g : SatelliteSystem) :
    g ∈ systemsInUse allowed Sats ↔ ∃ s ∈ Sats, included allowed s = true ∧ s.system = g := by
  unfold systemsInUse
  simp only [List.mem_filter, decide_eq_true_eq]
  constructor
  · exact fun h => h.2
  · rintro ⟨s, hs, hinc, rfl⟩
    refine ⟨?_, s, hs, hinc, rfl⟩
    simp only [included, Bool.and_eq_true, decide_eq_true_eq] at hinc
    exact hinc.2

/-- C14 (fails for a list with a repeated entry). With constellation 1 named
twice in `allowedGNSS` and five satellites of constellation 1, the list
`currGNSS` is [1, 1]: a converged solve leaves `dataGNSS = [1, 1]` and has
dimension 5, while one constellation is present among the satellites. -/
theorem C14_counterexample :
    sortSystems selfR.allowedGNSS (countSystems selfR.allowedGNSS (exSats 5)).2 = [1, 1] ∧
    (SimplePRSolution selfR extC 0 (exSats 5) (Matrix.zero 5 4) [] true 10 (1 / 1000) [] []).map
      (fun r => (r.iret, r.self.dataGNSS)) = some (0, [1, 1]) ∧
    (((exSats 5).filter (included selfR.allowedGNSS)).map SatID.system).dedup = [1] := by
  decide!

/-- C14 (amended). For an `allowedGNSS` without repeated entries and every
satellite list, the list `currGNSS` that `SimplePRSolution` solves for holds
each constellation with an included satellite exactly once and nothing else,
in the order of `allowedGNSS`; the dimension is 3 + the number of distinct
constellations among the included satellites, and a call that leaves the
iteration loop (code 0 or -1) stores this list in `dataGNSS`. -/
theorem C14_constellations_solved_for (self : PRSolution) (Sats : List SatID)
    (hnd : self.allowedGNSS.Nodup) :
    (∀ g, (sortSystems self.allowedGNSS (countSystems self.allowedGNSS Sats).2).count g =
      if ∃ s ∈ Sats, 0 < s.id ∧ s.system ∈ self.allowedGNSS ∧ s.system = g then 1 else 0) ∧
    (sortSystems self.allowedGNSS (countSystems self.allowedGNSS Sats).2).Sublist
      self.allowedGNSS ∧
    3 + (sortSystems self.allowedGNSS (countSystems self.allowedGNSS Sats).2).length =
      3 + (((Sats.filter (included self.allowedGNSS)).map SatID.system).dedup).length ∧
    ∀ (ext : External) (T : ℚ) (SVP invMC : Matrix) (pTropModel : Bool) (niterLimit : Int)
      (convLimit : ℚ) (Resids Slopes : Vector) (r : Solved),
      SimplePRSolution self ext T Sats SVP invMC pTropModel niterLimit convLimit Resids Slopes
        = some r → r.iret = 0 ∨ r.iret = -1 →
      r.self.dataGNSS = sortSystems self.allowedGNSS (countSystems self.allowedGNSS Sats).2 := by
  rw [sortSystems_countSystems]
  refine ⟨?_, ?_, ?_, ?_⟩
  · intro g
    have hnd2 : (systemsInUse self.allowedGNSS Sats).Nodup := by
      unfold systemsInUse; exact hnd.filter _
    have hiff : (∃ s ∈ Sats, 0 < s.id ∧ s.system ∈ self.allowedGNSS ∧ s.system = g) ↔
        g ∈ systemsInUse self.allowedGNSS Sats := by
      rw [mem_systemsInUse]
      simp only [included, Bool.and_eq_true, decide_eq_true_eq, and_assoc]
    by_cases hg : g ∈ systemsInUse self.allowedGNSS Sats
    · rw [if_pos (hiff.mpr hg)]
      exact List.count_eq_one_of_mem hnd2 hg
    · rw [if_neg (fun h => hg (hiff.mp h))]
      exact List.count_eq_zero_of_not_mem hg
  · unfold systemsInUse; exact List.filter_sublist _
  · rw [systemsInUse_length_of_nodup _ _ hnd]
  · intro ext T SVP invMC pTropModel niterLimit convLimit Resids Slopes r h hc
    rcases SimplePRSolution_cases h with ⟨_, rfl⟩ | ⟨_, s, _, rfl⟩ | ⟨_, c, f, _, rfl⟩
    · rcases hc with hc | hc <;> simp at hc
    · rcases hc with hc | hc <;> simp at hc
    · rfl

/-- C15. A call of `SimplePRSolution` that returns a code other than -3 has
a dimension `3 + currGNSS.size()` of at least 4 and at least as many included
satellites (`Nsvs`) as the dimension. -/
theorem C15_dimension_bounds {self : PRSolution} {ext : External} {T : ℚ}
    {Sats : List SatID} {SVP invMC : Matrix} {pTropModel : Bool} {niterLimit : Int}
    {convLimit : ℚ} {Resids Slopes : Vector} {r : Solved}
    (h : SimplePRSolution self ext T Sats SVP invMC pTropModel niterLimit convLimit Resids Slopes
      = some r) (h3 : r.iret ≠ -3) :
    4 ≤ 3 + (sortSystems self.allowedGNSS (countSystems self.allowedGNSS Sats).2).length ∧
    3 + (sortSystems self.allowedGNSS (countSystems self.allowedGNSS Sats).2).length ≤
      (countSystems self.allowedGNSS Sats).1 ∧
    (countSystems self.allowedGNSS Sats).1 = nIncluded self.allowedGNSS Sats ∧
    r.self.Nsvs = nIncluded self.allowedGNSS Sats := by
  rw [sortSystems_countSystems, countSystems_fst]
  have key : ¬ nIncluded self.allowedGNSS Sats <
      3 + (systemsInUse self.allowedGNSS Sats).length ∧
      r.self.Nsvs = nIncluded self.allowedGNSS Sats := by
    rcases SimplePRSolution_cases h with ⟨_, rfl⟩ | ⟨hn, s, _, rfl⟩ | ⟨hn, c, f, _, rfl⟩
    · exact absurd rfl h3
    · exact ⟨hn, rfl⟩
    · exact ⟨hn, rfl⟩
  obtain ⟨hn, hN⟩ := key
  have hpos : 0 < (Sats.filter (included self.allowedGNSS)).length := by
    unfold nIncluded at hn; omega
  obtain ⟨s, hs⟩ := List.exists_mem_of_length_pos hpos
  rw [List.mem_filter] at hs
  have hmem : s.system ∈ systemsInUse self.allowedGNSS Sats :=
    (mem_systemsInUse _ _ _).mpr ⟨s, hs.1, hs.2, rfl⟩
  have hlen := List.length_pos_of_mem hmem
  refine ⟨by omega, by omega, rfl, hN⟩

/-- Witness of C14 (amended): epoch D, with the constellations 1, 2, 3 allowed. -/
theorem C14_constellations_solved_for_witness :
    selfD.allowedGNSS.Nodup ∧
    sortSystems selfD.allowedGNSS (countSystems selfD.allowedGNSS exSatsD).2 = [1, 2, 3] ∧
    (sortSystems selfD.allowedGNSS (countSystems selfD.allowedGNSS exSatsD).2).Sublist
      selfD.allowedGNSS ∧
    3 + (sortSystems selfD.allowedGNSS (countSystems selfD.allowedGNSS exSatsD).2).length =
      3 + (((exSatsD.filter (included selfD.allowedGNSS)).map SatID.system).dedup).length :=
  ⟨by decide, by decide,
    (C14_constellations_solved_for selfD exSatsD (by decide)).2.1,
    (C14_constellations_solved_for selfD exSatsD (by decide)).2.2.1⟩

theorem solveC_returns : solveC = some (solved solveC) := by
  decide!

/-- Witness of C15: the solve of epoch C with all five satellites, which
returns 0. -/
theorem C15_dimension_bounds_witness :
    solveC = some (solved solveC) ∧ (solved solveC).iret ≠ -3 ∧
    4 ≤ 3 + (sortSystems selfC.allowedGNSS (countSystems selfC.allowedGNSS (exSats 5)).2).length ∧
    3 + (sortSystems selfC.allowedGNSS (countSystems selfC.allowedGNSS (exSats 5)).2).length ≤
      (countSystems selfC.allowedGNSS (exSats 5)).1 ∧
    (countSystems selfC.allowedGNSS (exSats 5)).1 = nIncluded selfC.allowedGNSS (exSats 5) ∧
    (solved solveC).self.Nsvs = nIncluded selfC.allowedGNSS (exSats 5) :=
  ⟨solveC_returns, by decide!, C15_dimension_bounds solveC_returns (by decide!)⟩

/-! ## Expansion, slopes and the rejection bound -/

/-- C16 (fails). In epoch F the winning solve is the one without the only
satellite of constellation 2. The run returns 0 with `dataGNSS = [1]` and a
solution, covariance and partials of dimension 4, although the satellites with
a valid geometry belong to the constellations 1 and 2 (dimension 5): line 753
assigns `dataGNSS = BestGNSS` before line 767 compares their sizes, so the
expansion never runs. It would have given (1, 2, 3, 11, 0). -/
theorem C16_winner_not_expanded :
    epochF = some (returned epochF) ∧ (returned epochF).iret = 0 ∧
    (returned epochF).Sats.map (fun s => s.id) = [-1, 2, 3, 4, 5, 6, 7] ∧
    systemsInUse selfF.allowedGNSS (prepared prepF).Sats = [1, 2] ∧
    (returned epochF).self.dataGNSS = [1] ∧
    (returned epochF).self.Solution = [1, 2, 3, 11] ∧
    (returned epochF).self.Covariance = List.replicate 4 (List.replicate 4 1) ∧
    (returned epochF).self.Partials = List.replicate 6 (List.replicate 4 1) ∧
    expandSolution 5 (expandIndexes [1, 2] [1]) [1, 2, 3, 11] = [1, 2, 3, 11, 0] := by
  decide!

/-- Once the projection value at the current index is within 1e-8 of 1, no
later pass of the slope loop changes the state: the index is not advanced. -/
theorem slopeLoop_stuck (SQRT : ℚ → ℚ) (G PG : Matrix) (n dim : Nat) (Sats : List SatID)
    (st : Nat × Vector × ℚ) (h : |1 - PG.entry st.1 st.1| < 1 / 100000000) :
    Sats.foldl (slopeStep SQRT G PG n dim) st = st := by
  induction Sats with
  | nil => rfl
  | cons s rest ih =>
    rw [List.foldl_cons]
    have hs : slopeStep SQRT G PG n dim st s = st := by
      unfold slopeStep
      dsimp only
      by_cases hid : s.id ≤ 0
      · rw [if_pos hid]
      · rw [if_neg hid, if_pos h]
    rw [hs, ih]

/-- C17 (fails). In epoch S the first satellite is the only one of its
constellation, so its projection value is 1; the matrices are those of the
unweighted problem (`G * P` is the identity). Whatever the square root, the
slope loop leaves every slope and `MaxSlope` at 0, while the projection value
of the second satellite is 3/4 and its slope by the stated formula is the
root of 93/50. -/
theorem C17_slopes_after_unit_projection :
    Matrix.mul exG exP =
      [[1, 0, 0, 0, 0], [0, 1, 0, 0, 0], [0, 0, 1, 0, 0], [0, 0, 0, 1, 0], [0, 0, 0, 0, 1]] ∧
    Matrix.mul (Matrix.mul (Matrix.transpose exP) exP) exCov =
      [[1, 0, 0, 0, 0], [0, 1, 0, 0, 0], [0, 0, 1, 0, 0], [0, 0, 0, 1, 0], [0, 0, 0, 0, 1]] ∧
    nIncluded [1, 2] exSatsS = 6 ∧ 3 + (systemsInUse [1, 2] exSatsS).length = 5 ∧
    exPG.entry 0 0 = 1 ∧ exPG.entry 1 1 = 3 / 4 ∧
    ∀ SQRT : ℚ → ℚ,
      computeSlopes SQRT 0 exSatsS exG exPG 6 5 6 = ([0, 0, 0, 0, 0, 0], 0) ∧
      slopeOf SQRT exG exPG 6 5 1 = SQRT (93 / 50) := by
  refine ⟨by decide!, by decide!, by decide!, by decide!, by decide!, by decide!, ?_⟩
  intro SQRT
  constructor
  · unfold computeSlopes
    dsimp only
    rw [if_pos rfl, slopeLoop_stuck]
    · rfl
    · decide!
  · unfold slopeOf
    rw [if_neg (by decide!)]
    congr 1
    decide!

/-- C18 (fails). Epoch B with the bounds 0 and 1 on the rejections, all else
equal: with bound 0 the run returns 1, a usable solution with RMS residual 30;
with bound 1 the search goes on to the exclusions of one satellite, the last
of which does not converge, and the run returns -1 without a solution. -/
theorem C18_larger_bound_loses_solution :
    selfB = { selfB0 with NSatsReject := 1 } ∧
    epochB0 = some (returned epochB0) ∧ (returned epochB0).iret = 1 ∧
    (returned epochB0).self.Valid = true ∧ (returned epochB0).self.RMSResidual = 30 ∧
    epochB = some (returned epochB) ∧ (returned epochB).iret = -1 ∧
    (returned epochB).self.Valid = false := by
  decide!

/-! ## PreparePRSolution: one satellite at a time -/

theorem SimplePRSolution_Nsvs {self : PRSolution} {ext : External} {T : ℚ}
    {Sats : List SatID} {SVP invMC : Matrix} {pTropModel : Bool} {niterLimit : Int}
    {convLimit : ℚ} {Resids Slopes : Vector} {r : Solved}
    (h : SimplePRSolution self ext T Sats SVP invMC pTropModel niterLimit convLimit Resids Slopes
      = some r) (h3 : r.iret ≠ -3) : r.self.Nsvs = nIncluded self.allowedGNSS Sats := by
  rcases SimplePRSolution_cases h with ⟨_, rfl⟩ | ⟨hn, s, _, rfl⟩ | ⟨hn, c, f, _, rfl⟩
  · exact absurd rfl h3
  · rfl
  · rfl


theorem passAt_of_solution {pass : Int → Vector → Except Singular Pass} {start sol : Vector}
    {k : Nat} {p : Pass} (hsol : solutionAfter pass start k = some sol)
    (hp : pass (k : Int) sol = Except.ok p) :
    passAt pass start k = some p ∧ solutionAfter pass start (k + 1) = some p.Solution := by
  constructor
  · simp only [passAt, hsol, hp]
  · simp only [solutionAfter, hsol, hp]

/-- The iteration loop entered before pass `k` with enough passes left: it is
left, and when it is left by `break`, the last pass is the first one that meets
one of the two tests. -/
theorem iterationLoop_run (pass : Int → Vector → Except Singular Pass) (L : Int)
    (convLimit : ℚ) (start : Vector) :
    ∀ (fuel k : Nat) (sol : Vector), solutionAfter pass start k = some sol →
      L ≤ (k : Int) + fuel → 1 ≤ fuel →
      ∃ e, iterationLoop pass L convLimit fuel (k : Int) sol = some e ∧
        (∀ s, e = LoopEnd.singular s →
          ∃ (k' : Nat) (sol' : Vector), k ≤ k' ∧ solutionAfter pass start k' = some sol' ∧
            pass (k' : Int) sol' = Except.error s ∧ ((k' : Int) + 1 ≤ L ∨ k' = k) ∧
            ∀ j, k ≤ j → j < k' → ∃ pj, passAt pass start j = some pj ∧
              ¬ ((j : Int) + 1 > 1 ∧ pj.converge < convLimit) ∧
              ¬ ((j : Int) + 1 ≥ L ∨ pj.converge > 10000000000)) ∧
        ∀ iret n p, e = LoopEnd.ended iret n p →
          ∃ k' : Nat, k ≤ k' ∧ n = (k' : Int) + 1 ∧ passAt pass start k' = some p ∧
            ((iret = 0 ∧ (n > 1 ∧ p.converge < convLimit)) ∨
             (iret = -1 ∧ ¬ (n > 1 ∧ p.converge < convLimit) ∧
                (n ≥ L ∨ p.converge > 10000000000))) ∧
            (n ≤ L ∨ k' = k) ∧
            ∀ j, k ≤ j → j < k' → ∃ pj, passAt pass start j = some pj ∧
              ¬ ((j : Int) + 1 > 1 ∧ pj.converge < convLimit) ∧
              ¬ ((j : Int) + 1 ≥ L ∨ pj.converge > 10000000000) := by
  intro fuel
  induction fuel with
  | zero => intro k sol _ _ h; omega
  | succ fuel ih =>
    intro k sol hsol hL _
    unfold iterationLoop
    cases hp : pass (k : Int) sol with
    | error s =>
      refine ⟨LoopEnd.singular s, rfl, ?_, ?_⟩
      · intro s' he
        cases he
        exact ⟨k, sol, le_refl _, hsol, hp, Or.inr rfl, fun j h1 h2 => by omega⟩
      · intro iret n p he
        cases he
    | ok p =>
      obtain ⟨hpa, hsol'⟩ := passAt_of_solution hsol hp
      dsimp only
      by_cases h1 : (k : Int) + 1 > 1 ∧ p.converge < convLimit
      · rw [if_pos h1]
        refine ⟨_, rfl, (fun s he => by cases he), ?_⟩
        intro iret n q he
        cases he
        refine ⟨k, le_refl _, rfl, hpa, Or.inl ⟨rfl, h1⟩, Or.inr rfl, ?_⟩
        intro j h1 h2; omega
      · rw [if_neg h1]
        by_cases h2 : (k : Int) + 1 ≥ L ∨ p.converge > 10000000000
        · rw [if_pos h2]
          refine ⟨_, rfl, (fun s he => by cases he), ?_⟩
          intro iret n q he
          cases he
          refine ⟨k, le_refl _, rfl, hpa, Or.inr ⟨rfl, h1, h2⟩, Or.inr rfl, ?_⟩
          intro j h1 h2; omega
        · rw [if_neg h2]
          have hlt : (k : Int) + 1 < L := by
            by_contra hc
            exact h2 (Or.inl (by omega))
          have hfuel : 1 ≤ fuel := by push_cast at hL; omega
          have hL' : L ≤ ((k + 1 : Nat) : Int) + fuel := by push_cast at hL ⊢; omega
          obtain ⟨e, he, hsing, hspec⟩ := ih (k + 1) p.Solution hsol' hL' hfuel
          have hcast : ((k + 1 : Nat) : Int) = (k : Int) + 1 := by push_cast; rfl
          rw [hcast] at he
          refine ⟨e, he, ?_, ?_⟩
          · intro s hs
            obtain ⟨k', sol', hk', hsk, hpk, hle, hbefore⟩ := hsing s hs
            refine ⟨k', sol', by omega, hsk, hpk, ?_, ?_⟩
            · left
              rcases hle with hle | hle
              · exact hle
              · rw [hle]; push_cast; omega
            · intro j hj1 hj2
              by_cases hjk : j = k
              · subst hjk
                exact ⟨p, hpa, h1, h2⟩
              · exact hbefore j (by omega) hj2
          · intro iret n q hq
            obtain ⟨k', hk', hn, hpk, hcode, hle, hbefore⟩ := hspec iret n q hq
            refine ⟨k', by omega, hn, hpk, hcode, ?_, ?_⟩
            · left
              rcases hle with hle | hle
              · exact hle
              · rw [hn, hle]; push_cast; omega
            · intro j hj1 hj2
              by_cases hjk : j = k
              · subst hjk
                exact ⟨p, hpa, h1, h2⟩
              · exact hbefore j (by omega) hj2


theorem niter_limit_eq (niterLimit : Int) :
    (if niterLimit < 2 then 2 else niterLimit) = max 2 niterLimit := by
  split
  · rw [max_eq_left]; omega
  · rw [max_eq_right]; omega

/-- The loop as `SimplePRSolution` runs it: from pass 0, with the limit
`max(2, niterLimit)`. -/
theorem iterationLoop_from_start (pass : Int → Vector → Except Singular Pass)
    (niterLimit : Int) (convLimit : ℚ) (start : Vector) :
    ∃ e, iterationLoop pass (if niterLimit < 2 then 2 else niterLimit) convLimit
        (if niterLimit < 2 then 2 else niterLimit).toNat 0 start = some e ∧
      (∀ s, e = LoopEnd.singular s →
        ∃ (k : Nat) (sol : Vector), (k : Int) + 1 ≤ max 2 niterLimit ∧
          solutionAfter pass start k = some sol ∧ pass (k : Int) sol = Except.error s ∧
          ∀ j : Nat, j < k → ∃ pj, passAt pass start j = some pj ∧
            ¬ (2 ≤ (j : Int) + 1 ∧ pj.converge < convLimit) ∧
            ¬ (max 2 niterLimit ≤ (j : Int) + 1 ∨ pj.converge > 10000000000)) ∧
      ∀ iret n p, e = LoopEnd.ended iret n p →
        1 ≤ n ∧ n ≤ max 2 niterLimit ∧ passAt pass start (n.toNat - 1) = some p ∧
        (iret = 0 ∨ iret = -1) ∧
        (iret = 0 ↔ (2 ≤ n ∧ p.converge < convLimit)) ∧
        (iret = -1 ↔ (¬ (2 ≤ n ∧ p.converge < convLimit) ∧
          (max 2 niterLimit ≤ n ∨ p.converge > 10000000000))) ∧
        ∀ j : Nat, j < n.toNat - 1 → ∃ pj, passAt pass start j = some pj ∧
          ¬ (2 ≤ (j : Int) + 1 ∧ pj.converge < convLimit) ∧
          ¬ (max 2 niterLimit ≤ (j : Int) + 1 ∨ pj.converge > 10000000000) := by
  rw [niter_limit_eq]
  have hL : (2 : Int) ≤ max 2 niterLimit := le_max_left _ _
  obtain ⟨e, he, hsing, hspec⟩ := iterationLoop_run pass (max 2 niterLimit) convLimit start
    (max 2 niterLimit).toNat 0 start rfl (by omega) (by omega)
  refine ⟨e, he, ?_, ?_⟩
  · intro s hs
    obtain ⟨k, sol, _, hsk, hpk, hle, hbefore⟩ := hsing s hs
    refine ⟨k, sol, ?_, hsk, hpk, ?_⟩
    · rcases hle with h | h
      · exact h
      · rw [h]; push_cast; omega
    · intro j hj
      obtain ⟨pj, hpj, ha, hb⟩ := hbefore j (Nat.zero_le _) hj
      refine ⟨pj, hpj, fun hc => ha ⟨by omega, hc.2⟩, ?_⟩
      intro hc
      apply hb
      rcases hc with hc | hc
      · exact Or.inl hc
      · exact Or.inr hc
  intro iret n p hq
  obtain ⟨k', _, hn, hpk, hcode, hle, hbefore⟩ := hspec iret n p hq
  have hk : n.toNat - 1 = k' := by omega
  rw [hk]
  have hnle : n ≤ max 2 niterLimit := by
    rcases hle with h | h
    · exact h
    · omega
  refine ⟨by omega, hnle, hpk, ?_, ?_, ?_, ?_⟩
  · rcases hcode with h | h
    · exact Or.inl h.1
    · exact Or.inr h.1
  · constructor
    · intro h0
      rcases hcode with h | h
      · exact ⟨by omega, h.2.2⟩
      · omega
    · intro hc
      rcases hcode with h | h
      · exact h.1
      · exact absurd ⟨by omega, hc.2⟩ h.2.1
  · constructor
    · intro h1
      rcases hcode with h | h
      · omega
      · refine ⟨fun hc => h.2.1 ⟨by omega, hc.2⟩, ?_⟩
        rcases h.2.2 with h3 | h3
        · exact Or.inl h3
        · exact Or.inr h3
    · intro hc
      rcases hcode with h | h
      · exact absurd ⟨by omega, h.2.2⟩ hc.1
      · exact h.1
  · intro j hj
    obtain ⟨pj, hpj, ha, hb⟩ := hbefore j (Nat.zero_le _) hj
    refine ⟨pj, hpj, fun hc => ha ⟨by omega, hc.2⟩, ?_⟩
    intro hc
    apply hb
    rcases hc with hc | hc
    · exact Or.inl hc
    · exact Or.inr hc

theorem satLoopCount_eq (Sats : List SatID) :
    satLoopCount Sats = (Sats.filter (fun s => decide (0 < s.id))).length := by
  unfold satLoopCount
  have key : ∀ (l : List SatID) (acc : Nat),
      l.foldl (fun n s => if s.id ≤ 0 then n else n + 1) acc =
        acc + (l.filter (fun s => decide (0 < s.id))).length := by
    intro l
    induction l with
    | nil => intro acc; simp
    | cons a rest ih =>
      intro acc
      rw [List.foldl_cons, ih, List.filter_cons]
      by_cases ha : a.id ≤ 0
      · have hn : ¬ 0 < a.id := by omega
        simp [ha, hn]
      · have hp : 0 < a.id := by omega
        simp [ha, hp]
        omega
  rw [key]; simp

/-- A call that gets past the count of satellites has passed the check of
line 401: the counter of the satellite loop is `Nsvs`. -/
theorem SimplePRSolution_count {self : PRSolution} {ext : External} {T : ℚ}
    {Sats : List SatID} {SVP invMC : Matrix} {pTropModel : Bool} {niterLimit : Int}
    {convLimit : ℚ} {Resids Slopes : Vector} {r : Solved}
    (h : SimplePRSolution self ext T Sats SVP invMC pTropModel niterLimit convLimit Resids Slopes
      = some r) (h3 : r.iret ≠ -3) :
    satLoopCount Sats = nIncluded self.allowedGNSS Sats ∧
    r.self.Nsvs = nIncluded self.allowedGNSS Sats := by
  obtain ⟨hp, hg1, hg2⟩ := SimplePRSolution_guards h
  have hN := (SimplePRSolution_Nsvs h h3)
  subst hp
  rw [SimplePRSolution_eq self ext T Sats SVP invMC niterLimit convLimit Resids Slopes hg1 hg2] at h
  by_cases hlt : nIncluded self.allowedGNSS Sats < 3 + (systemsInUse self.allowedGNSS Sats).length
  · rw [if_pos hlt] at h
    cases h
    exact absurd rfl h3
  · rw [if_neg hlt] at h
    by_cases hc : (Sats.filter (fun s => decide (0 < s.id))).length ≠
        nIncluded self.allowedGNSS Sats
    · rw [if_pos hc] at h; cases h
    · rw [satLoopCount_eq]
      exact ⟨not_not.mp hc, hN⟩


/-- The numbers of a solve that ends its iteration loop are those of the last
pass of the loop. -/
theorem solveBody_ended {K : Kernel} {allowedGNSS : List SatelliteSystem} {T : ℚ}
    {Sats : List SatID} {SVP invMC : Matrix} {niterLimit : Int} {convLimit : ℚ} {c : Bool}
    {f : Fit}
    (h : solveBody K allowedGNSS T Sats SVP invMC niterLimit convLimit = Numeric.ended c f) :
    ∃ iret n p, iterationLoop (K.pass T Sats SVP invMC)
        (if niterLimit < 2 then 2 else niterLimit) convLimit
        (if niterLimit < 2 then 2 else niterLimit).toNat 0 (K.localAPSol Sats) =
          some (LoopEnd.ended iret n p) ∧
      c = decide (iret = 0) ∧ f.NIterations = n ∧ f.Convergence = p.converge ∧
      f.Solution = p.Solution ∧ f.TropFlag = p.TropFlag ∧
      f.Slopes = (computeSlopes K.SQRT iret Sats p.G p.PG (satLoopCount Sats)
        (3 + (sortSystems allowedGNSS (countSystems allowedGNSS Sats).2).length)
        (countSystems allowedGNSS Sats).1).1 ∧
      f.MaxSlope = (computeSlopes K.SQRT iret Sats p.G p.PG (satLoopCount Sats)
        (3 + (sortSystems allowedGNSS (countSystems allowedGNSS Sats).2).length)
        (countSystems allowedGNSS Sats).1).2 := by
  unfold solveBody at h
  dsimp only at h
  cases hl : iterationLoop (K.pass T Sats SVP invMC)
      (if niterLimit < 2 then 2 else niterLimit) convLimit
      (if niterLimit < 2 then 2 else niterLimit).toNat 0 (K.localAPSol Sats) with
  | none => rw [hl] at h; cases h
  | some e =>
    rw [hl] at h
    cases e with
    | singular s => cases h
    | ended iret n p =>
      dsimp only at h
      injection h with h1 h2
      subst h1; subst h2
      exact ⟨iret, n, p, rfl, rfl, rfl, rfl, rfl, rfl, rfl, rfl⟩

/-- A call of `SimplePRSolution` with the solver body of a kernel that returns
0 or -1: the iteration loop was left by `break` with that code, and the call
holds the number of passes, the norm of the last correction, and the slopes
computed from the last pass with the counter of the satellite loop. -/
theorem SimplePRSolution_loop {K : Kernel} {self : PRSolution} {ext : External} {T : ℚ}
    {Sats : List SatID} {SVP invMC : Matrix} {pTropModel : Bool} {niterLimit : Int}
    {convLimit : ℚ} {Resids Slopes : Vector} {r : Solved}
    (hext : ext.solve = solveBody K self.allowedGNSS)
    (h : SimplePRSolution self ext T Sats SVP invMC pTropModel niterLimit convLimit Resids Slopes
      = some r) (hc : r.iret = 0 ∨ r.iret = -1) :
    ∃ p, iterationLoop (K.pass T Sats SVP invMC) (if niterLimit < 2 then 2 else niterLimit)
        convLimit (if niterLimit < 2 then 2 else niterLimit).toNat 0 (K.localAPSol Sats)
          = some (LoopEnd.ended r.iret r.self.NIterations p) ∧
      r.self.Convergence = p.converge ∧
      r.Slopes = (computeSlopes K.SQRT r.iret Sats p.G p.PG (satLoopCount Sats)
        (3 + (sortSystems self.allowedGNSS (countSystems self.allowedGNSS Sats).2).length)
        (countSystems self.allowedGNSS Sats).1).1 ∧
      r.self.MaxSlope = (computeSlopes K.SQRT r.iret Sats p.G p.PG (satLoopCount Sats)
        (3 + (sortSystems self.allowedGNSS (countSystems self.allowedGNSS Sats).2).length)
        (countSystems self.allowedGNSS Sats).1).2 := by
  rcases SimplePRSolution_cases h with ⟨_, rfl⟩ | ⟨_, s, _, rfl⟩ | ⟨_, c, f, hs, rfl⟩
  · rcases hc with hc | hc <;> simp at hc
  · rcases hc with hc | hc <;> simp at hc
  · rw [hext] at hs
    obtain ⟨iret, n, p, hl, hcd, hn, hcv, _, _, hsl, hms⟩ := solveBody_ended hs
    obtain ⟨e, he, _, hspec⟩ := iterationLoop_from_start (K.pass T Sats SVP invMC) niterLimit
      convLimit (K.localAPSol Sats)
    rw [hl] at he
    cases he
    obtain ⟨_, _, _, hcode, _⟩ := hspec iret n p rfl
    have hiret : (if c = true then (0 : Int) else -1) = iret := by
      rcases hcode with h0 | h1
      · subst h0; subst hcd; simp
      · subst h1; subst hcd; simp
    refine ⟨p, ?_, hcv, ?_, ?_⟩
    · rw [hl]
      simp only [writeFit, hiret, hn]
    · simp only [hiret]; exact hsl
    · simp only [writeFit, hiret]; exact hms

/-- A solve that ends with a singular matrix is one whose iteration loop was
left by the `return -2` of a pass. -/
theorem solveBody_singular {K : Kernel} {allowedGNSS : List SatelliteSystem} {T : ℚ}
    {Sats : List SatID} {SVP invMC : Matrix} {niterLimit : Int} {convLimit : ℚ} {s : Singular}
    (h : solveBody K allowedGNSS T Sats SVP invMC niterLimit convLimit = Numeric.singular s) :
    iterationLoop (K.pass T Sats SVP invMC) (if niterLimit < 2 then 2 else niterLimit)
      convLimit (if niterLimit < 2 then 2 else niterLimit).toNat 0 (K.localAPSol Sats) =
        some (LoopEnd.singular s) := by
  obtain ⟨e, he, _, _⟩ := iterationLoop_from_start (K.pass T Sats SVP invMC) niterLimit
    convLimit (K.localAPSol Sats)
  unfold solveBody at h
  dsimp only at h
  rw [he] at h
  rw [he]
  cases e with
  | singular s' =>
    dsimp only at h
    injection h with h1
    rw [h1]
  | ended iret n p =>
    dsimp only at h
    cases h

/-- A call of `SimplePRSolution` with the solver body of a kernel that gets
past the count of satellites returns what its iteration loop ends with: -2
when a pass fails, and otherwise the code of the `break`, with the number of
passes and the norm of the last correction. -/
theorem SimplePRSolution_loop_end {K : Kernel} {self : PRSolution} {ext : External} {T : ℚ}
    {Sats : List SatID} {SVP invMC : Matrix} {pTropModel : Bool} {niterLimit : Int}
    {convLimit : ℚ} {Resids Slopes : Vector} {r : Solved}
    (hext : ext.solve = solveBody K self.allowedGNSS)
    (h : SimplePRSolution self ext T Sats SVP invMC pTropModel niterLimit convLimit Resids Slopes
      = some r) (h3 : r.iret ≠ -3) :
    (∃ s, iterationLoop (K.pass T Sats SVP invMC) (if niterLimit < 2 then 2 else niterLimit)
        convLimit (if niterLimit < 2 then 2 else niterLimit).toNat 0 (K.localAPSol Sats)
          = some (LoopEnd.singular s) ∧ r.iret = -2) ∨
    (∃ p, iterationLoop (K.pass T Sats SVP invMC) (if niterLimit < 2 then 2 else niterLimit)
        convLimit (if niterLimit < 2 then 2 else niterLimit).toNat 0 (K.localAPSol Sats)
          = some (LoopEnd.ended r.iret r.self.NIterations p) ∧
      r.self.Convergence = p.converge ∧ (r.iret = 0 ∨ r.iret = -1)) := by
  have hcases := SimplePRSolution_cases h
  rcases hcases with ⟨_, hr⟩ | ⟨_, s, hs, hr⟩ | ⟨_, c, f, hs, hr⟩
  · rw [hr] at h3; exact absurd rfl h3
  · left
    rw [hext] at hs
    exact ⟨s, solveBody_singular hs, by rw [hr]⟩
  · right
    have hc : r.iret = 0 ∨ r.iret = -1 := by
      rw [hr]; cases c <;> simp
    obtain ⟨p, hl, hcv, _⟩ := SimplePRSolution_loop hext h hc
    exact ⟨p, hl, hcv, hc⟩

/-- C23. The iteration loop of `SimplePRSolution` is left after at most
`max(2, niterLimit)` passes, whatever the passes compute: by `return -2` in
the first pass whose inversion throws, or else by `break`. When it is left by
`break` after `n` passes, the code is 0 exactly when `n >= 2` and the norm of
the last correction is below `convLimit`, and -1 exactly when that is not so
(then `n >= max(2, niterLimit)` or the norm is above 1e10); no earlier pass met
one of the two tests. A call of `SimplePRSolution` that gets past the count of
satellites returns -2 in the first case and the code of the `break` in the
second, with `n` in `NIterations` and the norm of the last correction in
`Convergence`. -/
theorem C23_iteration_loop (K : Kernel) (T : ℚ) (Sats : List SatID) (SVP invMC : Matrix)
    (niterLimit : Int) (convLimit : ℚ) :
    (∃ e, iterationLoop (K.pass T Sats SVP invMC) (if niterLimit < 2 then 2 else niterLimit)
        convLimit (if niterLimit < 2 then 2 else niterLimit).toNat 0 (K.localAPSol Sats)
          = some e ∧
      (∀ s, e = LoopEnd.singular s →
        ∃ (k : Nat) (sol : Vector), (k : Int) + 1 ≤ max 2 niterLimit ∧
          solutionAfter (K.pass T Sats SVP invMC) (K.localAPSol Sats) k = some sol ∧
          K.pass T Sats SVP invMC (k : Int) sol = Except.error s ∧
          ∀ j : Nat, j < k →
            ∃ pj, passAt (K.pass T Sats SVP invMC) (K.localAPSol Sats) j = some pj ∧
              ¬ (2 ≤ (j : Int) + 1 ∧ pj.converge < convLimit) ∧
              ¬ (max 2 niterLimit ≤ (j : Int) + 1 ∨ pj.converge > 10000000000)) ∧
      ∀ iret n p, e = LoopEnd.ended iret n p →
        1 ≤ n ∧ n ≤ max 2 niterLimit ∧
        passAt (K.pass T Sats SVP invMC) (K.localAPSol Sats) (n.toNat - 1) = some p ∧
        (iret = 0 ∨ iret = -1) ∧
        (iret = 0 ↔ (2 ≤ n ∧ p.converge < convLimit)) ∧
        (iret = -1 ↔ (¬ (2 ≤ n ∧ p.converge < convLimit) ∧
          (max 2 niterLimit ≤ n ∨ p.converge > 10000000000))) ∧
        ∀ j : Nat, j < n.toNat - 1 →
          ∃ pj, passAt (K.pass T Sats SVP invMC) (K.localAPSol Sats) j = some pj ∧
            ¬ (2 ≤ (j : Int) + 1 ∧ pj.converge < convLimit) ∧
            ¬ (max 2 niterLimit ≤ (j : Int) + 1 ∨ pj.converge > 10000000000)) ∧
    ∀ (self : PRSolution) (ext : External) (pTropModel : Bool) (Resids Slopes : Vector)
      (r : Solved), ext.solve = solveBody K self.allowedGNSS →
      SimplePRSolution self ext T Sats SVP invMC pTropModel niterLimit convLimit Resids Slopes
        = some r → r.iret ≠ -3 →
      (∃ s, iterationLoop (K.pass T Sats SVP invMC) (if niterLimit < 2 then 2 else niterLimit)
          convLimit (if niterLimit < 2 then 2 else niterLimit).toNat 0 (K.localAPSol Sats)
            = some (LoopEnd.singular s) ∧ r.iret = -2) ∨
      (∃ p, iterationLoop (K.pass T Sats SVP invMC) (if niterLimit < 2 then 2 else niterLimit)
          convLimit (if niterLimit < 2 then 2 else niterLimit).toNat 0 (K.localAPSol Sats)
            = some (LoopEnd.ended r.iret r.self.NIterations p) ∧
        r.self.Convergence = p.converge ∧ (r.iret = 0 ∨ r.iret = -1)) := by
  refine ⟨iterationLoop_from_start _ _ _ _, ?_⟩
  intro self ext pTropModel Resids Slopes r hext h h3
  exact SimplePRSolution_loop_end hext h h3

/-- C24 (fails for code -1). A solve whose first correction has a norm above
1e10 leaves the loop in its first pass by the test of line 465: the call
returns -1 with `NIterations = 1`. -/
theorem C24_counterexample :
    solveDiverge = some (solved solveDiverge) ∧ (solved solveDiverge).iret = -1 ∧
    (solved solveDiverge).self.NIterations = 1 ∧
    (solved solveDiverge).self.Convergence = 20000000000 := by
  decide!

/-- The loop is left in its first pass when the norm of the first correction
is above 1e10. -/
theorem iterationLoop_first_pass (pass : Int → Vector → Except Singular Pass)
    (niterLimit : Int) (convLimit : ℚ) (start : Vector) (p1 : Pass)
    (hp : pass 0 start = Except.ok p1) (hbig : p1.converge > 10000000000) :
    iterationLoop pass (if niterLimit < 2 then 2 else niterLimit) convLimit
      (if niterLimit < 2 then 2 else niterLimit).toNat 0 start =
        some (LoopEnd.ended (-1) 1 p1) := by
  have hfuel : ∃ m, (if niterLimit < 2 then 2 else niterLimit).toNat = m + 1 := by
    refine ⟨(if niterLimit < 2 then 2 else niterLimit).toNat - 1, ?_⟩
    split <;> omega
  obtain ⟨m, hm⟩ := hfuel
  rw [hm]
  unfold iterationLoop
  rw [hp]
  dsimp only
  rw [if_neg (by rintro ⟨h1, _⟩; omega), if_pos (Or.inr hbig)]
  rfl

/-- C24 (amended). A call of `SimplePRSolution` that returns 0 has made at
least two passes of the iteration loop; one that returns -1 has made at least
two passes unless the norm of its first correction is above 1e10, in which
case it has made one; and a call that comes to the loop and whose first pass
gives a correction with a norm above 1e10 returns -1 after that one pass. -/
theorem C24_at_least_two_passes (K : Kernel) (self : PRSolution) (ext : External) (T : ℚ)
    (Sats : List SatID) (SVP invMC : Matrix) (pTropModel : Bool) (niterLimit : Int)
    (convLimit : ℚ) (Resids Slopes : Vector) (r : Solved)
    (hext : ext.solve = solveBody K self.allowedGNSS)
    (h : SimplePRSolution self ext T Sats SVP invMC pTropModel niterLimit convLimit Resids Slopes
      = some r) :
    (r.iret = 0 → 2 ≤ r.self.NIterations) ∧
    (r.iret = -1 → 2 ≤ r.self.NIterations ∨
      (r.self.NIterations = 1 ∧ r.self.Convergence > 10000000000 ∧
        ∃ p1, K.pass T Sats SVP invMC 0 (K.localAPSol Sats) = Except.ok p1 ∧
          p1.converge = r.self.Convergence)) ∧
    (∀ p1, K.pass T Sats SVP invMC 0 (K.localAPSol Sats) = Except.ok p1 →
      p1.converge > 10000000000 → r.iret ≠ -3 →
      r.iret = -1 ∧ r.self.NIterations = 1 ∧ r.self.Convergence = p1.converge) := by
  have key : r.iret = 0 ∨ r.iret = -1 →
      ∃ p, passAt (K.pass T Sats SVP invMC) (K.localAPSol Sats)
          (r.self.NIterations.toNat - 1) = some p ∧ r.self.Convergence = p.converge ∧
      1 ≤ r.self.NIterations ∧
      (r.iret = 0 → 2 ≤ r.self.NIterations) ∧
      (r.iret = -1 → max 2 niterLimit ≤ r.self.NIterations ∨
        r.self.Convergence > 10000000000) := by
    intro hc
    obtain ⟨p, hl, hcv, _⟩ := SimplePRSolution_loop hext h hc
    obtain ⟨e, he, _, hspec⟩ := iterationLoop_from_start (K.pass T Sats SVP invMC) niterLimit
      convLimit (K.localAPSol Sats)
    rw [hl] at he
    cases he
    obtain ⟨h1, _, hpa, _, h0, hm, _⟩ := hspec _ _ p rfl
    refine ⟨p, hpa, hcv, h1, fun hz => (h0.mp hz).1, fun hz => ?_⟩
    rw [hcv]
    exact (hm.mp hz).2
  refine ⟨?_, ?_, ?_⟩
  · intro hz
    obtain ⟨_, _, _, _, h2, _⟩ := key (Or.inl hz)
    exact h2 hz
  · intro hz
    obtain ⟨p, hpa, hcv, h1, _, h3⟩ := key (Or.inr hz)
    have hL : (2 : Int) ≤ max 2 niterLimit := le_max_left _ _
    rcases h3 hz with h4 | h4
    · left; omega
    · by_cases h2 : 2 ≤ r.self.NIterations
      · exact Or.inl h2
      · right
        have hn1 : r.self.NIterations = 1 := by omega
        refine ⟨hn1, h4, p, ?_, hcv.symm⟩
        rw [hn1] at hpa
        have hpa' : (match K.pass T Sats SVP invMC 0 (K.localAPSol Sats) with
            | Except.error _ => none
            | Except.ok q => some q) = some p := hpa
        cases hp0 : K.pass T Sats SVP invMC 0 (K.localAPSol Sats) with
        | error s =>
          rw [hp0] at hpa'
          cases hpa'
        | ok q =>
          rw [hp0] at hpa'
          cases hpa'
          rfl
  · intro p1 hp hbig h3
    have hloop := iterationLoop_first_pass (K.pass T Sats SVP invMC) niterLimit convLimit
      (K.localAPSol Sats) p1 hp hbig
    rcases SimplePRSolution_loop_end hext h h3 with ⟨s, hs, _⟩ | ⟨p, hl, hcv, _⟩
    · rw [hloop] at hs
      cases hs
    · rw [hloop] at hl
      injection hl with hl
      injection hl with e1 e2 e3
      exact ⟨e1.symm, e2.symm, by rw [hcv, e3]⟩

/-- C27. In a call of `SimplePRSolution` that comes to the slope computation
(code 0 or -1), the counter `n` of the satellite loop is `Nsvs`, the number of
satellites included in this call, and the slopes are those computed with
`n = Nsvs` from the last pass of this call. -/
theorem C27_slope_counter (K : Kernel) (self : PRSolution) (ext : External) (T : ℚ)
    (Sats : List SatID) (SVP invMC : Matrix) (pTropModel : Bool) (niterLimit : Int)
    (convLimit : ℚ) (Resids Slopes : Vector) (r : Solved)
    (hext : ext.solve = solveBody K self.allowedGNSS)
    (h : SimplePRSolution self ext T Sats SVP invMC pTropModel niterLimit convLimit Resids Slopes
      = some r) (hc : r.iret = 0 ∨ r.iret = -1) :
    satLoopCount Sats = r.self.Nsvs ∧
    r.self.Nsvs = (Sats.filter (fun s => decide (0 < s.id))).length ∧
    r.self.Nsvs = nIncluded self.allowedGNSS Sats ∧
    ∃ p : Pass, r.Slopes = (computeSlopes K.SQRT r.iret Sats p.G p.PG r.self.Nsvs
        (3 + (sortSystems self.allowedGNSS (countSystems self.allowedGNSS Sats).2).length)
        r.self.Nsvs).1 ∧
      r.self.MaxSlope = (computeSlopes K.SQRT r.iret Sats p.G p.PG r.self.Nsvs
        (3 + (sortSystems self.allowedGNSS (countSystems self.allowedGNSS Sats).2).length)
        r.self.Nsvs).2 := by
  have h3 : r.iret ≠ -3 := by rcases hc with hc | hc <;> rw [hc] <;> decide
  obtain ⟨hcount, hN⟩ := SimplePRSolution_count h h3
  obtain ⟨p, _, _, hsl, hms⟩ := SimplePRSolution_loop hext h hc
  rw [hcount, ← hN, countSystems_fst, ← hN] at hsl hms
  refine ⟨by rw [hcount, hN], ?_, hN, p, hsl, hms⟩
  rw [hN, ← hcount, satLoopCount_eq]

theorem solveConverge_returns : solveConverge = some (solved solveConverge) := by
  decide!

/-- Witness of C23: a solve with corrections of 6400 km, 3 m and 0.1 mm ends in
its third pass with code 0. -/
theorem C23_iteration_loop_witness :
    solveConverge = some (solved solveConverge) ∧ (solved solveConverge).iret ≠ -3 ∧
    (solved solveConverge).iret = 0 ∧ (solved solveConverge).self.NIterations = 3 ∧
    ((∃ s, iterationLoop
        ((exKernel [6400000, 3, 1 / 10000]).pass 0 (exSats 5) (Matrix.zero 5 4) [])
        (if (10 : Int) < 2 then (2 : Int) else 10) (1 / 1000)
        (if (10 : Int) < 2 then (2 : Int) else 10).toNat 0
        ((exKernel [6400000, 3, 1 / 10000]).localAPSol (exSats 5))
          = some (LoopEnd.singular s) ∧ (solved solveConverge).iret = -2) ∨
     (∃ p, iterationLoop
        ((exKernel [6400000, 3, 1 / 10000]).pass 0 (exSats 5) (Matrix.zero 5 4) [])
        (if (10 : Int) < 2 then (2 : Int) else 10) (1 / 1000)
        (if (10 : Int) < 2 then (2 : Int) else 10).toNat 0
        ((exKernel [6400000, 3, 1 / 10000]).localAPSol (exSats 5))
          = some (LoopEnd.ended (solved solveConverge).iret
              (solved solveConverge).self.NIterations p) ∧
       (solved solveConverge).self.Convergence = p.converge ∧
       ((solved solveConverge).iret = 0 ∨ (solved solveConverge).iret = -1))) :=
  ⟨solveConverge_returns, by decide!, by decide!, by decide!,
    (C23_iteration_loop (exKernel [6400000, 3, 1 / 10000]) 0 (exSats 5) (Matrix.zero 5 4) [] 10
      (1 / 1000)).2 selfC (exExternalK (exKernel [6400000, 3, 1 / 10000]) [1]) true [] []
      (solved solveConverge) rfl solveConverge_returns (by decide!)⟩

theorem solveDiverge_returns : solveDiverge = some (solved solveDiverge) := by
  decide!

/-- Witness of C24 (amended): the solve whose first correction has a norm of
2e10 m returns -1 after one pass. -/
theorem C24_at_least_two_passes_witness :
    solveDiverge = some (solved solveDiverge) ∧
    ((solved solveDiverge).iret = 0 → 2 ≤ (solved solveDiverge).self.NIterations) ∧
    ((solved solveDiverge).iret = -1 → 2 ≤ (solved solveDiverge).self.NIterations ∨
      ((solved solveDiverge).self.NIterations = 1 ∧
        (solved solveDiverge).self.Convergence > 10000000000 ∧
        ∃ p1, (exKernel [20000000000]).pass 0 (exSats 5) (Matrix.zero 5 4) [] 0
            ((exKernel [20000000000]).localAPSol (exSats 5)) = Except.ok p1 ∧
          p1.converge = (solved solveDiverge).self.Convergence)) ∧
    (∀ p1, (exKernel [20000000000]).pass 0 (exSats 5) (Matrix.zero 5 4) [] 0
          ((exKernel [20000000000]).localAPSol (exSats 5)) = Except.ok p1 →
      p1.converge > 10000000000 → (solved solveDiverge).iret ≠ -3 →
      (solved solveDiverge).iret = -1 ∧ (solved solveDiverge).self.NIterations = 1 ∧
      (solved solveDiverge).self.Convergence = p1.converge) :=
  ⟨solveDiverge_returns,
    C24_at_least_two_passes (exKernel [20000000000]) selfC
      (exExternalK (exKernel [20000000000]) [1]) 0 (exSats 5) (Matrix.zero 5 4) [] true
      10 (1 / 1000) [] [] (solved solveDiverge) rfl solveDiverge_returns⟩

/-- Witness of C27: the converging solve of five satellites. -/
theorem C27_slope_counter_witness :
    solveConverge = some (solved solveConverge) ∧
    ((solved solveConverge).iret = 0 ∨ (solved solveConverge).iret = -1) ∧
    satLoopCount (exSats 5) = (solved solveConverge).self.Nsvs ∧
    (solved solveConverge).self.Nsvs = 5 :=
  ⟨solveConverge_returns, Or.inl (by decide!),
    (C27_slope_counter (exKernel [6400000, 3, 1 / 10000]) selfC
      (exExternalK (exKernel [6400000, 3, 1 / 10000]) [1]) 0 (exSats 5) (Matrix.zero 5 4) [] true
      10 (1 / 1000) [] [] (solved solveConverge) rfl solveConverge_returns
      (Or.inl (by decide!))).1, by decide!⟩

/-! ## DOPCompute -/

theorem tdop_loop {K : Type} [Field K] (f : Nat → K) (m : Nat) :
    (List.range' 3 m).foldl (fun t i => t + f i) 0 = ∑ i ∈ Finset.Ico 3 (3 + m), f i := by
  induction m with
  | zero => simp
  | succ m ih =>
    rw [List.range'_concat, List.foldl_append, ih]
    simp only [List.foldl_cons, List.foldl_nil]
    rw [show 3 + (m + 1) = (3 + m) + 1 by omega, Finset.sum_Ico_succ_top (by omega)]
    simp

theorem tdop_loop_rows {K : Type} [Field K] (f : Nat → K) (n : Nat) :
    (List.range' 3 (n - 3)).foldl (fun t i => t + f i) 0 = ∑ i ∈ Finset.Ico 3 n, f i := by
  rw [tdop_loop]
  by_cases h : 3 ≤ n
  · rw [show 3 + (n - 3) = n by omega]
  · rw [show 3 + (n - 3) = 3 by omega, Finset.Ico_self, Finset.Ico_eq_empty (by omega)]

/-- The function evaluated over the rationals, with the identity in place of
the square root: the three sums for the unit design are 3, 1 and 3² + 1². -/
theorem DOPCompute_unit :
    DOPCompute (fun x : ℚ => x) (fun M => some M) (exUnit ℚ) = some (3, 1, 10) := by
  decide!

/-- C22. Over the real numbers with the real square root: when `inverseLUD`
gives `Cov` for `PT * P` and the two diagonal sums are not negative,
`DOPCompute` returns PDOP, TDOP and GDOP, the roots of
Cov(0,0) + Cov(1,1) + Cov(2,2), of the sum of Cov(i,i) over the rows i >= 3,
and of the sum of both; so PDOP² and TDOP² are these sums and
GDOP² = PDOP² + TDOP². -/
theorem C22_dop_squares (inverseLUD : List (List ℝ) → Option (List (List ℝ)))
    (Partials Cov : List (List ℝ))
    (hinv : inverseLUD (mulOf (transposeOf Partials) Partials) = some Cov)
    (hP : 0 ≤ entryOf Cov 0 0 + entryOf Cov 1 1 + entryOf Cov 2 2)
    (hT : 0 ≤ ∑ i ∈ Finset.Ico 3 Cov.length, entryOf Cov i i) :
    ∃ d, DOPCompute Real.sqrt inverseLUD Partials = some d ∧
      d.1 = Real.sqrt (entryOf Cov 0 0 + entryOf Cov 1 1 + entryOf Cov 2 2) ∧
      d.2.1 = Real.sqrt (∑ i ∈ Finset.Ico 3 Cov.length, entryOf Cov i i) ∧
      d.1 ^ 2 = entryOf Cov 0 0 + entryOf Cov 1 1 + entryOf Cov 2 2 ∧
      d.2.1 ^ 2 = ∑ i ∈ Finset.Ico 3 Cov.length, entryOf Cov i i ∧
      d.2.2 ^ 2 = d.1 ^ 2 + d.2.1 ^ 2 ∧ 0 ≤ d.1 ∧ 0 ≤ d.2.1 ∧ 0 ≤ d.2.2 := by
  unfold DOPCompute
  dsimp only
  rw [hinv]
  dsimp only
  rw [tdop_loop_rows]
  refine ⟨_, rfl, rfl, rfl, ?_, ?_, ?_, Real.sqrt_nonneg _, Real.sqrt_nonneg _, ?_⟩
  · dsimp only; exact Real.sq_sqrt hP
  · dsimp only; exact Real.sq_sqrt hT
  · dsimp only
    unfold RSS
    rw [Real.mul_self_sqrt hP, Real.mul_self_sqrt hT, Real.sq_sqrt (add_nonneg hP hT),
      Real.sq_sqrt hP, Real.sq_sqrt hT]
  · dsimp only
    unfold RSS
    exact Real.sqrt_nonneg _

/-- Witness of C22: the unit design, with PDOP² = 3, TDOP² = 1 and
GDOP² = 4. -/
theorem C22_dop_squares_witness :
    (0 : ℝ) ≤ entryOf (exUnit ℝ) 0 0 + entryOf (exUnit ℝ) 1 1 + entryOf (exUnit ℝ) 2 2 ∧
    (0 : ℝ) ≤ ∑ i ∈ Finset.Ico 3 (exUnit ℝ).length, entryOf (exUnit ℝ) i i ∧
    entryOf (exUnit ℝ) 0 0 + entryOf (exUnit ℝ) 1 1 + entryOf (exUnit ℝ) 2 2 = (3 : ℝ) ∧
    ∑ i ∈ Finset.Ico 3 (exUnit ℝ).length, entryOf (exUnit ℝ) i i = (1 : ℝ) ∧
    ∃ d, DOPCompute Real.sqrt (fun _ => some (exUnit ℝ)) (exUnit ℝ) = some d ∧
      d.1 = Real.sqrt (entryOf (exUnit ℝ) 0 0 + entryOf (exUnit ℝ) 1 1 +
        entryOf (exUnit ℝ) 2 2) ∧
      d.2.1 = Real.sqrt (∑ i ∈ Finset.Ico 3 (exUnit ℝ).length, entryOf (exUnit ℝ) i i) ∧
      d.1 ^ 2 = entryOf (exUnit ℝ) 0 0 + entryOf (exUnit ℝ) 1 1 + entryOf (exUnit ℝ) 2 2 ∧
      d.2.1 ^ 2 = ∑ i ∈ Finset.Ico 3 (exUnit ℝ).length, entryOf (exUnit ℝ) i i ∧
      d.2.2 ^ 2 = d.1 ^ 2 + d.2.1 ^ 2 ∧ 0 ≤ d.1 ∧ 0 ≤ d.2.1 ∧ 0 ≤ d.2.2 :=
  ⟨by norm_num [entryOf, exUnit], by simp [entryOf, exUnit],
    by norm_num [entryOf, exUnit], by simp [entryOf, exUnit],
    C22_dop_squares (fun _ => some (exUnit ℝ)) (exUnit ℝ) (exUnit ℝ) rfl
      (by norm_num [entryOf, exUnit]) (by simp [entryOf, exUnit])⟩

/-! ## The comparison of navigation records -/

/-- C30 (fails). Two records with the same transmit time, epoch and satellite
whose data fields differ in one place, 1 against 0, with the default epsilon
1e-5: the comparison is true both ways. Left 1 against right 0 gives the
relative error (1 - 0)/1 = 1 > epsilon; left 0 against right 1 takes the
right value itself as the error, 1 > epsilon. -/
theorem C30_both_less :
    exNavL.fields.length = exNavR.fields.length ∧
    lessThanFull (1 / 100000) exNavL exNavR = true ∧
    lessThanFull (1 / 100000) exNavR exNavL = true := by
  decide!

/-! ## The RAIM search: failed combinations and markings -/

/-- C25. When the solver returns -1 or -2 for a combination, the body of the
combination loop ends without `break` and the loop goes on with the next
combination of the stage; of the best set only `BestIret` can change (line
666), and nothing changes once a solution has been recorded. -/
theorem C25_failed_combination_tolerated {ext : External} {Tr : ℚ} {SVP invMC : Matrix}
    {pTropModel : Bool} {Save : List SatID} {Good : List Nat} {stage : Int} {c : List Nat}
    {st : Search} {q : Solved}
    (hq : SimplePRSolution st.self ext Tr (markCombo Save Good c) SVP invMC pTropModel
      st.self.MaxNIterations st.self.ConvergenceLimit st.Resids st.Slopes = some q)
    (hc : q.iret = -1 ∨ q.iret = -2) :
    ∃ st', trial ext Tr SVP invMC pTropModel Save Good stage c st = some (st', false) ∧
      (∀ rest, comboLoop ext Tr SVP invMC pTropModel Save Good stage (c :: rest) st =
        comboLoop ext Tr SVP invMC pTropModel Save Good stage rest st') ∧
      st'.iret = q.iret ∧ st'.best = noteIret q.iret st.best ∧
      { st'.best with BestIret := st.best.BestIret } = st.best ∧
      (st.best.BestIret = 0 → st'.best = st.best) ∧
      (∀ (self0 : PRSolution) (t : Nat),
        SearchInv self0 ext Tr SVP invMC pTropModel Save t st → st.best.BestRMS ≠ -1 →
        st'.best = st.best) := by
  have htrial : trial ext Tr SVP invMC pTropModel Save Good stage c st =
      some ({ self := q.self, Sats := markCombo Save Good c, iret := q.iret,
              best := noteIret q.iret st.best, Resids := q.Resids, Slopes := q.Slopes,
              calls := st.calls ++ [markCombo Save Good c] }, false) := by
    unfold trial
    dsimp only
    rw [hq]
    rcases hc with hc | hc <;> simp [hc]
  have hzero : st.best.BestIret = 0 → noteIret q.iret st.best = st.best := by
    intro h0
    unfold noteIret
    rw [if_neg]
    rintro ⟨_, h2⟩
    rw [h0] at h2
    rcases hc with hc | hc <;> rw [hc] at h2 <;> omega
  refine ⟨_, htrial, ?_, rfl, rfl, ?_, hzero, ?_⟩
  · intro rest
    rw [comboLoop, htrial]
  · dsimp only
    unfold noteIret
    split <;> rfl
  · intro self0 t hinv hs
    exact hzero (hinv.saved hs).1

theorem getElem?_fold (g : Nat → Nat) (Combo : List Nat) (is : List Nat) :
    ∀ (S : List SatID) (j : Nat),
    (is.foldl (fun Sats i => if i ∈ Combo then markAt Sats (g i) else Sats) S)[j]? =
      if ∃ i ∈ is, i ∈ Combo ∧ g i = j then S[j]?.map (fun s => { s with id := -(abs s.id) })
      else S[j]? := by
  induction is with
  | nil => intro S j; simp
  | cons i is ih =>
    intro S j
    rw [List.foldl_cons, ih]
    by_cases hi : i ∈ Combo
    · simp only [hi, if_true, markAt_getElem?, List.mem_cons, exists_eq_or_imp, true_and]
      by_cases h1 : j = g i
      · subst h1
        simp only [if_true, true_or]
        split
        · cases S[g i]? <;> simp
        · rfl
      · have h2 : ¬ g i = j := fun h => h1 h.symm
        simp only [h1, h2, if_false, false_or]
    · simp only [hi, if_false, List.mem_cons, exists_eq_or_imp, false_and, false_or]

/-- The list that a solver call of the search is given: the saved list with
the satellites selected by the combination marked, and the others as saved. -/
theorem markCombo_getElem? (S : List SatID) (Good Combo : List Nat) (j : Nat) :
    (markCombo S Good Combo)[j]? =
      if ∃ i, i < Good.length ∧ i ∈ Combo ∧ Good.getD i 0 = j then
        S[j]?.map (fun s => { s with id := -(abs s.id) })
      else S[j]? := by
  unfold markCombo
  rw [getElem?_fold (fun i => Good.getD i 0)]
  simp only [List.mem_range]


/-- C28. Every solver call of `RAIMCompute` is given the list saved after
`PreparePRSolution` with the satellites selected by the combination of the
call marked and all others as saved: a satellite is excluded in the call
exactly when `PreparePRSolution` marked it or the combination selects it. The
body of the combination loop builds this list from the saved one, whatever the
list of the call before was. -/
theorem C28_markings_of_solver_calls {self : PRSolution} {ext : External} {Tr : ℚ}
    {Sats : List SatID} {Pseudorange : List ℚ} {invMC : Matrix} {pTropModel : Bool}
    {r : RAIMResult}
    (h : RAIMCompute self ext Tr Sats Pseudorange invMC pTropModel = some r) :
    ∃ p, PreparePRSolution self ext.getXvt Tr Sats Pseudorange = some p ∧
      (∀ m ∈ r.calls, ∃ c : List Nat, c.Sublist (List.range (GoodIndexes p.Sats).length) ∧
        m = markCombo p.Sats (GoodIndexes p.Sats) c ∧ m.length = p.Sats.length ∧
        ∀ (j : Nat) (s : SatID), p.Sats[j]? = some s →
          ((∃ i ∈ c, (GoodIndexes p.Sats).getD i 0 = j) →
            m[j]? = some { s with id := -(abs s.id) }) ∧
          (¬ (∃ i ∈ c, (GoodIndexes p.Sats).getD i 0 = j) → m[j]? = some s) ∧
          (idAt m j ≤ 0 ↔ (s.id ≤ 0 ∨ ∃ i ∈ c, (GoodIndexes p.Sats).getD i 0 = j))) ∧
      ∀ (stage : Int) (c : List Nat) (st st' : Search) (b : Bool),
        trial ext Tr p.SVP invMC pTropModel p.Sats (GoodIndexes p.Sats) stage c st =
          some (st', b) →
        st'.Sats = markCombo p.Sats (GoodIndexes p.Sats) c ∧
        st'.calls = st.calls ++ [markCombo p.Sats (GoodIndexes p.Sats) c] := by
  obtain ⟨p, hp, hres⟩ := RAIMCompute_result h
  refine ⟨p, hp, ?_, ?_⟩
  · intro m hm
    have hcalls : ∃ c : List Nat, c.Sublist (List.range (GoodIndexes p.Sats).length) ∧
        m = markCombo p.Sats (GoodIndexes p.Sats) c := by
      rcases hres with ⟨_, rfl⟩ | ⟨_, t, st1, hinv, _, _, hcalls, _⟩
      · simp at hm
      · rw [hcalls] at hm
        obtain ⟨c, hc, _, hmc⟩ := hinv.calls m hm
        exact ⟨c, hc, hmc⟩
    obtain ⟨c, hc, rfl⟩ := hcalls
    refine ⟨c, hc, rfl, length_markCombo _ _ _, ?_⟩
    intro j s hs
    have hsel : (∃ i, i < (GoodIndexes p.Sats).length ∧ i ∈ c ∧
        (GoodIndexes p.Sats).getD i 0 = j) ↔ ∃ i ∈ c, (GoodIndexes p.Sats).getD i 0 = j := by
      constructor
      · rintro ⟨i, _, hi, hg⟩; exact ⟨i, hi, hg⟩
      · rintro ⟨i, hi, hg⟩; exact ⟨i, List.mem_range.mp (hc.subset hi), hi, hg⟩
    have hget := markCombo_getElem? p.Sats (GoodIndexes p.Sats) c j
    rw [hs] at hget
    refine ⟨?_, ?_, ?_⟩
    · intro hsl
      rw [hget, if_pos (hsel.mpr hsl)]; rfl
    · intro hsl
      rw [hget, if_neg (fun hh => hsl (hsel.mp hh))]
    · by_cases hsl : ∃ i ∈ c, (GoodIndexes p.Sats).getD i 0 = j
      · have : idAt (markCombo p.Sats (GoodIndexes p.Sats) c) j = -(abs s.id) := by
          unfold idAt; rw [hget, if_pos (hsel.mpr hsl)]; rfl
        rw [this]
        have := abs_nonneg s.id
        constructor
        · intro _; exact Or.inr hsl
        · intro _; omega
      · have : idAt (markCombo p.Sats (GoodIndexes p.Sats) c) j = s.id := by
          unfold idAt; rw [hget, if_neg (fun hh => hsl (hsel.mp hh))]
        rw [this]
        constructor
        · intro h0; exact Or.inl h0
        · rintro (h0 | h0)
          · exact h0
          · exact absurd h0 hsl
  · intro stage c st st' b ht
    obtain ⟨q, _, _, h2, _, h4, _⟩ := trial_cases ht
    exact ⟨h2, h4⟩

/-- Witness of C28: epoch A. -/
theorem C28_markings_of_solver_calls_witness :
    epochA = some (returned epochA) ∧
    (returned epochA).calls.map (fun m => m.map (fun s => s.id)) =
      [[1, 2, 3, 4, 5, 6], [-1, 2, 3, 4, 5, 6], [1, -2, 3, 4, 5, 6], [1, 2, -3, 4, 5, 6],
       [1, 2, 3, -4, 5, 6], [1, 2, 3, 4, -5, 6], [1, 2, 3, 4, 5, -6]] ∧
    ∃ p, PreparePRSolution selfA extA.getXvt 0 (exSats 6) [0, 0, 0, 0, 0, 0] = some p ∧
      ∀ m ∈ (returned epochA).calls,
        ∃ c : List Nat, c.Sublist (List.range (GoodIndexes p.Sats).length) ∧
          m = markCombo p.Sats (GoodIndexes p.Sats) c :=
  ⟨epochA_returns, by decide!,
    (C28_markings_of_solver_calls epochA_returns).imp (fun _ hp =>
      ⟨hp.1, fun m hm => (hp.2.1 m hm).imp (fun _ hc => ⟨hc.1, hc.2.1⟩)⟩)⟩

/-- Witness of C25: in epoch B the solve without the sixth satellite does not
converge. -/
theorem C25_failed_combination_tolerated_witness :
    SimplePRSolution (Search.init selfB (exSats 6)).self extB 0
        (markCombo (exSats 6) (GoodIndexes (exSats 6)) [5]) (Matrix.zero 6 4) [] true
        (Search.init selfB (exSats 6)).self.MaxNIterations
        (Search.init selfB (exSats 6)).self.ConvergenceLimit
        (Search.init selfB (exSats 6)).Resids (Search.init selfB (exSats 6)).Slopes =
      some (solved solveB) ∧
    ((solved solveB).iret = -1 ∨ (solved solveB).iret = -2) ∧
    ∃ st', trial extB 0 (Matrix.zero 6 4) [] true (exSats 6) (GoodIndexes (exSats 6)) 1 [5]
        (Search.init selfB (exSats 6)) = some (st', false) ∧
      st'.iret = (solved solveB).iret ∧
      { st'.best with BestIret := (Search.init selfB (exSats 6)).best.BestIret } =
        (Search.init selfB (exSats 6)).best :=
  ⟨by decide!, Or.inl (by decide!),
    (C25_failed_combination_tolerated
      (show SimplePRSolution (Search.init selfB (exSats 6)).self extB 0
        (markCombo (exSats 6) (GoodIndexes (exSats 6)) [5]) (Matrix.zero 6 4) [] true
        (Search.init selfB (exSats 6)).self.MaxNIterations
        (Search.init selfB (exSats 6)).self.ConvergenceLimit
        (Search.init selfB (exSats 6)).Resids (Search.init selfB (exSats 6)).Slopes =
          some (solved solveB) by decide!)
      (Or.inl (by decide!))).imp (fun _ hs => ⟨hs.1, hs.2.2.1, hs.2.2.2.2.1⟩)⟩

/-! ## Too few satellites under further exclusion -/

/-- C26 (fails for a list with a repeated entry). With `allowedGNSS = [1, 1, 2]`,
one satellite of constellation 1 and four of constellation 2, the solver counts
5 satellites for 3 + 3 unknowns and returns -3; with the satellite of
constellation 1 excluded as well it counts 4 satellites for 3 + 1 unknowns and
goes on to solve (code 0). -/
theorem C26_counterexample :
    (SimplePRSolution selfR2 extC 0 exSatsR (Matrix.zero 5 4) [] true 10 (1 / 1000) [] []).map
      (fun r => r.iret) = some (-3) ∧
    List.Forall₂ (fun s s' => s'.system = s.system ∧ (0 < s'.id → 0 < s.id)) exSatsR exSatsR2 ∧
    (SimplePRSolution selfR2 extC 0 exSatsR2 (Matrix.zero 5 4) [] true 10 (1 / 1000) [] []).map
      (fun r => r.iret) = some 0 := by
  refine ⟨by decide!, ?_, by decide!⟩
  unfold exSatsR exSatsR2
  repeat (first | exact List.Forall₂.nil | apply List.Forall₂.cons)
  all_goals decide

theorem filter_length_le_succ {α : Type} [DecidableEq α] (p q : α → Bool) (g0 : α) :
    ∀ l : List α, l.Nodup → (∀ g ∈ l, g ≠ g0 → p g = true → q g = true) →
      (l.filter p).length ≤ (l.filter q).length + 1 := by
  intro l
  induction l with
  | nil => intro _ _; simp
  | cons a l ih =>
    intro hnd h
    obtain ⟨hna, hnd'⟩ := List.nodup_cons.mp hnd
    by_cases ha : a = g0
    · have hmono : (l.filter p).length ≤ (l.filter q).length := by
        rw [← List.countP_eq_length_filter, ← List.countP_eq_length_filter]
        apply List.countP_mono_left
        intro x hx hpx
        exact h x (List.mem_cons_of_mem _ hx) (fun e => hna (by rw [← ha, ← e] at *; exact hx)) hpx
      rw [List.filter_cons, List.filter_cons]
      cases hp : p a <;> cases hq : q a <;> simp <;> omega
    · have ih' := ih hnd' (fun g hg => h g (List.mem_cons_of_mem _ hg))
      have hh := h a (List.mem_cons_self _ _) ha
      rw [List.filter_cons, List.filter_cons]
      cases hp : p a
      · cases hq : q a <;> simp <;> omega
      · rw [hh hp]; simp; omega

theorem nIncluded_append (A : List SatelliteSystem) (l1 l2 : List SatID) :
    nIncluded A (l1 ++ l2) = nIncluded A l1 + nIncluded A l2 := by
  simp [nIncluded]

/-- Marking one more satellite keeps the count below the number of unknowns. -/
theorem tooFew_step (A : List SatelliteSystem) (hnd : A.Nodup) (pre rest : List SatID)
    (s s' : SatID) (hsys : s'.system = s.system) (hid : 0 < s'.id → 0 < s.id)
    (h : nIncluded A (pre ++ s :: rest) < 3 + (systemsInUse A (pre ++ s :: rest)).length) :
    nIncluded A (pre ++ s' :: rest) < 3 + (systemsInUse A (pre ++ s' :: rest)).length := by
  have hcount : ∀ x : SatID, nIncluded A (pre ++ x :: rest) =
      nIncluded A pre + (if included A x = true then 1 else 0) + nIncluded A rest := by
    intro x
    rw [nIncluded_append]
    unfold nIncluded
    rw [List.filter_cons]
    split
    · simp; omega
    · simp
  by_cases hs' : included A s' = true
  · have hs : included A s = true := by
      simp only [included, Bool.and_eq_true, decide_eq_true_eq] at hs' ⊢
      exact ⟨hid hs'.1, by rw [← hsys]; exact hs'.2⟩
    have hsame : systemsInUse A (pre ++ s' :: rest) = systemsInUse A (pre ++ s :: rest) := by
      unfold systemsInUse
      apply List.filter_congr
      intro g _
      simp only [List.mem_append, List.mem_cons, decide_eq_decide]
      constructor
      · rintro ⟨x, hx, hi, hg⟩
        rcases hx with hx | rfl | hx
        · exact ⟨x, Or.inl hx, hi, hg⟩
        · exact ⟨s, Or.inr (Or.inl rfl), hs, by rw [← hsys]; exact hg⟩
        · exact ⟨x, Or.inr (Or.inr hx), hi, hg⟩
      · rintro ⟨x, hx, hi, hg⟩
        rcases hx with hx | rfl | hx
        · exact ⟨x, Or.inl hx, hi, hg⟩
        · exact ⟨s', Or.inr (Or.inl rfl), hs', by rw [hsys]; exact hg⟩
        · exact ⟨x, Or.inr (Or.inr hx), hi, hg⟩
    rw [hsame, hcount s', hs']
    rw [hcount s, hs] at h
    exact h
  · have hout : ∀ x : SatID, included A x = false →
        systemsInUse A (pre ++ x :: rest) = systemsInUse A (pre ++ rest) := by
      intro x hx
      unfold systemsInUse
      apply List.filter_congr
      intro g _
      simp only [List.mem_append, List.mem_cons, decide_eq_decide]
      constructor
      · rintro ⟨y, hy, hi, hg⟩
        rcases hy with hy | rfl | hy
        · exact ⟨y, Or.inl hy, hi, hg⟩
        · rw [hx] at hi; cases hi
        · exact ⟨y, Or.inr hy, hi, hg⟩
      · rintro ⟨y, hy, hi, hg⟩
        rcases hy with hy | hy
        · exact ⟨y, Or.inl hy, hi, hg⟩
        · exact ⟨y, Or.inr (Or.inr hy), hi, hg⟩
    have hs'f : included A s' = false := by
      cases hh : included A s'
      · rfl
      · exact absurd hh hs'
    have hle : (systemsInUse A (pre ++ s :: rest)).length ≤
        (systemsInUse A (pre ++ s' :: rest)).length + 1 := by
      unfold systemsInUse
      apply filter_length_le_succ _ _ s.system A hnd
      intro g _ hg hp
      simp only [decide_eq_true_eq, List.mem_append, List.mem_cons] at hp ⊢
      obtain ⟨x, hx, hi, hgx⟩ := hp
      rcases hx with hx | rfl | hx
      · exact ⟨x, Or.inl hx, hi, hgx⟩
      · exact absurd hgx.symm hg
      · exact ⟨x, Or.inr (Or.inr hx), hi, hgx⟩
    rw [hcount s', if_neg hs']
    rw [hcount s] at h
    cases hsi : included A s
    · rw [hout s hsi, hsi] at h
      rw [hout s' hs'f]
      simpa using h
    · rw [hsi] at h
      simp only [if_true] at h
      omega

theorem tooFew_mono (A : List SatelliteSystem) (hnd : A.Nodup) {l l' : List SatID}
    (hrel : List.Forall₂ (fun s s' => s'.system = s.system ∧ (0 < s'.id → 0 < s.id)) l l') :
    ∀ pre : List SatID,
      nIncluded A (pre ++ l) < 3 + (systemsInUse A (pre ++ l)).length →
      nIncluded A (pre ++ l') < 3 + (systemsInUse A (pre ++ l')).length := by
  induction hrel with
  | nil => intro pre h; exact h
  | @cons s s' l1 l2 hab _ ih =>
    intro pre h
    have h1 := tooFew_step A hnd pre l1 s s' hab.1 hab.2 h
    have h2 := ih (pre ++ [s']) (by simpa using h1)
    simpa using h2

/-- C26 (amended). For an `allowedGNSS` without repeated entries: if
`SimplePRSolution` returns -3 for a marking of a satellite list, it returns -3
for every marking of the list that excludes at least the satellites excluded
by the first. -/
theorem C26_too_few_is_monotone (self : PRSolution) (ext ext' : External) (T T' : ℚ)
    (Sats Sats' : List SatID) (SVP invMC : Matrix) (pTropModel : Bool)
    (niterLimit niterLimit' : Int) (convLimit convLimit' : ℚ)
    (Resids Slopes Resids' Slopes' : Vector) (r : Solved)
    (hnd : self.allowedGNSS.Nodup)
    (hrel : List.Forall₂ (fun s s' => s'.system = s.system ∧ (0 < s'.id → 0 < s.id))
      Sats Sats')
    (h : SimplePRSolution self ext T Sats SVP invMC pTropModel niterLimit convLimit Resids Slopes
      = some r) (h3 : r.iret = -3) :
    ∃ r', SimplePRSolution self ext' T' Sats' SVP invMC pTropModel niterLimit' convLimit'
      Resids' Slopes' = some r' ∧ r'.iret = -3 := by
  obtain ⟨hp, hg1, hg2⟩ := SimplePRSolution_guards h
  subst hp
  have hlen : Sats'.length = Sats.length := hrel.length_eq.symm
  have hg1' : ¬ (Sats'.length ≠ SVP.length ∨ (invMC.length > 0 ∧ invMC.length ≠ Sats'.length)) := by
    rw [hlen]; exact hg1
  have hlt : nIncluded self.allowedGNSS Sats <
      3 + (systemsInUse self.allowedGNSS Sats).length := by
    rcases SimplePRSolution_cases h with ⟨hn, _⟩ | ⟨_, s, _, rfl⟩ | ⟨_, c, f, _, rfl⟩
    · exact hn
    · simp at h3
    · cases c <;> simp at h3
  have hlt' := tooFew_mono self.allowedGNSS hnd hrel [] (by simpa using hlt)
  rw [SimplePRSolution_eq self ext' T' Sats' SVP invMC niterLimit' convLimit' Resids' Slopes'
    hg1' hg2, if_pos (by simpa using hlt')]
  exact ⟨_, rfl, rfl⟩

/-- Witness of C26 (amended): three satellites of epoch C, and the same with
the first one marked. -/
theorem C26_too_few_is_monotone_witness :
    selfC.allowedGNSS.Nodup ∧
    List.Forall₂ (fun s s' => s'.system = s.system ∧ (0 < s'.id → 0 < s.id))
      (exSats 3) ([⟨-1, 1⟩, ⟨2, 1⟩, ⟨3, 1⟩] : List SatID) ∧
    (SimplePRSolution selfC extC 0 (exSats 3) (Matrix.zero 3 4) [] true 10 (1 / 1000) [] []).map
      (fun r => r.iret) = some (-3) ∧
    ∃ r', SimplePRSolution selfC extA 1 [⟨-1, 1⟩, ⟨2, 1⟩, ⟨3, 1⟩] (Matrix.zero 3 4) [] true 5
      (1 / 10) [] [] = some r' ∧ r'.iret = -3 :=
  ⟨by decide,
    List.Forall₂.cons (by decide) (List.Forall₂.cons (by decide)
      (List.Forall₂.cons (by decide) List.Forall₂.nil)),
    by decide!,
    C26_too_few_is_monotone selfC extC extA 0 1 (exSats 3) ([⟨-1, 1⟩, ⟨2, 1⟩, ⟨3, 1⟩] : List SatID)
      (Matrix.zero 3 4) [] true 10 5 (1 / 1000) (1 / 10) [] [] [] []
      (solved (SimplePRSolution selfC extC 0 (exSats 3) (Matrix.zero 3 4) [] true 10
        (1 / 1000) [] []))
      (by decide)
      (List.Forall₂.cons (by decide) (List.Forall₂.cons (by decide)
        (List.Forall₂.cons (by decide) List.Forall₂.nil)))
      (by decide!) (by decide!)⟩

/-! ## Termination of the stage loop -/

theorem Combinations_some {n t : Nat} (h : t ≤ n) :
    Combinations (n : Int) (t : Int) = some (kSubsets t (List.range n)) := by
  unfold Combinations
  rw [if_neg]
  · simp
  · rintro (h1 | h1 | h1) <;> omega

theorem filter_pos_eq_nIncluded (A : List SatelliteSystem) (m : List SatID)
    (hall : ∀ s ∈ m, 0 < s.id → s.system ∈ A) :
    (m.filter (fun s => decide (0 < s.id))).length = nIncluded A m := by
  unfold nIncluded
  congr 1
  apply List.filter_congr
  intro s hs
  by_cases hp : 0 < s.id
  · simp [included, hp, hall s hs hp]
  · simp [included, hp]

theorem countP_split (S m : List SatID) (hk : ∀ k, 0 < idAt m k → 0 < idAt S k)
    (l : List Nat) :
    List.countP (fun i => decide (0 < idAt m i)) l +
      List.countP (fun k => decide (0 < idAt S k) && decide (idAt m k ≤ 0)) l =
      List.countP (fun i => decide (0 < idAt S i)) l := by
  induction l with
  | nil => simp
  | cons k l ih =>
    simp only [List.countP_cons]
    by_cases h1 : 0 < idAt m k
    · have h2 := hk k h1
      have h3 : ¬ idAt m k ≤ 0 := by omega
      simp only [h1, h2, h3, decide_True, decide_False, Bool.and_false, if_true]
      simp
      omega
    · have h3 : idAt m k ≤ 0 := by omega
      by_cases h2 : 0 < idAt S k
      · simp only [h1, h2, h3, decide_True, decide_False, Bool.and_true, if_true]
        simp
        omega
      · simp only [h1, h2, h3, decide_True, decide_False, Bool.false_and, if_false]
        simp
        omega

/-- A marking with `c` satellites selected leaves `N - c.length` of the `N`
good satellites. -/
theorem GoodIndexes_markCombo (S : List SatID) (c : List Nat)
    (hc : c.Sublist (List.range (GoodIndexes S).length)) :
    (GoodIndexes (markCombo S (GoodIndexes S) c)).length + c.length =
      (GoodIndexes S).length := by
  rw [← rejected_markCombo S c hc]
  have hk : ∀ k, 0 < idAt (markCombo S (GoodIndexes S) c) k → 0 < idAt S k := by
    intro k
    rw [idAt_markCombo]
    split
    · intro h; have := abs_nonneg (idAt S k); omega
    · exact fun h => h
  have hl := length_markCombo S (GoodIndexes S) c
  generalize markCombo S (GoodIndexes S) c = m at hk hl ⊢
  unfold rejected GoodIndexes
  rw [hl, ← List.countP_eq_length_filter, ← List.countP_eq_length_filter,
    ← List.countP_eq_length_filter]
  exact countP_split S m hk _


/-- With fewer than four satellites left the solver returns -3. -/
theorem SimplePRSolution_few (self1 : PRSolution) (ext : External) (T : ℚ) (Save : List SatID)
    (SVP invMC : Matrix) (niterLimit : Int) (convLimit : ℚ) (Resids Slopes : Vector)
    (c : List Nat)
    (hall : ∀ s ∈ Save, 0 < s.id → s.system ∈ self1.allowedGNSS)
    (hdef : self1.allowedGNSS ≠ []) (hSVP : Save.length = SVP.length)
    (hinv : invMC.length = 0 ∨ invMC.length = Save.length)
    (hc : c.Sublist (List.range (GoodIndexes Save).length))
    (hfew : (GoodIndexes Save).length < c.length + 4) :
    ∃ q, SimplePRSolution self1 ext T (markCombo Save (GoodIndexes Save) c) SVP invMC true
      niterLimit convLimit Resids Slopes = some q ∧ q.iret = -3 := by
  have hallm : ∀ s ∈ markCombo Save (GoodIndexes Save) c, 0 < s.id →
      s.system ∈ self1.allowedGNSS := fun s hs hpos => hall s (mem_markCombo hs hpos) hpos
  have hn : nIncluded self1.allowedGNSS (markCombo Save (GoodIndexes Save) c) + c.length =
      (GoodIndexes Save).length := by
    rw [← filter_pos_eq_nIncluded _ _ hallm, ← length_GoodIndexes]
    exact GoodIndexes_markCombo Save c hc
  have hlt : nIncluded self1.allowedGNSS (markCombo Save (GoodIndexes Save) c) <
      3 + (systemsInUse self1.allowedGNSS (markCombo Save (GoodIndexes Save) c)).length := by
    by_cases h0 : nIncluded self1.allowedGNSS (markCombo Save (GoodIndexes Save) c) = 0
    · omega
    · have hpos : 0 < ((markCombo Save (GoodIndexes Save) c).filter
          (included self1.allowedGNSS)).length := by
        unfold nIncluded at h0; omega
      obtain ⟨s, hs⟩ := List.exists_mem_of_length_pos hpos
      rw [List.mem_filter] at hs
      have hmem : s.system ∈ systemsInUse self1.allowedGNSS
          (markCombo Save (GoodIndexes Save) c) :=
        (mem_systemsInUse _ _ _).mpr ⟨s, hs.1, hs.2, rfl⟩
      have := List.length_pos_of_mem hmem
      omega
  have g1 : ¬ ((markCombo Save (GoodIndexes Save) c).length ≠ SVP.length ∨
      (invMC.length > 0 ∧ invMC.length ≠ (markCombo Save (GoodIndexes Save) c).length)) := by
    rw [length_markCombo]
    rintro (h | ⟨h1, h2⟩)
    · exact h hSVP
    · rcases hinv with e | e
      · omega
      · exact h2 e
  have g2 : ¬ self1.allowedGNSS.length = 0 := fun e => hdef (List.length_eq_zero.mp e)
  rw [SimplePRSolution_eq self1 ext T _ SVP invMC niterLimit convLimit Resids Slopes g1 g2,
    if_pos hlt]
  exact ⟨_, rfl, rfl⟩

/-- The body of the combination loop returns when the solver does. -/
theorem trial_returns (ext : External) (Tr : ℚ) (SVP invMC : Matrix) (Save : List SatID)
    (stage : Int) (c : List Nat) (st : Search)
    (hall : ∀ s ∈ Save, 0 < s.id → s.system ∈ st.self.allowedGNSS)
    (hdef : st.self.allowedGNSS ≠ []) (hSVP : Save.length = SVP.length)
    (hinv : invMC.length = 0 ∨ invMC.length = Save.length) :
    ∃ st' b, trial ext Tr SVP invMC true Save (GoodIndexes Save) stage c st = some (st', b) := by
  obtain ⟨_, q, hq⟩ := SimplePRSolution_returns st.self ext Tr
    (markCombo Save (GoodIndexes Save) c) SVP invMC st.self.MaxNIterations
    st.self.ConvergenceLimit st.Resids st.Slopes
    (fun s hs hpos => hall s (mem_markCombo hs hpos) hpos)
    (by rw [length_markCombo]; exact hSVP) (by rw [length_markCombo]; exact hinv) hdef
  unfold trial
  dsimp only
  rw [hq]
  dsimp only
  split
  · split
    · exact ⟨_, _, rfl⟩
    · split
      · exact ⟨_, _, rfl⟩
      · split
        · exact ⟨_, _, rfl⟩
        · split
          · exact ⟨_, _, rfl⟩
          · exact ⟨_, _, rfl⟩
  · exact ⟨_, _, rfl⟩

/-- The combination loop of a stage returns; when fewer than four satellites
are left in the stage, its first solver call returns -3 and ends it. -/
theorem comboLoop_returns {self0 : PRSolution} {ext : External} {Tr : ℚ} {SVP invMC : Matrix}
    {Save : List SatID} {t : Nat}
    (hall : ∀ s ∈ Save, 0 < s.id → s.system ∈ self0.allowedGNSS)
    (hdef : self0.allowedGNSS ≠ []) (hSVP : Save.length = SVP.length)
    (hinv : invMC.length = 0 ∨ invMC.length = Save.length) :
    ∀ (cs : List (List Nat)) (st : Search),
    (∀ c ∈ cs, c.Sublist (List.range (GoodIndexes Save).length) ∧ c.length = t) →
    SearchInv self0 ext Tr SVP invMC true Save t st →
    ∃ st', comboLoop ext Tr SVP invMC true Save (GoodIndexes Save) (t : Int) cs st = some st' ∧
      (cs ≠ [] → (GoodIndexes Save).length < t + 4 → st'.iret = -3) := by
  intro cs
  induction cs with
  | nil => intro st _ _; exact ⟨st, rfl, fun h => absurd rfl h⟩
  | cons c rest ih =>
    intro st hcs hinvst
    have hA : st.self.allowedGNSS = self0.allowedGNSS := hinvst.cfg.1
    obtain ⟨hc, hl⟩ := hcs c (List.mem_cons_self _ _)
    obtain ⟨st1, b, ht⟩ := trial_returns ext Tr SVP invMC Save (t : Int) c st
      (by rw [hA]; exact hall) (by rw [hA]; exact hdef) hSVP hinv
    have hinv1 := (trial_inv hinvst hc hl ht).1
    unfold comboLoop
    rw [ht]
    cases b with
    | true =>
      refine ⟨st1, rfl, ?_⟩
      intro _ hfew
      obtain ⟨q, hq, _, _, hiret, _⟩ := trial_cases ht
      obtain ⟨q', hq', h3⟩ := SimplePRSolution_few st.self ext Tr Save SVP invMC
        st.self.MaxNIterations st.self.ConvergenceLimit st.Resids st.Slopes c
        (by rw [hA]; exact hall) (by rw [hA]; exact hdef) hSVP hinv hc (by omega)
      rw [hq] at hq'
      cases hq'
      rw [hiret]; exact h3
    | false =>
      dsimp only
      obtain ⟨st', hst', _⟩ := ih st1 (fun c' hc' => hcs c' (List.mem_cons_of_mem _ hc')) hinv1
      refine ⟨st', hst', ?_⟩
      intro _ hfew
      exfalso
      obtain ⟨q, hq, _, _, hiret, _, hcase⟩ := trial_cases ht
      obtain ⟨q', hq', h3⟩ := SimplePRSolution_few st.self ext Tr Save SVP invMC
        st.self.MaxNIterations st.self.ConvergenceLimit st.Resids st.Slopes c
        (by rw [hA]; exact hall) (by rw [hA]; exact hdef) hSVP hinv hc (by omega)
      rw [hq] at hq'
      cases hq'
      rcases hcase with ⟨h0, _⟩ | ⟨h12, _⟩ | ⟨_, _, hb⟩
      · omega
      · omega
      · cases hb


/-- The stage loop returns, and no solver call of it excludes more than
`N - 3` satellites (none, for `N < 3`). -/
theorem stageLoop_returns {self0 : PRSolution} {ext : External} {Tr : ℚ} {SVP invMC : Matrix}
    {Save : List SatID}
    (hall : ∀ s ∈ Save, 0 < s.id → s.system ∈ self0.allowedGNSS)
    (hdef : self0.allowedGNSS ≠ []) (hSVP : Save.length = SVP.length)
    (hinv : invMC.length = 0 ∨ invMC.length = Save.length)
    (hN : 0 < (GoodIndexes Save).length) :
    ∀ (d t left : Nat) (st : Search),
    (GoodIndexes Save).length - 3 ≤ t + d → t ≤ (GoodIndexes Save).length - 3 →
    (GoodIndexes Save).length + 1 ≤ left + t →
    SearchInv self0 ext Tr SVP invMC true Save t st →
    ∃ st', stageLoop ext Tr SVP invMC true Save (GoodIndexes Save)
        ((GoodIndexes Save).length : Int) left (t : Int) st = some st' ∧
      ∀ m ∈ st'.calls, ∃ c : List Nat, c.Sublist (List.range (GoodIndexes Save).length) ∧
        c.length ≤ (GoodIndexes Save).length - 3 ∧ m = markCombo Save (GoodIndexes Save) c := by
  intro d
  induction d with
  | zero =>
    intro t left st hd ht hleft hinvst
    cases left with
    | zero => omega
    | succ left =>
      unfold stageLoop
      rw [Combinations_some (by omega)]
      dsimp only
      have hcs : ∀ c ∈ kSubsets t (List.range (GoodIndexes Save).length),
          c.Sublist (List.range (GoodIndexes Save).length) ∧ c.length = t := by
        intro c hc; rw [mem_kSubsets] at hc; exact hc
      obtain ⟨st1, hloop, h3⟩ := comboLoop_returns hall hdef hSVP hinv _ st hcs hinvst
      rw [hloop]
      dsimp only
      obtain ⟨hinv1, _⟩ := comboLoop_inv _ st st1 hcs hinvst hloop
      have hiret : st1.iret = -3 :=
        h3 (kSubsets_ne_nil _ _ (by simp; omega)) (by omega)
      have hcalls : ∀ m ∈ st1.calls, ∃ c : List Nat,
          c.Sublist (List.range (GoodIndexes Save).length) ∧
          c.length ≤ (GoodIndexes Save).length - 3 ∧
          m = markCombo Save (GoodIndexes Save) c := by
        intro m hm
        obtain ⟨c, hc, hl, hmc⟩ := hinv1.calls m hm
        exact ⟨c, hc, by omega, hmc⟩
      split
      · exact ⟨_, rfl, hcalls⟩
      · split
        · exact ⟨_, rfl, hcalls⟩
        · rw [if_pos (Or.inl hiret)]
          exact ⟨_, rfl, hcalls⟩
  | succ d ih =>
    intro t left st hd ht hleft hinvst
    cases left with
    | zero => omega
    | succ left =>
      unfold stageLoop
      rw [Combinations_some (by omega)]
      dsimp only
      have hcs : ∀ c ∈ kSubsets t (List.range (GoodIndexes Save).length),
          c.Sublist (List.range (GoodIndexes Save).length) ∧ c.length = t := by
        intro c hc; rw [mem_kSubsets] at hc; exact hc
      obtain ⟨st1, hloop, h3⟩ := comboLoop_returns hall hdef hSVP hinv _ st hcs hinvst
      rw [hloop]
      dsimp only
      obtain ⟨hinv1, _, hallc, hhead⟩ := comboLoop_inv _ st st1 hcs hinvst hloop
      have hne : kSubsets t (List.range (GoodIndexes Save).length) ≠ [] :=
        kSubsets_ne_nil _ _ (by simp; omega)
      have hcalls : ∀ m ∈ st1.calls, ∃ c : List Nat,
          c.Sublist (List.range (GoodIndexes Save).length) ∧
          c.length ≤ (GoodIndexes Save).length - 3 ∧
          m = markCombo Save (GoodIndexes Save) c := by
        intro m hm
        obtain ⟨c, hc, hl, hmc⟩ := hinv1.calls m hm
        exact ⟨c, hc, by omega, hmc⟩
      by_cases hs : st1.best.BestRMS > 0 ∧ st1.best.BestRMS < st1.self.RMSLimit
      · rw [if_pos hs]
        exact ⟨_, rfl, hcalls⟩
      · rw [if_neg hs]
        by_cases hb : st1.self.NSatsReject > -1 ∧ (t : Int) + 1 > st1.self.NSatsReject
        · rw [if_pos hb]
          exact ⟨_, rfl, hcalls⟩
        · rw [if_neg hb]
          by_cases h34 : st1.iret = -3 ∨ st1.iret = -4
          · rw [if_pos h34]
            exact ⟨_, rfl, hcalls⟩
          · rw [if_neg h34]
            have hlt : t < (GoodIndexes Save).length - 3 := by
              by_contra hcon
              exact h34 (Or.inl (h3 hne (by omega)))
            obtain ⟨c0, rest, hcr⟩ := List.exists_cons_of_ne_nil hne
            obtain ⟨hm0, _⟩ := hhead c0 rest hcr
            have hall' : ∀ c : List Nat,
                c.Sublist (List.range (GoodIndexes Save).length) → c.length = t →
                markCombo Save (GoodIndexes Save) c ∈ st1.calls := by
              rcases hallc with hf | h3' | h0
              · intro c hc hl
                exact hf c (by rw [mem_kSubsets]; exact ⟨hc, hl⟩)
              · exact absurd (Or.inl h3') h34
              · intro c hc hl
                have hc0 : c0 ∈ kSubsets t (List.range (GoodIndexes Save).length) := by
                  rw [hcr]; exact List.mem_cons_self _ _
                have hl0 := (hcs c0 hc0).2
                rw [h0] at hl hl0
                rw [List.length_eq_zero.mp hl, ← List.length_eq_zero.mp hl0]
                exact hm0
            have hnext := SearchInv_next hinv1 hall' hs hb (fun h3' => h34 (Or.inl h3'))
            have hcast : (t : Int) + 1 = ((t + 1 : Nat) : Int) := by push_cast; rfl
            rw [hcast]
            exact ih (t + 1) left st1 (by omega) (by omega) (by omega) hnext


/-- What `PreparePRSolution` leaves for the solver: included satellites of
allowed constellations, and one row of `SVP` for each satellite. -/
theorem PreparePRSolution_for_solver {self : PRSolution} {getXvt : SatID → ℚ → Option Xvt}
    {Tr : ℚ} {Sats : List SatID} {Pseudorange : List ℚ} {p : Prepared}
    (h : PreparePRSolution self getXvt Tr Sats Pseudorange = some p) :
    (∀ s' ∈ p.Sats, 0 < s'.id → s'.system ∈ self.allowedGNSS) ∧
    self.allowedGNSS ≠ [] ∧ p.Sats.length = p.SVP.length ∧ p.Sats.length = Sats.length := by
  obtain ⟨l1, l2, hat⟩ := PreparePRSolution_at h
  refine ⟨?_, ?_, by rw [l1, l2], l1⟩
  · intro s' hs' hpos
    obtain ⟨i, hi⟩ := List.mem_iff_getElem?.mp hs'
    obtain ⟨s0, row, _, _, q3, _, _, _, q7, _⟩ := hat i s' hi
    rw [q3]
    exact (q7.mp hpos).2.1
  · intro e
    unfold PreparePRSolution at h
    rw [e] at h
    simp at h

/-- C29. The stage loop of `RAIMCompute` returns for every input whose solver
calls return (tropospheric model given, `invMC` empty or of the size of the
satellite list), also with `NSatsReject = -1`: with `N` good satellites, a
solver call that leaves fewer than four of them returns -3, which ends the
search, so no solver call excludes more than `max(0, N - 3)` satellites and
`Combinations` is never asked for more than `N` of `N`. With a DOP computation
that does not throw, `RAIMCompute` returns. -/
theorem C29_stage_loop_terminates (self : PRSolution) (ext : External) (Tr : ℚ)
    (Sats : List SatID) (Pseudorange : List ℚ) (invMC : Matrix) (p : Prepared)
    (hp : PreparePRSolution self ext.getXvt Tr Sats Pseudorange = some p) (hN : 0 < p.ret)
    (hinv : invMC.length = 0 ∨ invMC.length = Sats.length) :
    (∃ st, stageLoop ext Tr p.SVP invMC true p.Sats (GoodIndexes p.Sats) p.ret
        (p.ret.toNat + 1) 0 (Search.init (initialise self Tr) p.Sats) = some st ∧
      ∀ m ∈ st.calls, ∃ c : List Nat, c.Sublist (List.range (GoodIndexes p.Sats).length) ∧
        m = markCombo p.Sats (GoodIndexes p.Sats) c ∧ rejected p.Sats m = c.length ∧
        (c.length : Int) ≤ max 0 (p.ret - 3)) ∧
    (∀ (c : List Nat) (self1 : PRSolution) (niterLimit : Int) (convLimit : ℚ)
      (Resids Slopes : Vector), c.Sublist (List.range (GoodIndexes p.Sats).length) →
      p.ret - (c.length : Int) < 4 → self1.allowedGNSS = self.allowedGNSS →
      ∃ q, SimplePRSolution self1 ext Tr (markCombo p.Sats (GoodIndexes p.Sats) c) p.SVP invMC
        true niterLimit convLimit Resids Slopes = some q ∧ q.iret = -3) ∧
    ((∀ M, ext.DOPCompute M ≠ none) →
      ∃ r, RAIMCompute self ext Tr Sats Pseudorange invMC true = some r) := by
  obtain ⟨hall, hdef, hSVP, hlen⟩ := PreparePRSolution_for_solver hp
  have hret : p.ret = ((GoodIndexes p.Sats).length : Int) := PreparePRSolution_good hp hN
  have hinv' : invMC.length = 0 ∨ invMC.length = p.Sats.length := by rw [hlen]; exact hinv
  have hNpos : 0 < (GoodIndexes p.Sats).length := by omega
  have hloop := @stageLoop_returns (initialise self Tr) ext Tr p.SVP invMC p.Sats
    hall hdef hSVP hinv' hNpos ((GoodIndexes p.Sats).length - 3) 0
    ((GoodIndexes p.Sats).length + 1) (Search.init (initialise self Tr) p.Sats)
    (by omega) (by omega) (by omega) (SearchInv_init _ _ _ _ _ _ _)
  obtain ⟨st, hst, hcalls⟩ := hloop
  have hst' : stageLoop ext Tr p.SVP invMC true p.Sats (GoodIndexes p.Sats) p.ret
      (p.ret.toNat + 1) 0 (Search.init (initialise self Tr) p.Sats) = some st := by
    rw [hret]
    simpa using hst
  refine ⟨⟨st, hst', ?_⟩, ?_, ?_⟩
  · intro m hm
    obtain ⟨c, hc, hl, hmc⟩ := hcalls m hm
    refine ⟨c, hc, hmc, ?_, ?_⟩
    · rw [hmc]; exact rejected_markCombo _ _ hc
    · rw [hret]
      have : (0 : Int) ≤ max 0 ((((GoodIndexes p.Sats).length : Nat) : Int) - 3) :=
        le_max_left _ _
      have h2 : ((((GoodIndexes p.Sats).length : Nat) : Int) - 3) ≤
          max 0 ((((GoodIndexes p.Sats).length : Nat) : Int) - 3) := le_max_right _ _
      omega
  · intro c self1 niterLimit convLimit Resids Slopes hc hfew hA
    exact SimplePRSolution_few self1 ext Tr p.Sats p.SVP invMC niterLimit convLimit Resids
      Slopes c (by rw [hA]; exact hall) (by rw [hA]; exact hdef) hSVP hinv' hc
      (by rw [hret] at hfew; omega)
  · intro hdop
    unfold RAIMCompute
    dsimp only
    have hp0 : PreparePRSolution (initialise self Tr) ext.getXvt Tr Sats Pseudorange = some p := by
      rw [PreparePRSolution_congr (a := initialise self Tr) (b := self) rfl]; exact hp
    rw [hp0]
    dsimp only
    rw [if_neg (by omega), hst']
    dsimp only
    unfold finish
    split
    · dsimp only
      split
      · cases hd : ext.DOPCompute (copyOut st.self st.best).Partials with
        | none => exact absurd hd (hdop _)
        | some d => exact ⟨_, rfl⟩
      · exact ⟨_, rfl⟩
    · exact ⟨_, rfl⟩

/-- Witness of C29: epoch C, five satellites, no bound on the rejections; the
search ends at stage 2. -/
theorem C29_stage_loop_terminates_witness :
    prepC = some (prepared prepC) ∧ 0 < (prepared prepC).ret ∧
    (([] : Matrix).length = 0 ∨ ([] : Matrix).length = (exSats 5).length) ∧
    ∃ st, stageLoop extC 0 (prepared prepC).SVP [] true (prepared prepC).Sats
        (GoodIndexes (prepared prepC).Sats) (prepared prepC).ret
        ((prepared prepC).ret.toNat + 1) 0
        (Search.init (initialise selfC 0) (prepared prepC).Sats) = some st ∧
      ∀ m ∈ st.calls, ∃ c : List Nat,
        c.Sublist (List.range (GoodIndexes (prepared prepC).Sats).length) ∧
        m = markCombo (prepared prepC).Sats (GoodIndexes (prepared prepC).Sats) c ∧
        rejected (prepared prepC).Sats m = c.length ∧
        (c.length : Int) ≤ max 0 ((prepared prepC).ret - 3) :=
  ⟨by decide!, by decide!, Or.inl rfl,
    (C29_stage_loop_terminates selfC extC 0 (exSats 5) [0, 0, 0, 0, 0] [] (prepared prepC)
      (by decide!) (by decide!) (Or.inl rfl)).1⟩

end gnsstk
